import Mathlib

/-!
# Motion detector element: embedding and verified properties

A shallow embedding of `gstmotiondetector.c` (the GStreamer 0.10 / OpenCV C
variant; `gstmotiondetector.cpp` has the same state machine and the same loop
over the contours).  The detector instance is a record, every function of the
source that touches it is a pure function on that record, and everything the
element sends out (property notifications, bus messages, armed timers) is
collected in a list so that it can be counted.

The OpenCV routines that the source calls are library code; they are modelled
here by their documented meaning on 8-bit images.  The samples of the
accumulator `run_avg` (`IPL_DEPTH_32F`) are rationals, and its update is given
twice: `cvRunningAvg` in exact arithmetic, over which the properties of one
frame or a few frames are stated, and `cvRunningAvg_32F` with every operation
rounded to single precision, on which the behaviour of the model in the long
run depends.
-/

namespace MotionDetector

/-! ## Images -/

/-- An image header with its pixel data, row after row (`IplImage`). -/
structure IplImage (α : Type) where
  width : Nat
  height : Nat
  imageData : List α
deriving DecidableEq

/-- The pixel in column `x` of row `y`. -/
def IplImage.get {α : Type} [Inhabited α] (img : IplImage α) (x y : Nat) : α :=
  img.imageData.getD (y * img.width + x) default

/-- A fresh `w` by `h` image (`cvCreateImage`) filled pixel by pixel from `f`. -/
def mkImage {α : Type} (w h : Nat) (f : Nat → Nat → α) : IplImage α :=
  { width := w, height := h,
    imageData := (List.range (w * h)).map (fun i => f (i % w) (i / w)) }

/-- Three interleaved 8-bit channels. -/
abbrev Rgb : Type := Nat × Nat × Nat

/-- Three interleaved accumulator channels (`IPL_DEPTH_32F`); the floats are among
the rationals. -/
abbrev RgbF : Type := ℚ × ℚ × ℚ

/-- Apply `f` to each of the three channels. -/
def map3 {α β : Type} (f : α → β) (p : α × α × α) : β × β × β :=
  (f p.1, f p.2.1, f p.2.2)

/-- Combine two pixels channel by channel. -/
def zip3 {α β γ : Type} (f : α → β → γ) (p : α × α × α) (q : β × β × β) : γ × γ × γ :=
  (f p.1 q.1, f p.2.1 q.2.1, f p.2.2 q.2.2)

/-! ## OpenCV routines used by the element -/

/-- Rounding to the nearest integer, ties to the even one (`cvRound`). -/
def cvRound (q : ℚ) : Int :=
  let f := Int.floor q
  let r := q - f
  if r < 1 / 2 then f
  else if 1 / 2 < r then f + 1
  else if f % 2 = 0 then f else f + 1

/-- Clamp an integer to an 8-bit sample (`saturate_cast<uchar>`). -/
def saturate_uchar (i : Int) : Nat :=
  if i < 0 then 0 else if 255 < i then 255 else i.toNat

/-- The call `cvConvertScale (src, dst, 1.0, 0.0)` from 8-bit samples to the accumulator depth. -/
def cvConvertScale_8U_32F (src : IplImage Rgb) : IplImage RgbF :=
  mkImage src.width src.height (fun x y => map3 (fun v : Nat => (v : ℚ)) (src.get x y))

/-- The call `cvConvertScale (src, dst, 1.0, 0.0)` from the accumulator depth to 8-bit
samples; `dst` was created with `size`. -/
def cvConvertScale_32F_8U (size : Nat × Nat) (src : IplImage RgbF) : IplImage Rgb :=
  mkImage size.1 size.2 (fun x y => map3 (fun v : ℚ => saturate_uchar (cvRound v)) (src.get x y))

/-- The call `cvRunningAvg (src, acc, alpha, NULL)`: `acc = (1 - alpha) * acc + alpha * src`,
in exact arithmetic (`cvRunningAvg_32F` is the same call with the rounding of
the accumulator).  OpenCV requires both images to have the same size. -/
def cvRunningAvg (src : IplImage Rgb) (acc : IplImage RgbF) (alpha : ℚ) : IplImage RgbF :=
  mkImage acc.width acc.height
    (fun x y => zip3 (fun (a : ℚ) (v : Nat) => (1 - alpha) * a + alpha * (v : ℚ))
      (acc.get x y) (src.get x y))

/-- The routine `cvAbsDiff` on 8-bit samples. -/
def cvAbsDiff (a b : IplImage Rgb) : IplImage Rgb :=
  mkImage a.width a.height
    (fun x y => zip3 (fun (u v : Nat) => min 255 ((u - v) + (v - u))) (a.get x y) (b.get x y))

/-- The call `cvCvtColor (src, dst, CV_RGB2GRAY)` on 8-bit samples: the fixed-point
luminance `(4899 R + 9617 G + 1868 B + 2^13) >> 14`. -/
def cvCvtColor_RGB2GRAY (src : IplImage Rgb) : IplImage Nat :=
  mkImage src.width src.height
    (fun x y =>
      let p := src.get x y
      (p.1 * 4899 + p.2.1 * 9617 + p.2.2 * 1868 + 8192) / 16384)

/-- The call `cvThreshold (src, dst, threshold, max_value, CV_THRESH_BINARY)`. -/
def cvThreshold (src : IplImage Nat) (threshold max_value : Nat) : IplImage Nat :=
  mkImage src.width src.height (fun x y => if threshold < src.get x y then max_value else 0)

/-- The positions of the 3 by 3 window centred at `(x, y)` that lie inside a
`w` by `h` image (at the image border the library replicates the edge pixels,
which adds nothing to a maximum or minimum over the window). -/
def window3x3 (w h x y : Nat) : List (Nat × Nat) :=
  [(x - 1, y - 1), (x, y - 1), (x + 1, y - 1),
   (x - 1, y), (x, y), (x + 1, y),
   (x - 1, y + 1), (x, y + 1), (x + 1, y + 1)].filter (fun p => p.1 < w ∧ p.2 < h)

/-- One pass of dilation with the default 3 by 3 rectangular element. -/
def dilate3x3 (img : IplImage Nat) : IplImage Nat :=
  mkImage img.width img.height
    (fun x y => ((window3x3 img.width img.height x y).map (fun p => img.get p.1 p.2)).foldl max 0)

/-- One pass of erosion with the default 3 by 3 rectangular element. -/
def erode3x3 (img : IplImage Nat) : IplImage Nat :=
  mkImage img.width img.height
    (fun x y => ((window3x3 img.width img.height x y).map (fun p => img.get p.1 p.2)).foldl min 255)

/-- The call `cvDilate (src, dst, NULL, iterations)`. -/
def cvDilate (src : IplImage Nat) (iterations : Nat) : IplImage Nat :=
  dilate3x3^[iterations] src

/-- The call `cvErode (src, dst, NULL, iterations)`. -/
def cvErode (src : IplImage Nat) (iterations : Nat) : IplImage Nat :=
  erode3x3^[iterations] src

/-! ## Contours -/

/-- A rectangle with `int` fields (`CvRect`). -/
structure CvRect where
  x : Int
  y : Int
  width : Int
  height : Int
deriving DecidableEq

/-- A contour, represented by the pixels of the connected region it encloses
(the region and its outer border have the same bounding rectangle). -/
abbrev CvSeq : Type := List (Nat × Nat)

/-- The pixel positions of a `w` by `h` image in scan order. -/
def pixelPositions (w h : Nat) : List (Nat × Nat) :=
  (List.range (w * h)).map (fun i => (i % w, i / w))

/-- Every non-zero pixel starts with its own scan index (plus one) as label. -/
def labelInit (m : IplImage Nat) : IplImage Nat :=
  mkImage m.width m.height (fun x y => if m.get x y = 0 then 0 else y * m.width + x + 1)

/-- Every labelled pixel takes the smallest label found in its 3 by 3 window
(8-connectivity). -/
def labelStep (l : IplImage Nat) : IplImage Nat :=
  mkImage l.width l.height
    (fun x y =>
      if l.get x y = 0 then 0
      else (((window3x3 l.width l.height x y).map (fun p => l.get p.1 p.2)).filter
        (fun v => v ≠ 0)).foldl min (l.get x y))

/-- Labels after as many rounds as there are pixels: each non-zero pixel
carries the scan index (plus one) of the first pixel of its 8-connected
region. -/
def componentLabels (m : IplImage Nat) : IplImage Nat :=
  labelStep^[m.width * m.height] (labelInit m)

/-- The call `cvFindContours (gr, store, &contour, sizeof (CvContour), CV_RETR_CCOMP,
CV_CHAIN_APPROX_SIMPLE, cvPoint (0, 0))` followed along `h_next`: one contour
per 8-connected region of non-zero pixels, holes not listed.  The regions are
listed here by the scan position of their first pixel; the order in which the
library links them plays no part in what is proved below. -/
def cvFindContours (m : IplImage Nat) : List CvSeq :=
  let l := componentLabels m
  let ps := pixelPositions m.width m.height
  (ps.filter (fun p => l.get p.1 p.2 = p.2 * m.width + p.1 + 1)).map
    (fun r => ps.filter (fun p => l.get p.1 p.2 = r.2 * m.width + r.1 + 1))

/-- The call `cvBoundingRect (contour, 0)`. -/
def cvBoundingRect (contour : CvSeq) : CvRect :=
  match contour with
  | [] => { x := 0, y := 0, width := 0, height := 0 }
  | p :: ps =>
    let xmin := (ps.map Prod.fst).foldl min p.1
    let xmax := (ps.map Prod.fst).foldl max p.1
    let ymin := (ps.map Prod.snd).foldl min p.2
    let ymax := (ps.map Prod.snd).foldl max p.2
    { x := (xmin : Int), y := (ymin : Int),
      width := ((xmax - xmin + 1 : Nat) : Int), height := ((ymax - ymin + 1 : Nat) : Int) }

/-- The call `cvRectangle (img, pt1, pt2, color, 1, 8, 0)`: the one pixel wide outline of
the rectangle with opposite corners `(x1, y1)` and `(x2, y2)`, clipped to the image. -/
def cvRectangle (img : IplImage Rgb) (x1 y1 x2 y2 : Int) (color : Rgb) : IplImage Rgb :=
  mkImage img.width img.height
    (fun x y =>
      if x1 ≤ (x : Int) ∧ (x : Int) ≤ x2 ∧ y1 ≤ (y : Int) ∧ (y : Int) ≤ y2 ∧
          ((x : Int) = x1 ∨ (x : Int) = x2 ∨ (y : Int) = y1 ∨ (y : Int) = y2)
      then color else img.get x y)

/-! ## The element -/

/-- Conversion of an `int` to `guint` (32 bits). -/
def toGuint (i : Int) : Nat := (i % 4294967296).toNat

/-- The instance record (`struct _GstMotionDetector`).  The header
`currentImage` always has the negotiated size and is represented by `width`
and `height`; `run_avg = none` is the `NULL` pointer. -/
structure GstMotionDetector where
  motion_detected : Bool
  post_messages : Bool
  draw_motion : Bool
  avg_weight : ℚ
  threshold : Nat
  dilate_iterations : Nat
  erode_iterations : Nat
  min_blob_size : Nat
  max_blob_size : Nat
  num_blobs : Nat
  rate_limit : Nat
  rate_inhibit : Bool
  width : Nat
  height : Nat
  run_avg : Option (IplImage RgbF)

/-- What the element sends out, in the order of the calls. -/
inductive Emitted where
  /-- The call `g_object_notify (G_OBJECT (filter), "motion-detected")`, with the value
  the property has at that moment. -/
  | notify_motion_detected (value : Bool)
  /-- The application message `motion-data` posted on the bus. -/
  | motion_data (motion_detected : Bool) (num_blobs : Nat)
  /-- The element message `motion` posted for one blob. -/
  | motion (x y width height : Nat)
  /-- The call `g_timeout_add (interval, gst_motion_detector_rate_timeout, filter)`. -/
  | timeout_add (interval : Nat)
deriving DecidableEq

def DEFAULT_MOTION_DETECTED : Bool := false
def DEFAULT_POST_MESSAGES : Bool := false
def DEFAULT_DRAW_MOTION : Bool := false
def DEFAULT_AVG_WEIGHT : ℚ := 2 / 100
def DEFAULT_THRESHOLD : Nat := 70
def DEFAULT_DILATE_ITERATIONS : Nat := 18
def DEFAULT_ERODE_ITERATIONS : Nat := 10
def DEFAULT_MIN_BLOB_SIZE : Nat := 10
def DEFAULT_MAX_BLOB_SIZE : Nat := 255
def DEFAULT_NUM_BLOBS : Nat := 0
def DEFAULT_RATE_LIMIT : Nat := 500

/-- The instance initialiser; the instance memory starts zeroed, so `width`
and `height` are 0 until caps are set. -/
def gst_motion_detector_init : GstMotionDetector :=
  { motion_detected := DEFAULT_MOTION_DETECTED
    post_messages := DEFAULT_POST_MESSAGES
    draw_motion := DEFAULT_DRAW_MOTION
    avg_weight := DEFAULT_AVG_WEIGHT
    threshold := DEFAULT_THRESHOLD
    dilate_iterations := DEFAULT_DILATE_ITERATIONS
    erode_iterations := DEFAULT_ERODE_ITERATIONS
    min_blob_size := DEFAULT_MIN_BLOB_SIZE
    max_blob_size := DEFAULT_MAX_BLOB_SIZE
    num_blobs := DEFAULT_NUM_BLOBS
    rate_limit := DEFAULT_RATE_LIMIT
    rate_inhibit := false
    width := 0
    height := 0
    run_avg := none }

/-- The timer callback: the cooldown is over. -/
def gst_motion_detector_rate_timeout (filter : GstMotionDetector) : GstMotionDetector :=
  { filter with rate_inhibit := false }

/-- The property identifiers of the element. -/
inductive PropId where
  | PROP_0
  | PROP_MOTION_DETECTED
  | PROP_POST_MESSAGES
  | PROP_DRAW_MOTION
  | PROP_AVG_WEIGHT
  | PROP_THRESHOLD
  | PROP_DILATE_ITERATIONS
  | PROP_ERODE_ITERATIONS
  | PROP_MINIMUM_BLOB_SIZE
  | PROP_MAXIMUM_BLOB_SIZE
  | PROP_NUM_BLOBS
  | PROP_RATE_LIMIT
deriving DecidableEq

/-- A property value (`GValue`) of one of the three types the element uses. -/
inductive GValue where
  | bool (v : Bool)
  | double (v : ℚ)
  | uint (v : Nat)
deriving DecidableEq

/-- The boolean held by a value, `FALSE` when it holds something else. -/
def g_value_get_boolean (value : GValue) : Bool :=
  match value with
  | GValue.bool v => v
  | _ => false

/-- The double held by a value, 0 when it holds something else. -/
def g_value_get_double (value : GValue) : ℚ :=
  match value with
  | GValue.double v => v
  | _ => 0

/-- The unsigned integer held by a value, 0 when it holds something else. -/
def g_value_get_uint (value : GValue) : Nat :=
  match value with
  | GValue.uint v => v
  | _ => 0

/-- The property setter; an identifier that is not writable only gives a warning. -/
def gst_motion_detector_set_property (filter : GstMotionDetector) (prop_id : PropId)
    (value : GValue) : GstMotionDetector :=
  match prop_id with
  | PropId.PROP_POST_MESSAGES => { filter with post_messages := ( g_value_get_boolean value) }
  | PropId.PROP_DRAW_MOTION => { filter with draw_motion := ( g_value_get_boolean value) }
  | PropId.PROP_AVG_WEIGHT => { filter with avg_weight := g_value_get_double value }
  | PropId.PROP_THRESHOLD => { filter with threshold := g_value_get_uint value }
  | PropId.PROP_DILATE_ITERATIONS => { filter with dilate_iterations := g_value_get_uint value }
  | PropId.PROP_ERODE_ITERATIONS => { filter with erode_iterations := g_value_get_uint value }
  | PropId.PROP_MINIMUM_BLOB_SIZE => { filter with min_blob_size := g_value_get_uint value }
  | PropId.PROP_MAXIMUM_BLOB_SIZE => { filter with max_blob_size := g_value_get_uint value }
  | PropId.PROP_RATE_LIMIT => { filter with rate_limit := g_value_get_uint value }
  | _ => filter

/-- The caps setter, called with the `width` and `height` fields of the caps:
it stores them and creates the header `currentImage` of that size. -/
def gst_motion_detector_set_caps (filter : GstMotionDetector) (width height : Nat) :
    GstMotionDetector :=
  { filter with width := width, height := height }

/-- The size test of the contour loop: `true` when the loop takes `continue`.
The `int` fields of the rectangle are compared with `guint` bounds, so they are
converted to `guint` first. -/
def blob_rejected (filter : GstMotionDetector) (bind_rect : CvRect) : Bool :=
  decide (toGuint bind_rect.width < filter.min_blob_size) ||
  decide (toGuint bind_rect.height < filter.min_blob_size) ||
  decide (toGuint bind_rect.width > filter.max_blob_size) ||
  decide (toGuint bind_rect.height > filter.max_blob_size)

/-- The local state of the contour loop: the counter, the messages posted so
far and the image being drawn on. -/
structure BlobLoop where
  num_blobs : Nat
  posted : List Emitted
  src : IplImage Rgb

/-- One round of the contour loop, for a contour with bounding rectangle `bind_rect`. -/
def blob_loop_body (filter : GstMotionDetector) (st : BlobLoop) (bind_rect : CvRect) : BlobLoop :=
  if blob_rejected filter bind_rect then st
  else
    { num_blobs := st.num_blobs + 1
      posted :=
        if filter.post_messages then
          st.posted ++ [Emitted.motion (toGuint bind_rect.x) (toGuint bind_rect.y)
            (toGuint bind_rect.width) (toGuint bind_rect.height)]
        else st.posted
      src :=
        if filter.draw_motion then
          cvRectangle st.src bind_rect.x bind_rect.y (bind_rect.x + bind_rect.width)
            (bind_rect.y + bind_rect.height) (0, 0, 255)
        else st.src }

/-- The contour loop over the bounding rectangles of the contours, in `h_next` order. -/
def blob_loop (filter : GstMotionDetector) (src : IplImage Rgb) (rects : List CvRect) : BlobLoop :=
  rects.foldl (blob_loop_body filter) { num_blobs := 0, posted := [], src := src }

/-- The background model after the frame `src` has been taken into account. -/
def update_run_avg (filter : GstMotionDetector) (src : IplImage Rgb) : IplImage RgbF :=
  match filter.run_avg with
  | none => cvConvertScale_8U_32F src
  | some acc => cvRunningAvg src acc filter.avg_weight

/-- The grey difference image `gr` before it is thresholded. -/
def difference_image (filter : GstMotionDetector) (src : IplImage Rgb) : IplImage Nat :=
  let tmp := cvConvertScale_32F_8U (src.width, src.height) (update_run_avg filter src)
  let diff := cvAbsDiff src tmp
  cvCvtColor_RGB2GRAY diff

/-- The binary image `gr` that is handed to `cvFindContours`. -/
def motion_mask (filter : GstMotionDetector) (src : IplImage Rgb) : IplImage Nat :=
  let gr := cvThreshold (difference_image filter src) filter.threshold 255
  let gr := cvDilate gr filter.dilate_iterations
  cvErode gr filter.erode_iterations

/-- The bounding rectangles the contour loop goes through for the frame `src`. -/
def contour_rects (filter : GstMotionDetector) (src : IplImage Rgb) : List CvRect :=
  (cvFindContours (motion_mask filter src)).map cvBoundingRect

/-- Processing of one frame: background update, difference, threshold,
morphology, contours and the contour loop.  Returns the instance, the
messages posted and the image `src` (with the rectangles drawn on it when
`draw_motion` is set).  The `gint` counter of the loop is stored in the
`guint` field `num_blobs`. -/
def gst_motion_detector_process_image (filter : GstMotionDetector) (src : IplImage Rgb) :
    GstMotionDetector × List Emitted × IplImage Rgb :=
  let st := blob_loop filter src (contour_rects filter src)
  ({ filter with
      run_avg := some (update_run_avg filter src)
      num_blobs := st.num_blobs % 4294967296 },
    st.posted, st.src)

/-- The motion state machine at the end of the chain function, run when the
element is not rate-inhibited. -/
def chain_transition (filter : GstMotionDetector) : GstMotionDetector × List Emitted :=
  let r : GstMotionDetector × List Emitted :=
    if decide (filter.num_blobs > 0) && !filter.motion_detected then
      ({ filter with motion_detected := true },
        Emitted.notify_motion_detected true ::
          (if filter.post_messages then [Emitted.motion_data true filter.num_blobs] else []))
    else if filter.motion_detected then
      ({ filter with motion_detected := false },
        Emitted.notify_motion_detected false ::
          (if filter.post_messages then [Emitted.motion_data false 0] else []))
    else (filter, [])
  if r.1.rate_limit > 0 then
    ({ r.1 with rate_inhibit := true }, r.2 ++ [Emitted.timeout_add r.1.rate_limit])
  else r

/-- The image header `currentImage` with its data pointer set to the data of
the buffer `buf`. -/
def currentImage (filter : GstMotionDetector) (buf : List Rgb) : IplImage Rgb :=
  { width := filter.width, height := filter.height, imageData := buf }

/-- The chain function for one buffer `buf`, whose data becomes the data of
`currentImage`.  Returns the instance, what was sent out and the buffer pushed
on the source pad: its data is the data of the processed image, on which the
rectangles are drawn only when `draw_motion` is set. -/
def gst_motion_detector_chain (filter : GstMotionDetector) (buf : List Rgb) :
    GstMotionDetector × List Emitted × IplImage Rgb :=
  let p := gst_motion_detector_process_image filter (currentImage filter buf)
  if !p.1.rate_inhibit then
    let t := chain_transition p.1
    (t.1, p.2.1 ++ t.2, p.2.2)
  else (p.1, p.2.1, p.2.2)

/-! ## Runs -/

/-- What can happen to the element between two moments: a buffer arrives on
the sink pad, or the cooldown timer armed by `g_timeout_add` expires. -/
inductive Event where
  | frame (buf : List Rgb)
  | rate_timeout

/-- The effect of one event on the instance, with what is sent out. -/
def step (filter : GstMotionDetector) (e : Event) : GstMotionDetector × List Emitted :=
  match e with
  | Event.frame buf =>
    ((gst_motion_detector_chain filter buf).1, (gst_motion_detector_chain filter buf).2.1)
  | Event.rate_timeout => (gst_motion_detector_rate_timeout filter, [])

/-- The effect of a sequence of events. -/
def run (filter : GstMotionDetector) (es : List Event) : GstMotionDetector × List Emitted :=
  match es with
  | [] => (filter, [])
  | e :: rest =>
    ((run (step filter e).1 rest).1, (step filter e).2 ++ (run (step filter e).1 rest).2)

/-- The number of "motion started" notifications among what was sent out. -/
def motion_started_count (emitted : List Emitted) : Nat :=
  emitted.count (Emitted.notify_motion_detected true)

/-! ## Observations -/

/-- The surviving blob count that processing the buffer `buf` stores in `num_blobs`. -/
def frame_num_blobs (filter : GstMotionDetector) (buf : List Rgb) : Nat :=
  (gst_motion_detector_process_image filter (currentImage filter buf)).1.num_blobs

/-- Is this a change notification of `motion-detected`? -/
def Emitted.isNotify : Emitted → Bool
  | Emitted.notify_motion_detected _ => true
  | _ => false

/-- Is this a `motion-data` message? -/
def Emitted.isMotionData : Emitted → Bool
  | Emitted.motion_data _ _ => true
  | _ => false

/-- Is this the arming of the cooldown timer? -/
def Emitted.isTimeoutAdd : Emitted → Bool
  | Emitted.timeout_add _ => true
  | _ => false

/-- The size test as the specification words it: both sides within the
inclusive bounds. -/
def within_blob_bounds (min_blob_size max_blob_size : Nat) (r : CvRect) : Prop :=
  (min_blob_size : Int) ≤ r.width ∧ r.width ≤ (max_blob_size : Int) ∧
  (min_blob_size : Int) ≤ r.height ∧ r.height ≤ (max_blob_size : Int)

instance (a b : Nat) (r : CvRect) : Decidable (within_blob_bounds a b r) := by
  unfold within_blob_bounds
  infer_instance

/-- No pixel of the image is set. -/
def IsBlank (m : IplImage Nat) : Prop :=
  ∀ x y, x < m.width → y < m.height → m.get x y = 0

/-- Every sample of the frame is an 8-bit value. -/
def Is8Bit (src : IplImage Rgb) : Prop :=
  ∀ x y, x < src.width → y < src.height →
    (src.get x y).1 ≤ 255 ∧ (src.get x y).2.1 ≤ 255 ∧ (src.get x y).2.2 ≤ 255

/-- The background model holds exactly the samples of the frame. -/
def SameAsFrame (bg : IplImage RgbF) (src : IplImage Rgb) : Prop :=
  bg.width = src.width ∧ bg.height = src.height ∧
  ∀ x y, x < src.width → y < src.height →
    bg.get x y = map3 (fun v : Nat => (v : ℚ)) (src.get x y)

/-- Every pixel of `a` is at most the pixel of `b` at the same place. -/
def MaskLe (a b : IplImage Nat) : Prop :=
  a.width = b.width ∧ a.height = b.height ∧
  ∀ x y, x < a.width → y < a.height → a.get x y ≤ b.get x y

/-- The binary image whose set pixels are those of the rectangle with columns
`a` to `b` and rows `c` to `d`, bounds included. -/
def rectMask (w h a b c d : Nat) : IplImage Nat :=
  mkImage w h (fun x y => if a ≤ x ∧ x ≤ b ∧ c ≤ y ∧ y ≤ d then 255 else 0)

/-- The labels of a filled rectangle after `k` rounds of `labelStep`: each
pixel of the rectangle carries the scan index (plus one) of the pixel `k`
steps up and to the left, stopped at the corner of the rectangle. -/
def rectLabels (w h a b c d k : Nat) : IplImage Nat :=
  mkImage w h
    (fun x y => if a ≤ x ∧ x ≤ b ∧ c ≤ y ∧ y ≤ d then max (y - k) c * w + max (x - k) a + 1 else 0)

/-! ## Small concrete inputs -/

/-- A black pixel. -/
def black : Rgb := (0, 0, 0)

/-- A white pixel. -/
def white : Rgb := (255, 255, 255)

/-- A 3 by 3 black frame. -/
def frame_black : List Rgb := [black, black, black, black, black, black, black, black, black]

/-- A 3 by 3 black frame with a white pixel in the middle. -/
def frame_dot : List Rgb := [black, black, black, black, white, black, black, black, black]

/-- A detector negotiated for 3 by 3 frames, without morphology, accepting
blobs of one pixel, whose background is black. -/
def small_detector : GstMotionDetector :=
  { gst_motion_detector_init with
    width := 3
    height := 3
    dilate_iterations := 0
    erode_iterations := 0
    min_blob_size := 1
    run_avg := some (mkImage 3 3 (fun _ _ => (0, 0, 0))) }

/-- The small detector while motion is being reported. -/
def active_detector : GstMotionDetector :=
  { small_detector with motion_detected := true }

/-- The small detector during a cooldown. -/
def inhibited_detector : GstMotionDetector :=
  { small_detector with rate_inhibit := true }

/-- A freshly initialised detector configured through its properties (no
morphology, blobs of one pixel accepted) and negotiated for 3 by 3 frames. -/
def configured_detector : GstMotionDetector :=
  gst_motion_detector_set_caps
    (gst_motion_detector_set_property
      (gst_motion_detector_set_property
        (gst_motion_detector_set_property gst_motion_detector_init
          PropId.PROP_DILATE_ITERATIONS (GValue.uint 0))
        PropId.PROP_ERODE_ITERATIONS (GValue.uint 0))
      PropId.PROP_MINIMUM_BLOB_SIZE (GValue.uint 1))
    3 3

/-- A grey pixel. -/
def grey : Rgb := (100, 100, 100)

/-- A 5 by 3 frame: two white pixels joined by a grey one, on black. -/
def frame_bridge : List Rgb :=
  [black, black, black, black, black,
   black, white, grey, white, black,
   black, black, black, black, black]

/-- A detector negotiated for 5 by 3 frames, without morphology, accepting
blobs of one pixel, whose background is black, with the given threshold. -/
def bridge_detector (threshold : Nat) : GstMotionDetector :=
  { gst_motion_detector_init with
    width := 5
    height := 3
    threshold := threshold
    dilate_iterations := 0
    erode_iterations := 0
    min_blob_size := 1
    run_avg := some (mkImage 5 3 (fun _ _ => (0, 0, 0))) }

/-- A 100 by 100 black image. -/
def black_image_100 : IplImage Rgb := mkImage 100 100 (fun _ _ => black)

/-- A 100 by 100 black image with a white square of 20 by 20 pixels whose top
left corner is at (40, 40). -/
def square_image_100 : IplImage Rgb :=
  mkImage 100 100 (fun x y => if 40 ≤ x ∧ x ≤ 59 ∧ 40 ≤ y ∧ y ≤ 59 then white else black)

/-- The buffer of a 100 by 100 black frame. -/
def black_frame_100 : List Rgb := black_image_100.imageData

/-- The buffer of the 100 by 100 frame with the white square. -/
def square_frame_100 : List Rgb := square_image_100.imageData

/-- A freshly initialised detector with the default configuration,
`post-messages` set as given, negotiated for 100 by 100 frames. -/
def default_detector_100 (post_messages : Bool) : GstMotionDetector :=
  gst_motion_detector_set_caps
    (gst_motion_detector_set_property gst_motion_detector_init
      PropId.PROP_POST_MESSAGES (GValue.bool post_messages))
    100 100

/-- What holds of the default detector while it is fed black 100 by 100
frames: the configuration is the default one, no motion is reported, and the
background model, once created, is black. -/
structure BlackRun (post_messages : Bool) (s : GstMotionDetector) : Prop where
  post_messages_eq : s.post_messages = post_messages
  draw_motion_eq : s.draw_motion = false
  avg_weight_eq : s.avg_weight = 2 / 100
  threshold_eq : s.threshold = 70
  dilate_eq : s.dilate_iterations = 18
  erode_eq : s.erode_iterations = 10
  min_eq : s.min_blob_size = 10
  max_eq : s.max_blob_size = 255
  rate_limit_eq : s.rate_limit = 500
  width_eq : s.width = 100
  height_eq : s.height = 100
  idle : s.motion_detected = false
  background : ∀ bg, s.run_avg = some bg → SameAsFrame bg black_image_100

/-! ## The life of an instance -/

/-- What can be done to an instance from outside: a buffer arrives, the
cooldown timer expires, a property is set, caps are set. -/
inductive Action where
  | frame (buf : List Rgb)
  | rate_timeout
  | set_property (prop_id : PropId) (value : GValue)
  | set_caps (width height : Nat)

/-- The instance after one action. -/
def apply_action (filter : GstMotionDetector) (a : Action) : GstMotionDetector :=
  match a with
  | Action.frame buf => (gst_motion_detector_chain filter buf).1
  | Action.rate_timeout => gst_motion_detector_rate_timeout filter
  | Action.set_property prop_id value => gst_motion_detector_set_property filter prop_id value
  | Action.set_caps width height => gst_motion_detector_set_caps filter width height

/-- The instance after a sequence of actions. -/
def apply_actions (filter : GstMotionDetector) (actions : List Action) : GstMotionDetector :=
  actions.foldl apply_action filter

/-- The action does not set `rate-limit` to a value other than 0. -/
def keeps_rate_limit_zero (a : Action) : Prop :=
  match a with
  | Action.set_property PropId.PROP_RATE_LIMIT value => g_value_get_uint value = 0
  | _ => True

/-! ## The size test of the other variant -/

/-- Conversion of a `guint` to `gint` (32 bits, two's complement): the cast
`(gint)` of `gstmotiondetector.cpp`. -/
def toGint (n : Nat) : Int :=
  if n % 4294967296 < 2147483648 then ((n % 4294967296 : Nat) : Int)
  else ((n % 4294967296 : Nat) : Int) - 4294967296

/-- The size test of the contour loop in `gstmotiondetector.cpp`: the `guint`
bounds are cast to `gint` and compared with the `int` fields. -/
def blob_rejected_cpp (filter : GstMotionDetector) (bind_rect : CvRect) : Bool :=
  decide (bind_rect.width < toGint filter.min_blob_size) ||
  decide (bind_rect.height < toGint filter.min_blob_size) ||
  decide (bind_rect.width > toGint filter.max_blob_size) ||
  decide (bind_rect.height > toGint filter.max_blob_size)

/-- The size test over the integers: a side below the minimum or above the maximum. -/
def outside_blob_bounds (min_blob_size max_blob_size : Nat) (r : CvRect) : Prop :=
  r.width < (min_blob_size : Int) ∨ r.height < (min_blob_size : Int) ∨
  r.width > (max_blob_size : Int) ∨ r.height > (max_blob_size : Int)


/-- The small detector with the cooldown switched off through the property. -/
def free_running_detector : GstMotionDetector :=
  gst_motion_detector_set_property small_detector PropId.PROP_RATE_LIMIT (GValue.uint 0)

/-- Is this the `motion` message of one blob? -/
def Emitted.isMotion : Emitted → Bool
  | Emitted.motion _ _ _ _ => true
  | _ => false

/-- The `motion` message that the contour loop posts for the rectangle `r`. -/
def motion_record (r : CvRect) : Emitted :=
  Emitted.motion (toGuint r.x) (toGuint r.y) (toGuint r.width) (toGuint r.height)


/-! ## The configuration -/

/-- The values a property accepts, as declared with its param spec in the
class initialiser; `motion-detected` and `num-blobs` are read-only. -/
def in_declared_domain (prop_id : PropId) (value : GValue) : Prop :=
  match prop_id, value with
  | PropId.PROP_POST_MESSAGES, GValue.bool _ => True
  | PropId.PROP_DRAW_MOTION, GValue.bool _ => True
  | PropId.PROP_AVG_WEIGHT, GValue.double v => 0 ≤ v ∧ v ≤ 1
  | PropId.PROP_THRESHOLD, GValue.uint v => v ≤ 255
  | PropId.PROP_DILATE_ITERATIONS, GValue.uint v => v ≤ 255
  | PropId.PROP_ERODE_ITERATIONS, GValue.uint v => v ≤ 255
  | PropId.PROP_MINIMUM_BLOB_SIZE, GValue.uint v => v ≤ 255
  | PropId.PROP_MAXIMUM_BLOB_SIZE, GValue.uint v => v ≤ 255
  | PropId.PROP_RATE_LIMIT, GValue.uint v => v ≤ 4294967295
  | _, _ => False

/-- The configuration invariant of the specification. -/
def config_invariant (s : GstMotionDetector) : Prop :=
  0 ≤ s.avg_weight ∧ s.avg_weight ≤ 1 ∧ s.min_blob_size ≤ s.max_blob_size

/-- Every option lies in the range declared for it. -/
def in_declared_ranges (s : GstMotionDetector) : Prop :=
  0 ≤ s.avg_weight ∧ s.avg_weight ≤ 1 ∧ s.threshold ≤ 255 ∧ s.dilate_iterations ≤ 255 ∧
  s.erode_iterations ≤ 255 ∧ s.min_blob_size ≤ 255 ∧ s.max_blob_size ≤ 255 ∧
  s.rate_limit ≤ 4294967295


/-! ## The background model over several frames -/

/-- The instance after the frames have been processed one after the other. -/
def feed_frames (filter : GstMotionDetector) (frames : List (IplImage Rgb)) : GstMotionDetector :=
  frames.foldl (fun s f => (gst_motion_detector_process_image s f).1) filter

/-- The background update of the specification, pixel by pixel: the first
frame is taken as it is, a later frame `f` changes the background `bg` to
`bg * (1 - avg_weight) + f * avg_weight`. -/
def reference_update (avg_weight : ℚ) (background : Option (Nat → Nat → RgbF))
    (f : Nat → Nat → Rgb) : Nat → Nat → RgbF :=
  match background with
  | none => fun x y => map3 (fun v : Nat => (v : ℚ)) (f x y)
  | some bg =>
    fun x y => zip3 (fun (a : ℚ) (v : Nat) => a * (1 - avg_weight) + (v : ℚ) * avg_weight)
      (bg x y) (f x y)

/-- The background of the specification after a sequence of frames, starting
without a background. -/
def reference_background (avg_weight : ℚ) (frames : List (Nat → Nat → Rgb)) :
    Option (Nat → Nat → RgbF) :=
  frames.foldl (fun bg f => some (reference_update avg_weight bg f)) none

/-- The background model of the instance agrees with a background of the
specification on a `w` by `h` image. -/
def agrees_with_reference (w h : Nat) (run_avg : Option (IplImage RgbF))
    (reference : Option (Nat → Nat → RgbF)) : Prop :=
  match run_avg, reference with
  | none, none => True
  | some bg, some r =>
    bg.width = w ∧ bg.height = h ∧ ∀ x y, x < w → y < h → bg.get x y = r x y
  | _, _ => False

/-- A 3 by 3 image from the buffer of a frame. -/
def image3 (buf : List Rgb) : IplImage Rgb :=
  { width := 3, height := 3, imageData := buf }


/-! ## The size of the background model -/

/-- The background model, when allocated, has the negotiated size. -/
def model_fits_caps (s : GstMotionDetector) : Prop :=
  ∀ bg, s.run_avg = some bg → bg.width = s.width ∧ bg.height = s.height

/-- The action is not a caps setting with another size while a background
model exists. -/
def keeps_model_size (s : GstMotionDetector) (a : Action) : Prop :=
  match a with
  | Action.set_caps width height => s.run_avg = none ∨ (width = s.width ∧ height = s.height)
  | _ => True

/-- No action of the sequence, at the state it meets, is a caps setting with
another size while a background model exists. -/
def steady_caps (s : GstMotionDetector) (actions : List Action) : Prop :=
  match actions with
  | [] => True
  | a :: rest => keeps_model_size s a ∧ steady_caps (apply_action s a) rest

/-- The initial detector after caps for 3 by 3 frames, one black frame, and
new caps for 5 by 3 frames. -/
def resized_detector : GstMotionDetector :=
  apply_actions gst_motion_detector_init
    [Action.set_caps 3 3, Action.frame frame_black, Action.set_caps 5 3]


/-- The distance between a pixel of the background model and a pixel of a
frame: the largest of the distances of the three channels. -/
def pixel_distance (a : RgbF) (v : Rgb) : ℚ :=
  max |a.1 - (v.1 : ℚ)| (max |a.2.1 - (v.2.1 : ℚ)| |a.2.2 - (v.2.2 : ℚ)|)


/-! ## The background model in single precision -/

/-- The search for the binary exponent of a non-negative `x`: halve while
`2 ≤ x`, double while `x < 1`, `fuel` times at most. -/
def float_exponent_aux : Nat → ℚ → Int
  | 0, _ => 0
  | fuel + 1, x =>
    if 2 ≤ x then float_exponent_aux fuel (x / 2) + 1
    else if x < 1 then float_exponent_aux fuel (2 * x) - 1
    else 0

/-- The exponent of the floats next to `x`: the binary exponent of `x`, and
`-126`, the exponent of the smallest normal float, for everything below. -/
def float_exponent (x : ℚ) : Int := max (-126) (float_exponent_aux 300 |x|)

/-- Rounding to the nearest `float` (IEEE 754 single precision: 24 significant
bits, ties to the even significand).  Values beyond the largest float, which
the format turns into infinities, do not occur with 8-bit samples. -/
def round_float32 (x : ℚ) : ℚ :=
  (cvRound (x / 2 ^ (float_exponent x - 23)) : ℚ) * 2 ^ (float_exponent x - 23)

/-- One sample of `cvRunningAvg` on a 32F accumulator: the weight arrives as a
`float`, `beta = 1 - alpha` is formed in `float`, and the sample `d` of the
accumulator becomes `d * beta + v * alpha`, each of the three operations
rounded to `float`. -/
def accumulate_32F (alpha : ℚ) (d : ℚ) (v : Nat) : ℚ :=
  round_float32 (round_float32 (d * round_float32 (1 - round_float32 alpha))
    + round_float32 ((v : ℚ) * round_float32 alpha))

/-- The call `cvRunningAvg (src, acc, alpha, NULL)` with the accumulator in
single precision. -/
def cvRunningAvg_32F (src : IplImage Rgb) (acc : IplImage RgbF) (alpha : ℚ) : IplImage RgbF :=
  mkImage acc.width acc.height
    (fun x y => zip3 (accumulate_32F alpha) (acc.get x y) (src.get x y))

/-- The background model after the frame `src` has been taken into account,
in single precision (8-bit samples are floats, so that the first branch is
exact). -/
def update_run_avg_32F (filter : GstMotionDetector) (src : IplImage Rgb) : IplImage RgbF :=
  match filter.run_avg with
  | none => cvConvertScale_8U_32F src
  | some acc => cvRunningAvg_32F src acc filter.avg_weight

/-- The background model of the instance after the frame `f` has been
processed `n` times, in single precision. -/
def feed_static_32F (filter : GstMotionDetector) (f : IplImage Rgb) (n : Nat) :
    GstMotionDetector :=
  (fun s => { s with run_avg := some (update_run_avg_32F s f) })^[n] filter

/-- A white frame of one pixel. -/
def white_frame_1 : IplImage Rgb := { width := 1, height := 1, imageData := [white] }

/-- A background model of one pixel with the value `v` in each channel. -/
def grey_model_1 (v : ℚ) : IplImage RgbF := mkImage 1 1 (fun _ _ => (v, v, v))

/-- A detector with the default weight negotiated for frames of one pixel,
whose background is black. -/
def pixel_detector : GstMotionDetector :=
  { gst_motion_detector_init with
    width := 1
    height := 1
    run_avg := some (grey_model_1 0) }


/-! ## The contour loop -/

theorem blob_loop_foldl_num_blobs (filter : GstMotionDetector) (rects : List CvRect)
    (st : BlobLoop) :
    (rects.foldl (blob_loop_body filter) st).num_blobs =
      st.num_blobs + (rects.filter (fun r => !blob_rejected filter r)).length := by
  induction rects generalizing st with
  | nil => simp
  | cons r rs ih =>
    rw [List.foldl_cons, ih]
    by_cases h : blob_rejected filter r = true
    · simp [blob_loop_body, h]
    · simp [blob_loop_body, h]
      omega

theorem blob_loop_num_blobs (filter : GstMotionDetector) (src : IplImage Rgb)
    (rects : List CvRect) :
    (blob_loop filter src rects).num_blobs =
      (rects.filter (fun r => !blob_rejected filter r)).length := by
  simp [blob_loop, blob_loop_foldl_num_blobs]

/-! ## The motion state machine -/

theorem process_image_fields (filter : GstMotionDetector) (src : IplImage Rgb) :
    (gst_motion_detector_process_image filter src).1.rate_inhibit = filter.rate_inhibit ∧
    (gst_motion_detector_process_image filter src).1.motion_detected = filter.motion_detected ∧
    (gst_motion_detector_process_image filter src).1.post_messages = filter.post_messages ∧
    (gst_motion_detector_process_image filter src).1.rate_limit = filter.rate_limit :=
  ⟨rfl, rfl, rfl, rfl⟩

theorem blob_loop_foldl_posted (filter : GstMotionDetector) (rects : List CvRect)
    (st : BlobLoop) (hst : ∀ e ∈ st.posted, ∃ x y w h, e = Emitted.motion x y w h) :
    ∀ e ∈ (rects.foldl (blob_loop_body filter) st).posted,
      ∃ x y w h, e = Emitted.motion x y w h := by
  induction rects generalizing st with
  | nil => simpa using hst
  | cons r rs ih =>
    rw [List.foldl_cons]
    apply ih
    intro e he
    unfold blob_loop_body at he
    split at he
    · exact hst e he
    · dsimp only at he
      split at he
      · rcases List.mem_append.mp he with h | h
        · exact hst e h
        · rw [List.mem_singleton] at h
          exact ⟨_, _, _, _, h⟩
      · exact hst e he

theorem posted_is_motion (filter : GstMotionDetector) (src : IplImage Rgb) :
    ∀ e ∈ (gst_motion_detector_process_image filter src).2.1,
      ∃ x y w h, e = Emitted.motion x y w h := by
  apply blob_loop_foldl_posted
  intro e he
  simp at he

theorem posted_filter_isNotify (filter : GstMotionDetector) (src : IplImage Rgb) :
    (gst_motion_detector_process_image filter src).2.1.filter Emitted.isNotify = [] := by
  rw [List.filter_eq_nil_iff]
  intro e he
  obtain ⟨x, y, w, h, rfl⟩ := posted_is_motion filter src e he
  simp [Emitted.isNotify]

theorem posted_filter_isMotionData (filter : GstMotionDetector) (src : IplImage Rgb) :
    (gst_motion_detector_process_image filter src).2.1.filter Emitted.isMotionData = [] := by
  rw [List.filter_eq_nil_iff]
  intro e he
  obtain ⟨x, y, w, h, rfl⟩ := posted_is_motion filter src e he
  simp [Emitted.isMotionData]

theorem posted_filter_isTimeoutAdd (filter : GstMotionDetector) (src : IplImage Rgb) :
    (gst_motion_detector_process_image filter src).2.1.filter Emitted.isTimeoutAdd = [] := by
  rw [List.filter_eq_nil_iff]
  intro e he
  obtain ⟨x, y, w, h, rfl⟩ := posted_is_motion filter src e he
  simp [Emitted.isTimeoutAdd]

/-- The chain function on an instance that is not rate-inhibited. -/
theorem chain_free (filter : GstMotionDetector) (buf : List Rgb)
    (h : filter.rate_inhibit = false) :
    gst_motion_detector_chain filter buf =
      ((chain_transition (gst_motion_detector_process_image filter (currentImage filter buf)).1).1,
        (gst_motion_detector_process_image filter (currentImage filter buf)).2.1 ++
          (chain_transition (gst_motion_detector_process_image filter (currentImage filter buf)).1).2,
        (gst_motion_detector_process_image filter (currentImage filter buf)).2.2) := by
  simp [gst_motion_detector_chain, (process_image_fields filter _).1, h]

/-- The chain function on a rate-inhibited instance. -/
theorem chain_inhibited (filter : GstMotionDetector) (buf : List Rgb)
    (h : filter.rate_inhibit = true) :
    gst_motion_detector_chain filter buf =
      gst_motion_detector_process_image filter (currentImage filter buf) := by
  simp [gst_motion_detector_chain, (process_image_fields filter _).1, h]

/-- C2: on an instance that is neither rate-inhibited nor in motion, a frame
with a surviving blob count above zero sets `motion_detected`, sends exactly
one change notification and posts exactly one `motion-data` message carrying
`true` and the blob count when `post_messages` is set, none otherwise. -/
theorem chain_motion_start (filter : GstMotionDetector) (buf : List Rgb)
    (hfree : filter.rate_inhibit = false) (hidle : filter.motion_detected = false)
    (hblobs : 0 < frame_num_blobs filter buf) :
    (gst_motion_detector_chain filter buf).1.motion_detected = true ∧
    (gst_motion_detector_chain filter buf).1.num_blobs = frame_num_blobs filter buf ∧
    (gst_motion_detector_chain filter buf).2.1.filter Emitted.isNotify =
      [Emitted.notify_motion_detected true] ∧
    (gst_motion_detector_chain filter buf).2.1.filter Emitted.isMotionData =
      (if filter.post_messages then [Emitted.motion_data true (frame_num_blobs filter buf)]
       else []) := by
  rw [chain_free filter buf hfree]
  have hp := process_image_fields filter (currentImage filter buf)
  have hn := posted_filter_isNotify filter (currentImage filter buf)
  have hm := posted_filter_isMotionData filter (currentImage filter buf)
  unfold frame_num_blobs at hblobs ⊢
  generalize gst_motion_detector_process_image filter (currentImage filter buf) = p at *
  obtain ⟨-, h2, h3, -⟩ := hp
  simp only [List.filter_append, hn, hm, List.nil_append]
  unfold chain_transition
  simp only [gt_iff_lt, hblobs, decide_True, h2, hidle, Bool.not_false, Bool.and_self, if_true, h3]
  by_cases hl : 0 < p.1.rate_limit <;> by_cases hpm : filter.post_messages = true <;>
    simp [hl, hpm, Emitted.isNotify, Emitted.isMotionData]

/-- The state machine step when a start transition is due. -/
theorem chain_transition_start (p : GstMotionDetector) (hidle : p.motion_detected = false)
    (hblobs : 0 < p.num_blobs) :
    (chain_transition p).1.motion_detected = true ∧
    (chain_transition p).1.num_blobs = p.num_blobs ∧
    (chain_transition p).1.rate_limit = p.rate_limit ∧
    ((chain_transition p).1.rate_inhibit = true ↔ (p.rate_inhibit = true ∨ 0 < p.rate_limit)) ∧
    (chain_transition p).2 =
      Emitted.notify_motion_detected true ::
        ((if p.post_messages then [Emitted.motion_data true p.num_blobs] else []) ++
          (if 0 < p.rate_limit then [Emitted.timeout_add p.rate_limit] else [])) := by
  unfold chain_transition
  simp only [gt_iff_lt, hblobs, decide_True, hidle, Bool.not_false, Bool.and_self, if_true]
  by_cases hl : 0 < p.rate_limit <;> simp [hl, hidle]

/-- The state machine step when the instance reports motion. -/
theorem chain_transition_active (p : GstMotionDetector) (hactive : p.motion_detected = true) :
    (chain_transition p).1.motion_detected = false ∧
    (chain_transition p).1.num_blobs = p.num_blobs ∧
    (chain_transition p).1.rate_limit = p.rate_limit ∧
    ((chain_transition p).1.rate_inhibit = true ↔ (p.rate_inhibit = true ∨ 0 < p.rate_limit)) ∧
    (chain_transition p).2 =
      Emitted.notify_motion_detected false ::
        ((if p.post_messages then [Emitted.motion_data false 0] else []) ++
          (if 0 < p.rate_limit then [Emitted.timeout_add p.rate_limit] else [])) := by
  unfold chain_transition
  simp only [hactive, Bool.not_true, Bool.and_false, if_true, Bool.false_eq_true, if_false]
  by_cases hl : 0 < p.rate_limit <;> simp [hl]

/-- The state machine step when there is neither motion nor a blob. -/
theorem chain_transition_idle (p : GstMotionDetector) (hidle : p.motion_detected = false)
    (hblobs : p.num_blobs = 0) :
    (chain_transition p).1.motion_detected = false ∧
    (chain_transition p).1.num_blobs = p.num_blobs ∧
    (chain_transition p).1.rate_limit = p.rate_limit ∧
    ((chain_transition p).1.rate_inhibit = true ↔ (p.rate_inhibit = true ∨ 0 < p.rate_limit)) ∧
    (chain_transition p).2 =
      (if 0 < p.rate_limit then [Emitted.timeout_add p.rate_limit] else []) := by
  unfold chain_transition
  simp only [gt_iff_lt, hblobs, lt_self_iff_false, decide_False, Bool.false_and, hidle,
    Bool.false_eq_true, if_false]
  by_cases hl : 0 < p.rate_limit <;> simp [hl, hidle, hblobs]

/-- C3: on an instance that reports motion and is not rate-inhibited, a frame
without surviving blob clears `motion_detected`, sends exactly one change
notification and posts exactly one `motion-data` message carrying `false` and
0 when `post_messages` is set, none otherwise. -/
theorem chain_motion_stop (filter : GstMotionDetector) (buf : List Rgb)
    (hfree : filter.rate_inhibit = false) (hactive : filter.motion_detected = true)
    (hblobs : frame_num_blobs filter buf = 0) :
    (gst_motion_detector_chain filter buf).1.motion_detected = false ∧
    (gst_motion_detector_chain filter buf).1.num_blobs = 0 ∧
    (gst_motion_detector_chain filter buf).2.1.filter Emitted.isNotify =
      [Emitted.notify_motion_detected false] ∧
    (gst_motion_detector_chain filter buf).2.1.filter Emitted.isMotionData =
      (if filter.post_messages then [Emitted.motion_data false 0] else []) := by
  rw [chain_free filter buf hfree]
  have hp := process_image_fields filter (currentImage filter buf)
  have hn := posted_filter_isNotify filter (currentImage filter buf)
  have hm := posted_filter_isMotionData filter (currentImage filter buf)
  unfold frame_num_blobs at hblobs
  generalize gst_motion_detector_process_image filter (currentImage filter buf) = p at *
  obtain ⟨-, h2, h3, -⟩ := hp
  obtain ⟨t1, t2, -, -, t5⟩ := chain_transition_active p.1 (h2.trans hactive)
  simp only [List.filter_append, hn, hm, List.nil_append, t1, t2, hblobs, t5, h3]
  by_cases hl : 0 < p.1.rate_limit <;> by_cases hpm : filter.post_messages = true <;>
    simp [hl, hpm, Emitted.isNotify, Emitted.isMotionData]

/-- C4: on a rate-inhibited instance the chain function leaves
`motion_detected` and `rate_inhibit` as they are, sends no change
notification, posts no `motion-data` message and arms no timer, whatever the
frame holds; `num_blobs` is overwritten with the number of contours of the
frame that pass the size test. -/
theorem chain_while_inhibited (filter : GstMotionDetector) (buf : List Rgb)
    (hinh : filter.rate_inhibit = true) :
    (gst_motion_detector_chain filter buf).1.motion_detected = filter.motion_detected ∧
    (gst_motion_detector_chain filter buf).1.rate_inhibit = true ∧
    (gst_motion_detector_chain filter buf).2.1.filter Emitted.isNotify = [] ∧
    (gst_motion_detector_chain filter buf).2.1.filter Emitted.isMotionData = [] ∧
    (gst_motion_detector_chain filter buf).2.1.filter Emitted.isTimeoutAdd = [] ∧
    (gst_motion_detector_chain filter buf).1.num_blobs = frame_num_blobs filter buf ∧
    frame_num_blobs filter buf =
      ((contour_rects filter (currentImage filter buf)).filter
        (fun r => !blob_rejected filter r)).length % 4294967296 := by
  rw [chain_inhibited filter buf hinh]
  refine ⟨rfl, hinh, posted_filter_isNotify _ _, posted_filter_isMotionData _ _,
    posted_filter_isTimeoutAdd _ _, rfl, ?_⟩
  simp [frame_num_blobs, gst_motion_detector_process_image, blob_loop_num_blobs]

/-- C5, as the code has it: after a frame that found the instance not
rate-inhibited, the instance is rate-inhibited exactly when `rate_limit` is
above zero, whether or not a transition was reported on that frame, and the
timer is armed exactly then. -/
theorem chain_arms_cooldown_iff (filter : GstMotionDetector) (buf : List Rgb)
    (hfree : filter.rate_inhibit = false) :
    ((gst_motion_detector_chain filter buf).1.rate_inhibit = true ↔ 0 < filter.rate_limit) ∧
    (gst_motion_detector_chain filter buf).2.1.filter Emitted.isTimeoutAdd =
      (if 0 < filter.rate_limit then [Emitted.timeout_add filter.rate_limit] else []) := by
  rw [chain_free filter buf hfree]
  have hp := process_image_fields filter (currentImage filter buf)
  have ht := posted_filter_isTimeoutAdd filter (currentImage filter buf)
  generalize gst_motion_detector_process_image filter (currentImage filter buf) = p at *
  obtain ⟨h1, h2, h3, h4⟩ := hp
  simp only [List.filter_append, ht, List.nil_append]
  rw [← h4]
  by_cases hact : p.1.motion_detected = true
  · obtain ⟨-, -, -, t4, t5⟩ := chain_transition_active p.1 hact
    refine ⟨by rw [t4, h1, hfree]; simp, ?_⟩
    rw [t5]
    by_cases hl : 0 < p.1.rate_limit <;> by_cases hpm : p.1.post_messages = true <;>
      simp [hl, hpm, Emitted.isTimeoutAdd]
  · have hidle : p.1.motion_detected = false := by simpa using hact
    by_cases hb : 0 < p.1.num_blobs
    · obtain ⟨-, -, -, t4, t5⟩ := chain_transition_start p.1 hidle hb
      refine ⟨by rw [t4, h1, hfree]; simp, ?_⟩
      rw [t5]
      by_cases hl : 0 < p.1.rate_limit <;> by_cases hpm : p.1.post_messages = true <;>
        simp [hl, hpm, Emitted.isTimeoutAdd]
    · have hb0 : p.1.num_blobs = 0 := by omega
      obtain ⟨-, -, -, t4, t5⟩ := chain_transition_idle p.1 hidle hb0
      refine ⟨?_, ?_⟩
      · rw [t4, h1, hfree]
        simp
      · rw [t5]
        by_cases hl : 0 < p.1.rate_limit <;> simp [hl, Emitted.isTimeoutAdd]

/-! ## The size test -/

theorem toGuint_of_nonneg (i : Int) (h0 : 0 ≤ i) (h1 : i < 4294967296) :
    toGuint i = i.toNat := by
  unfold toGuint
  rw [Int.emod_eq_of_lt h0 h1]

/-- On rectangles with sides in the non-negative `int` range the size test of
the loop is the inclusive test on both sides. -/
theorem blob_rejected_eq_false_iff (filter : GstMotionDetector) (r : CvRect)
    (hw0 : 0 ≤ r.width) (hw1 : r.width < 2147483648)
    (hh0 : 0 ≤ r.height) (hh1 : r.height < 2147483648) :
    blob_rejected filter r = false ↔
      within_blob_bounds filter.min_blob_size filter.max_blob_size r := by
  unfold blob_rejected within_blob_bounds
  rw [toGuint_of_nonneg r.width hw0 (by omega), toGuint_of_nonneg r.height hh0 (by omega)]
  simp only [Bool.or_eq_false_iff, decide_eq_false_iff_not, gt_iff_lt, not_lt]
  omega

theorem filter_survivors_eq (filter : GstMotionDetector) (rects : List CvRect)
    (hdim : ∀ r ∈ rects, 0 ≤ r.width ∧ r.width < 2147483648 ∧
      0 ≤ r.height ∧ r.height < 2147483648) :
    rects.filter (fun r => !blob_rejected filter r) =
      rects.filter
        (fun r => decide (within_blob_bounds filter.min_blob_size filter.max_blob_size r)) := by
  apply List.filter_congr
  intro r hr
  obtain ⟨a, b, c, d⟩ := hdim r hr
  have h := blob_rejected_eq_false_iff filter r a b c d
  by_cases hrej : blob_rejected filter r = true
  · have : ¬ within_blob_bounds filter.min_blob_size filter.max_blob_size r := by
      intro hin
      rw [h.mpr hin] at hrej
      exact Bool.false_ne_true hrej
    simp [hrej, this]
  · have hrej2 : blob_rejected filter r = false := by simpa using hrej
    simp [hrej2, h.mp hrej2]

theorem blob_loop_foldl_posted_eq (filter : GstMotionDetector) (rects : List CvRect)
    (st : BlobLoop) :
    (rects.foldl (blob_loop_body filter) st).posted =
      st.posted ++
        (if filter.post_messages then
          (rects.filter (fun r => !blob_rejected filter r)).map
            (fun r => Emitted.motion (toGuint r.x) (toGuint r.y) (toGuint r.width)
              (toGuint r.height))
         else []) := by
  induction rects generalizing st with
  | nil => by_cases hp : filter.post_messages = true <;> simp [hp]
  | cons r rs ih =>
    rw [List.foldl_cons, ih]
    by_cases hrej : blob_rejected filter r = true <;>
      by_cases hp : filter.post_messages = true <;>
      simp [blob_loop_body, hrej, hp]

theorem blob_loop_foldl_src_eq (filter : GstMotionDetector) (rects : List CvRect)
    (st : BlobLoop) :
    (rects.foldl (blob_loop_body filter) st).src =
      (if filter.draw_motion then
        (rects.filter (fun r => !blob_rejected filter r)).foldl
          (fun img r => cvRectangle img r.x r.y (r.x + r.width) (r.y + r.height) (0, 0, 255))
          st.src
       else st.src) := by
  induction rects generalizing st with
  | nil => by_cases hp : filter.draw_motion = true <;> simp [hp]
  | cons r rs ih =>
    rw [List.foldl_cons, ih]
    by_cases hrej : blob_rejected filter r = true <;>
      by_cases hp : filter.draw_motion = true <;>
      simp [blob_loop_body, hrej, hp]

/-- C7: for every list of bounding rectangles (sides in the non-negative `int`
range, fewer than 2^32 of them) the contour loop counts the rectangles whose
width and height both lie within `[min_blob_size, max_blob_size]`, bounds
included, and that count is what the frame processing stores in `num_blobs`;
the messages posted and the rectangles drawn are those of the counted
rectangles only.  A `min_blob_size` by `min_blob_size` rectangle passes the
test (when `min_blob_size` does not exceed `max_blob_size`) and a
`min_blob_size - 1` by `min_blob_size` rectangle does not. -/
theorem blob_loop_counts_inclusive (filter : GstMotionDetector) (src : IplImage Rgb)
    (rects : List CvRect)
    (hdim : ∀ r ∈ rects, 0 ≤ r.width ∧ r.width < 2147483648 ∧
      0 ≤ r.height ∧ r.height < 2147483648)
    (hlen : rects.length < 4294967296) :
    (blob_loop filter src rects).num_blobs % 4294967296 =
      (rects.filter (fun r =>
        decide (within_blob_bounds filter.min_blob_size filter.max_blob_size r))).length ∧
    (gst_motion_detector_process_image filter src).1.num_blobs =
      (blob_loop filter src (contour_rects filter src)).num_blobs % 4294967296 ∧
    (blob_loop filter src rects).posted =
      (if filter.post_messages then
        (rects.filter (fun r =>
          decide (within_blob_bounds filter.min_blob_size filter.max_blob_size r))).map
          (fun r => Emitted.motion (toGuint r.x) (toGuint r.y) (toGuint r.width)
            (toGuint r.height))
       else []) ∧
    (blob_loop filter src rects).src =
      (if filter.draw_motion then
        (rects.filter (fun r =>
          decide (within_blob_bounds filter.min_blob_size filter.max_blob_size r))).foldl
          (fun img r => cvRectangle img r.x r.y (r.x + r.width) (r.y + r.height) (0, 0, 255))
          src
       else src) ∧
    (∀ x y : Int, filter.min_blob_size ≤ filter.max_blob_size →
      filter.min_blob_size < 2147483648 →
      blob_rejected filter
        { x := x, y := y, width := filter.min_blob_size, height := filter.min_blob_size }
        = false) ∧
    (∀ x y : Int, 1 ≤ filter.min_blob_size → filter.min_blob_size < 2147483648 →
      blob_rejected filter
        { x := x, y := y, width := (filter.min_blob_size : Int) - 1,
          height := filter.min_blob_size } = true) := by
  have hs := filter_survivors_eq filter rects hdim
  refine ⟨?_, rfl, ?_, ?_, ?_, ?_⟩
  · rw [blob_loop_num_blobs, hs]
    apply Nat.mod_eq_of_lt
    exact lt_of_le_of_lt (List.length_filter_le _ _) hlen
  · unfold blob_loop
    rw [blob_loop_foldl_posted_eq, hs]
    simp
  · unfold blob_loop
    rw [blob_loop_foldl_src_eq, hs]
  · intro x y hle hlt
    rw [blob_rejected_eq_false_iff _ _ (by simp) (by simp; omega) (by simp) (by simp; omega)]
    unfold within_blob_bounds
    simp
    omega
  · intro x y hge hlt
    have h := blob_rejected_eq_false_iff filter
      { x := x, y := y, width := (filter.min_blob_size : Int) - 1,
        height := filter.min_blob_size }
      (by simp; omega) (by simp; omega) (by simp) (by simp; omega)
    by_cases hrej : blob_rejected filter
      { x := x, y := y, width := (filter.min_blob_size : Int) - 1,
        height := filter.min_blob_size } = true
    · exact hrej
    · have hrej2 := h.mp (by simpa using hrej)
      unfold within_blob_bounds at hrej2
      simp at hrej2

/-! ## The state machine on concrete frames -/

/-- C1, evaluated: the small detector reports motion and is not
rate-inhibited; a frame with one surviving blob makes the chain function
clear `motion_detected` and send a change notification, and with
`post_messages` set it posts a `motion-data` message with `false` and 0 blobs
while `num_blobs` is 1. -/
theorem chain_active_frame_with_blob :
    active_detector.rate_inhibit = false ∧ active_detector.motion_detected = true ∧
    frame_num_blobs active_detector frame_dot = 1 ∧
    (gst_motion_detector_chain active_detector frame_dot).1.motion_detected = false ∧
    (gst_motion_detector_chain active_detector frame_dot).1.num_blobs = 1 ∧
    (gst_motion_detector_chain active_detector frame_dot).2.1 =
      [Emitted.notify_motion_detected false, Emitted.timeout_add 500] ∧
    (gst_motion_detector_chain { active_detector with post_messages := true } frame_dot).2.1 =
      [Emitted.motion 1 1 1 1, Emitted.notify_motion_detected false,
        Emitted.motion_data false 0, Emitted.timeout_add 500] := by
  decide!

theorem chain_motion_start_witness :
    small_detector.rate_inhibit = false ∧ small_detector.motion_detected = false ∧
    0 < frame_num_blobs small_detector frame_dot ∧
    (gst_motion_detector_chain small_detector frame_dot).1.motion_detected = true ∧
    (gst_motion_detector_chain small_detector frame_dot).1.num_blobs =
      frame_num_blobs small_detector frame_dot ∧
    (gst_motion_detector_chain small_detector frame_dot).2.1.filter Emitted.isNotify =
      [Emitted.notify_motion_detected true] ∧
    (gst_motion_detector_chain small_detector frame_dot).2.1.filter Emitted.isMotionData =
      (if small_detector.post_messages then
        [Emitted.motion_data true (frame_num_blobs small_detector frame_dot)]
       else []) :=
  ⟨rfl, rfl, by decide!, chain_motion_start small_detector frame_dot rfl rfl (by decide!)⟩

theorem chain_motion_stop_witness :
    active_detector.rate_inhibit = false ∧ active_detector.motion_detected = true ∧
    frame_num_blobs active_detector frame_black = 0 ∧
    (gst_motion_detector_chain active_detector frame_black).1.motion_detected = false ∧
    (gst_motion_detector_chain active_detector frame_black).1.num_blobs = 0 ∧
    (gst_motion_detector_chain active_detector frame_black).2.1.filter Emitted.isNotify =
      [Emitted.notify_motion_detected false] ∧
    (gst_motion_detector_chain active_detector frame_black).2.1.filter Emitted.isMotionData =
      (if active_detector.post_messages then [Emitted.motion_data false 0] else []) :=
  ⟨rfl, rfl, by decide!, chain_motion_stop active_detector frame_black rfl rfl (by decide!)⟩

theorem chain_while_inhibited_witness :
    inhibited_detector.rate_inhibit = true ∧
    (gst_motion_detector_chain inhibited_detector frame_dot).1.motion_detected = false ∧
    (gst_motion_detector_chain inhibited_detector frame_dot).1.rate_inhibit = true ∧
    (gst_motion_detector_chain inhibited_detector frame_dot).1.num_blobs = 1 :=
  ⟨rfl, (chain_while_inhibited inhibited_detector frame_dot rfl).1,
    (chain_while_inhibited inhibited_detector frame_dot rfl).2.1, by decide!⟩

/-- C5, refuted as stated: the small detector (idle, not rate-inhibited,
`rate_limit` 500) gets a black frame; no transition is reported and
`motion_detected` stays `false`, yet the instance is rate-inhibited
afterwards and the timer is armed. -/
theorem chain_arms_cooldown_without_transition :
    small_detector.rate_inhibit = false ∧ small_detector.rate_limit = 500 ∧
    (gst_motion_detector_chain small_detector frame_black).2.1.filter Emitted.isNotify = [] ∧
    (gst_motion_detector_chain small_detector frame_black).1.motion_detected =
      small_detector.motion_detected ∧
    (gst_motion_detector_chain small_detector frame_black).1.rate_inhibit = true ∧
    (gst_motion_detector_chain small_detector frame_black).2.1 = [Emitted.timeout_add 500] := by
  decide!

theorem chain_arms_cooldown_iff_witness :
    small_detector.rate_inhibit = false ∧
    ((gst_motion_detector_chain small_detector frame_black).1.rate_inhibit = true ↔
      0 < small_detector.rate_limit) :=
  ⟨rfl, (chain_arms_cooldown_iff small_detector frame_black rfl).1⟩

theorem blob_loop_counts_inclusive_witness :
    (blob_loop small_detector (currentImage small_detector frame_dot)
      [{ x := 0, y := 0, width := 1, height := 1 },
       { x := 1, y := 0, width := 0, height := 1 },
       { x := 0, y := 0, width := 256, height := 3 }]).num_blobs % 4294967296 = 1 :=
  (blob_loop_counts_inclusive small_detector (currentImage small_detector frame_dot)
    [{ x := 0, y := 0, width := 1, height := 1 },
     { x := 1, y := 0, width := 0, height := 1 },
     { x := 0, y := 0, width := 256, height := 3 }]
    (by decide) (by decide)).1.trans (by decide)

/-! ## Runs and the cooldown -/

theorem run_append (filter : GstMotionDetector) (es fs : List Event) :
    run filter (es ++ fs) =
      ((run (run filter es).1 fs).1, (run filter es).2 ++ (run (run filter es).1 fs).2) := by
  induction es generalizing filter with
  | nil => simp [run]
  | cons e rest ih => simp [run, ih, List.append_assoc]

theorem motion_started_count_append (a b : List Emitted) :
    motion_started_count (a ++ b) = motion_started_count a + motion_started_count b := by
  simp [motion_started_count]

theorem motion_started_count_posted (filter : GstMotionDetector) (src : IplImage Rgb) :
    motion_started_count (gst_motion_detector_process_image filter src).2.1 = 0 := by
  unfold motion_started_count
  rw [List.count_eq_zero]
  intro hmem
  obtain ⟨x, y, w, h, he⟩ := posted_is_motion filter src _ hmem
  cases he

/-- A frame that starts motion on a free, idle instance with a cooldown configured. -/
theorem chain_start_effect (filter : GstMotionDetector) (buf : List Rgb)
    (hfree : filter.rate_inhibit = false) (hidle : filter.motion_detected = false)
    (hT : 0 < filter.rate_limit) (hblobs : 0 < frame_num_blobs filter buf) :
    (gst_motion_detector_chain filter buf).1.rate_inhibit = true ∧
    (gst_motion_detector_chain filter buf).1.motion_detected = true ∧
    (gst_motion_detector_chain filter buf).1.rate_limit = filter.rate_limit ∧
    motion_started_count (gst_motion_detector_chain filter buf).2.1 = 1 := by
  rw [chain_free filter buf hfree]
  have hp := process_image_fields filter (currentImage filter buf)
  have hc := motion_started_count_posted filter (currentImage filter buf)
  unfold frame_num_blobs at hblobs
  generalize gst_motion_detector_process_image filter (currentImage filter buf) = p at *
  obtain ⟨h1, h2, h3, h4⟩ := hp
  obtain ⟨t1, -, t3, t4, t5⟩ := chain_transition_start p.1 (h2.trans hidle) hblobs
  refine ⟨t4.mpr (Or.inr (h4 ▸ hT)), t1, t3.trans h4, ?_⟩
  simp only [motion_started_count_append, hc, t5, zero_add]
  by_cases hl : 0 < p.1.rate_limit <;> by_cases hpm : p.1.post_messages = true <;>
    simp [hl, hpm, motion_started_count]

/-- A frame that stops motion on a free, active instance with a cooldown configured. -/
theorem chain_stop_effect (filter : GstMotionDetector) (buf : List Rgb)
    (hfree : filter.rate_inhibit = false) (hactive : filter.motion_detected = true)
    (hT : 0 < filter.rate_limit) :
    (gst_motion_detector_chain filter buf).1.rate_inhibit = true ∧
    (gst_motion_detector_chain filter buf).1.motion_detected = false ∧
    (gst_motion_detector_chain filter buf).1.rate_limit = filter.rate_limit ∧
    motion_started_count (gst_motion_detector_chain filter buf).2.1 = 0 := by
  rw [chain_free filter buf hfree]
  have hp := process_image_fields filter (currentImage filter buf)
  have hc := motion_started_count_posted filter (currentImage filter buf)
  generalize gst_motion_detector_process_image filter (currentImage filter buf) = p at *
  obtain ⟨h1, h2, h3, h4⟩ := hp
  obtain ⟨t1, -, t3, t4, t5⟩ := chain_transition_active p.1 (h2.trans hactive)
  refine ⟨t4.mpr (Or.inr (h4 ▸ hT)), t1, t3.trans h4, ?_⟩
  simp only [motion_started_count_append, hc, t5, zero_add]
  by_cases hl : 0 < p.1.rate_limit <;> by_cases hpm : p.1.post_messages = true <;>
    simp [hl, hpm, motion_started_count]

/-- Frames that arrive during a cooldown change nothing in the state machine
and send no notification. -/
theorem run_frames_inhibited (bufs : List (List Rgb)) (filter : GstMotionDetector)
    (hinh : filter.rate_inhibit = true) :
    (run filter (bufs.map Event.frame)).1.rate_inhibit = true ∧
    (run filter (bufs.map Event.frame)).1.motion_detected = filter.motion_detected ∧
    (run filter (bufs.map Event.frame)).1.rate_limit = filter.rate_limit ∧
    motion_started_count (run filter (bufs.map Event.frame)).2 = 0 := by
  induction bufs generalizing filter with
  | nil => simp [run, hinh, motion_started_count]
  | cons b rest ih =>
    have hc := chain_inhibited filter b hinh
    have hp := process_image_fields filter (currentImage filter b)
    have hm := motion_started_count_posted filter (currentImage filter b)
    simp only [List.map_cons, run, step, hc, motion_started_count_append, hm, zero_add]
    obtain ⟨r1, r2, r3, r4⟩ :=
      ih (gst_motion_detector_process_image filter (currentImage filter b)).1
        (hp.1.trans hinh)
    exact ⟨r1, r2.trans hp.2.1, r3.trans hp.2.2.2, r4⟩

theorem run_frame_cons (filter : GstMotionDetector) (b : List Rgb) (es : List Event) :
    run filter (Event.frame b :: es) =
      ((run (gst_motion_detector_chain filter b).1 es).1,
        (gst_motion_detector_chain filter b).2.1 ++
          (run (gst_motion_detector_chain filter b).1 es).2) := by
  simp [run, step]

theorem run_frame_cons_fst (filter : GstMotionDetector) (b : List Rgb) (es : List Event) :
    (run filter (Event.frame b :: es)).1 = (run (gst_motion_detector_chain filter b).1 es).1 := by
  rw [run_frame_cons]

theorem run_rate_timeout_cons (filter : GstMotionDetector) (es : List Event) :
    run filter (Event.rate_timeout :: es) = run (gst_motion_detector_rate_timeout filter) es := by
  simp [run, step]

theorem rate_timeout_fields (filter : GstMotionDetector) :
    (gst_motion_detector_rate_timeout filter).rate_inhibit = false ∧
    (gst_motion_detector_rate_timeout filter).motion_detected = filter.motion_detected ∧
    (gst_motion_detector_rate_timeout filter).rate_limit = filter.rate_limit :=
  ⟨rfl, rfl, rfl⟩

/-- A reported start followed by frames that arrive before the expiry. -/
theorem run_start_phase (filter : GstMotionDetector) (b : List Rgb) (bufs : List (List Rgb))
    (hfree : filter.rate_inhibit = false) (hidle : filter.motion_detected = false)
    (hT : 0 < filter.rate_limit) (hblobs : 0 < frame_num_blobs filter b) :
    (run filter (Event.frame b :: bufs.map Event.frame)).1.rate_inhibit = true ∧
    (run filter (Event.frame b :: bufs.map Event.frame)).1.motion_detected = true ∧
    (run filter (Event.frame b :: bufs.map Event.frame)).1.rate_limit = filter.rate_limit ∧
    motion_started_count (run filter (Event.frame b :: bufs.map Event.frame)).2 = 1 := by
  obtain ⟨c1, c2, c3, c4⟩ := chain_start_effect filter b hfree hidle hT hblobs
  obtain ⟨r1, r2, r3, r4⟩ := run_frames_inhibited bufs (gst_motion_detector_chain filter b).1 c1
  rw [run_frame_cons]
  exact ⟨r1, r2.trans c2, r3.trans c3, by rw [motion_started_count_append, c4, r4]⟩

/-- A reported stop followed by frames that arrive before the expiry. -/
theorem run_stop_phase (filter : GstMotionDetector) (b : List Rgb) (bufs : List (List Rgb))
    (hfree : filter.rate_inhibit = false) (hactive : filter.motion_detected = true)
    (hT : 0 < filter.rate_limit) :
    (run filter (Event.frame b :: bufs.map Event.frame)).1.rate_inhibit = true ∧
    (run filter (Event.frame b :: bufs.map Event.frame)).1.motion_detected = false ∧
    (run filter (Event.frame b :: bufs.map Event.frame)).1.rate_limit = filter.rate_limit ∧
    motion_started_count (run filter (Event.frame b :: bufs.map Event.frame)).2 = 0 := by
  obtain ⟨c1, c2, c3, c4⟩ := chain_stop_effect filter b hfree hactive hT
  obtain ⟨r1, r2, r3, r4⟩ := run_frames_inhibited bufs (gst_motion_detector_chain filter b).1 c1
  rw [run_frame_cons]
  exact ⟨r1, r2.trans c2, r3.trans c3, by rw [motion_started_count_append, c4, r4]⟩

/-- C6, as the code has it: from an idle instance that is not rate-inhibited,
with `rate_limit` above zero, a frame with a surviving blob is reported as a
start and whatever frames arrive before the expiry of the cooldown it armed
add no notification, so a second start condition before that expiry leaves
exactly one "motion started" notification.  A second start condition gives
exactly two when the frame without blob between the two is handled after the
first expiry and the second start frame is handled after the expiry of the
cooldown armed by that frame. -/
theorem cooldown_start_notifications (filter : GstMotionDetector)
    (b1 b0 b2 : List Rgb) (bufs1 bufs2 bufs3 : List (List Rgb))
    (hfree : filter.rate_inhibit = false) (hidle : filter.motion_detected = false)
    (hT : 0 < filter.rate_limit) (h1 : 0 < frame_num_blobs filter b1) :
    motion_started_count (run filter (Event.frame b1 :: bufs1.map Event.frame)).2 = 1 ∧
    (frame_num_blobs
        (gst_motion_detector_rate_timeout
          (run filter (Event.frame b1 :: bufs1.map Event.frame)).1) b0 = 0 →
      0 < frame_num_blobs
        (gst_motion_detector_rate_timeout
          (run filter ((Event.frame b1 :: bufs1.map Event.frame) ++
            (Event.rate_timeout :: Event.frame b0 :: bufs2.map Event.frame))).1) b2 →
      motion_started_count
        (run filter ((Event.frame b1 :: bufs1.map Event.frame) ++
          (Event.rate_timeout :: Event.frame b0 :: bufs2.map Event.frame) ++
          (Event.rate_timeout :: Event.frame b2 :: bufs3.map Event.frame))).2 = 2) := by
  obtain ⟨-, a2, a3, a4⟩ := run_start_phase filter b1 bufs1 hfree hidle hT h1
  refine ⟨a4, ?_⟩
  intro _ h2
  rw [run_append, run_rate_timeout_cons] at h2
  rw [List.append_assoc, run_append, List.cons_append, run_rate_timeout_cons, run_append,
    run_rate_timeout_cons]
  generalize run filter (Event.frame b1 :: bufs1.map Event.frame) = X at *
  obtain ⟨y1, y2, y3⟩ := rate_timeout_fields X.1
  generalize gst_motion_detector_rate_timeout X.1 = Y at *
  obtain ⟨-, s2, s3, s4⟩ := run_stop_phase Y b0 bufs2 y1 (y2.trans a2)
    (by rw [y3, a3]; exact hT)
  generalize run Y (Event.frame b0 :: bufs2.map Event.frame) = Z at *
  obtain ⟨z1, z2, z3⟩ := rate_timeout_fields Z.1
  generalize gst_motion_detector_rate_timeout Z.1 = W at *
  obtain ⟨-, -, -, u4⟩ := run_start_phase W b2 bufs3 z1 (z2.trans s2)
    (by rw [z3, s3, y3, a3]; exact hT) h2
  simp only [motion_started_count_append, a4, s4, u4]

/-- C6, refuted as stated: a detector configured through its properties
(`rate_limit` 500) gets a black frame, the expiry, a frame with a blob
(reported as a start), the expiry of the cooldown armed by that start, a
black frame (reported as a stop) and right after it a frame with a blob.  The
second start condition comes after the expiry of the first cooldown, yet only
one "motion started" notification is sent. -/
theorem second_start_after_expiry_not_reported :
    motion_started_count
      (run configured_detector
        [Event.frame frame_black, Event.rate_timeout, Event.frame frame_dot,
          Event.rate_timeout, Event.frame frame_black, Event.frame frame_dot]).2 = 1 ∧
    (run configured_detector
        [Event.frame frame_black, Event.rate_timeout, Event.frame frame_dot,
          Event.rate_timeout, Event.frame frame_black]).1.num_blobs = 0 ∧
    (run configured_detector
        [Event.frame frame_black, Event.rate_timeout, Event.frame frame_dot,
          Event.rate_timeout, Event.frame frame_black, Event.frame frame_dot]).1.num_blobs = 1 ∧
    (run configured_detector
        [Event.frame frame_black, Event.rate_timeout, Event.frame frame_dot,
          Event.rate_timeout, Event.frame frame_black, Event.frame frame_dot]).1.motion_detected
      = false := by
  decide!

theorem cooldown_start_notifications_witness :
    motion_started_count
      (run small_detector
        (Event.frame frame_dot :: [frame_black, frame_dot].map Event.frame)).2 = 1 ∧
    motion_started_count
      (run small_detector
        ((Event.frame frame_dot :: [frame_black, frame_dot].map Event.frame) ++
          (Event.rate_timeout :: Event.frame frame_black :: [frame_dot].map Event.frame) ++
          (Event.rate_timeout :: Event.frame frame_dot ::
            ([] : List (List Rgb)).map Event.frame))).2 = 2 :=
  ⟨(cooldown_start_notifications small_detector frame_dot frame_black frame_dot
      [frame_black, frame_dot] [frame_dot] [] rfl rfl (by decide) (by decide!)).1,
    (cooldown_start_notifications small_detector frame_dot frame_black frame_dot
      [frame_black, frame_dot] [frame_dot] [] rfl rfl (by decide) (by decide!)).2
      (by decide!) (by decide!)⟩

/-! ## Images: reading back what was written -/

theorem mkImage_width {α : Type} (w h : Nat) (f : Nat → Nat → α) :
    (mkImage w h f).width = w := rfl

theorem mkImage_height {α : Type} (w h : Nat) (f : Nat → Nat → α) :
    (mkImage w h f).height = h := rfl

theorem get_mkImage {α : Type} [Inhabited α] (w h : Nat) (f : Nat → Nat → α) (x y : Nat)
    (hx : x < w) (hy : y < h) : (mkImage w h f).get x y = f x y := by
  have hlt : y * w + x < w * h := by
    calc y * w + x < y * w + w := by omega
      _ = (y + 1) * w := by ring
      _ ≤ h * w := Nat.mul_le_mul_right w hy
      _ = w * h := Nat.mul_comm h w
  have hmod : (y * w + x) % w = x := by
    rw [Nat.add_comm, Nat.add_mul_mod_self_right, Nat.mod_eq_of_lt hx]
  have hdiv : (y * w + x) / w = y := by
    rw [Nat.add_comm, Nat.add_mul_div_right _ _ (by omega : 0 < w), Nat.div_eq_of_lt hx,
      Nat.zero_add]
  unfold IplImage.get mkImage
  simp only []
  rw [List.getD_eq_getElem _ _ (by simpa using hlt)]
  simp [hmod, hdiv]

theorem mkImage_congr {α : Type} (w h : Nat) (f g : Nat → Nat → α)
    (hfg : ∀ x y, x < w → y < h → f x y = g x y) : mkImage w h f = mkImage w h g := by
  unfold mkImage
  congr 1
  apply List.map_congr_left
  intro i hi
  have hi2 : i < w * h := List.mem_range.mp hi
  have hw : 0 < w := by
    rcases Nat.eq_zero_or_pos w with h0 | h0
    · simp [h0] at hi2
    · exact h0
  apply hfg
  · exact Nat.mod_lt _ hw
  · exact Nat.div_lt_of_lt_mul hi2

theorem mem_pixelPositions (w h : Nat) (p : Nat × Nat) :
    p ∈ pixelPositions w h ↔ p.1 < w ∧ p.2 < h := by
  unfold pixelPositions
  rw [List.mem_map]
  constructor
  · rintro ⟨i, hi, rfl⟩
    have hi2 : i < w * h := List.mem_range.mp hi
    have hw : 0 < w := by
      rcases Nat.eq_zero_or_pos w with h0 | h0
      · simp [h0] at hi2
      · exact h0
    exact ⟨Nat.mod_lt _ hw, Nat.div_lt_of_lt_mul hi2⟩
  · rintro ⟨hx, hy⟩
    refine ⟨p.2 * w + p.1, ?_, ?_⟩
    · rw [List.mem_range]
      calc p.2 * w + p.1 < p.2 * w + w := by omega
        _ = (p.2 + 1) * w := by ring
        _ ≤ h * w := Nat.mul_le_mul_right w hy
        _ = w * h := Nat.mul_comm h w
    · have hmod : (p.2 * w + p.1) % w = p.1 := by
        rw [Nat.add_comm, Nat.add_mul_mod_self_right, Nat.mod_eq_of_lt hx]
      have hdiv : (p.2 * w + p.1) / w = p.2 := by
        rw [Nat.add_comm, Nat.add_mul_div_right _ _ (by omega : 0 < w), Nat.div_eq_of_lt hx,
          Nat.zero_add]
      rw [hmod, hdiv]

theorem mem_window3x3 (w h x y : Nat) (p : Nat × Nat) :
    p ∈ window3x3 w h x y ↔
      p.1 < w ∧ p.2 < h ∧ x - 1 ≤ p.1 ∧ p.1 ≤ x + 1 ∧ y - 1 ≤ p.2 ∧ p.2 ≤ y + 1 := by
  obtain ⟨a, b⟩ := p
  unfold window3x3
  simp only [List.mem_filter, List.mem_cons, Prod.mk.injEq, List.mem_singleton,
    List.not_mem_nil, or_false, decide_eq_true_eq]
  constructor
  · rintro ⟨h1, h2, h3⟩
    omega
  · rintro ⟨h1, h2, h3, h4, h5, h6⟩
    refine ⟨?_, h1, h2⟩
    omega

/-! ## Folds of `max` and `min` -/

theorem foldl_max_ge_init (l : List Nat) (a : Nat) : a ≤ l.foldl max a := by
  induction l generalizing a with
  | nil => simp
  | cons v vs ih => exact le_trans (le_max_left a v) (ih (max a v))

theorem foldl_max_ge_mem (l : List Nat) (a v : Nat) (hv : v ∈ l) : v ≤ l.foldl max a := by
  induction l generalizing a with
  | nil => simp at hv
  | cons u us ih =>
    rcases List.mem_cons.mp hv with h | h
    · subst h
      exact le_trans (le_max_right a v) (foldl_max_ge_init us (max a v))
    · exact ih (max a u) h

theorem foldl_max_le (l : List Nat) (a b : Nat) (ha : a ≤ b) (hl : ∀ v ∈ l, v ≤ b) :
    l.foldl max a ≤ b := by
  induction l generalizing a with
  | nil => simpa using ha
  | cons u us ih =>
    exact ih (max a u) (max_le ha (hl u (List.mem_cons_self u us)))
      (fun v hv => hl v (List.mem_cons_of_mem u hv))

theorem foldl_min_le_init (l : List Nat) (a : Nat) : l.foldl min a ≤ a := by
  induction l generalizing a with
  | nil => simp
  | cons v vs ih => exact le_trans (ih (min a v)) (min_le_left a v)

theorem foldl_min_le_mem (l : List Nat) (a v : Nat) (hv : v ∈ l) : l.foldl min a ≤ v := by
  induction l generalizing a with
  | nil => simp at hv
  | cons u us ih =>
    rcases List.mem_cons.mp hv with h | h
    · subst h
      exact le_trans (foldl_min_le_init us (min a v)) (min_le_right a v)
    · exact ih (min a u) h

theorem le_foldl_min (l : List Nat) (a b : Nat) (ha : b ≤ a) (hl : ∀ v ∈ l, b ≤ v) :
    b ≤ l.foldl min a := by
  induction l generalizing a with
  | nil => simpa using ha
  | cons u us ih =>
    exact ih (min a u) (le_min ha (hl u (List.mem_cons_self u us)))
      (fun v hv => hl v (List.mem_cons_of_mem u hv))

/-! ## The pixels of the processed images -/

theorem cvConvertScale_8U_32F_get (src : IplImage Rgb) (x y : Nat)
    (hx : x < src.width) (hy : y < src.height) :
    (cvConvertScale_8U_32F src).get x y = map3 (fun v : Nat => (v : ℚ)) (src.get x y) :=
  get_mkImage _ _ _ x y hx hy

theorem cvConvertScale_32F_8U_get (size : Nat × Nat) (src : IplImage RgbF) (x y : Nat)
    (hx : x < size.1) (hy : y < size.2) :
    (cvConvertScale_32F_8U size src).get x y =
      map3 (fun v : ℚ => saturate_uchar (cvRound v)) (src.get x y) :=
  get_mkImage _ _ _ x y hx hy

theorem cvRunningAvg_get (src : IplImage Rgb) (acc : IplImage RgbF) (alpha : ℚ) (x y : Nat)
    (hx : x < acc.width) (hy : y < acc.height) :
    (cvRunningAvg src acc alpha).get x y =
      zip3 (fun (a : ℚ) (v : Nat) => (1 - alpha) * a + alpha * (v : ℚ))
        (acc.get x y) (src.get x y) :=
  get_mkImage _ _ _ x y hx hy

theorem cvAbsDiff_get (a b : IplImage Rgb) (x y : Nat) (hx : x < a.width) (hy : y < a.height) :
    (cvAbsDiff a b).get x y =
      zip3 (fun (u v : Nat) => min 255 ((u - v) + (v - u))) (a.get x y) (b.get x y) :=
  get_mkImage _ _ _ x y hx hy

theorem cvCvtColor_RGB2GRAY_get (src : IplImage Rgb) (x y : Nat)
    (hx : x < src.width) (hy : y < src.height) :
    (cvCvtColor_RGB2GRAY src).get x y =
      ((src.get x y).1 * 4899 + (src.get x y).2.1 * 9617 + (src.get x y).2.2 * 1868 + 8192)
        / 16384 :=
  get_mkImage _ _ _ x y hx hy

theorem cvThreshold_get (src : IplImage Nat) (threshold max_value x y : Nat)
    (hx : x < src.width) (hy : y < src.height) :
    (cvThreshold src threshold max_value).get x y =
      if threshold < src.get x y then max_value else 0 :=
  get_mkImage _ _ _ x y hx hy

theorem dilate3x3_get (img : IplImage Nat) (x y : Nat) (hx : x < img.width)
    (hy : y < img.height) :
    (dilate3x3 img).get x y =
      ((window3x3 img.width img.height x y).map (fun p => img.get p.1 p.2)).foldl max 0 :=
  get_mkImage _ _ _ x y hx hy

theorem erode3x3_get (img : IplImage Nat) (x y : Nat) (hx : x < img.width)
    (hy : y < img.height) :
    (erode3x3 img).get x y =
      ((window3x3 img.width img.height x y).map (fun p => img.get p.1 p.2)).foldl min 255 :=
  get_mkImage _ _ _ x y hx hy

theorem labelInit_get (m : IplImage Nat) (x y : Nat) (hx : x < m.width) (hy : y < m.height) :
    (labelInit m).get x y = if m.get x y = 0 then 0 else y * m.width + x + 1 :=
  get_mkImage _ _ _ x y hx hy

theorem labelStep_get (l : IplImage Nat) (x y : Nat) (hx : x < l.width) (hy : y < l.height) :
    (labelStep l).get x y =
      if l.get x y = 0 then 0
      else (((window3x3 l.width l.height x y).map (fun p => l.get p.1 p.2)).filter
        (fun v => v ≠ 0)).foldl min (l.get x y) :=
  get_mkImage _ _ _ x y hx hy

theorem cvDilate_size (m : IplImage Nat) (n : Nat) :
    (cvDilate m n).width = m.width ∧ (cvDilate m n).height = m.height := by
  unfold cvDilate
  induction n with
  | zero => exact ⟨rfl, rfl⟩
  | succ k ih =>
    rw [Function.iterate_succ_apply']
    exact ih

theorem cvErode_size (m : IplImage Nat) (n : Nat) :
    (cvErode m n).width = m.width ∧ (cvErode m n).height = m.height := by
  unfold cvErode
  induction n with
  | zero => exact ⟨rfl, rfl⟩
  | succ k ih =>
    rw [Function.iterate_succ_apply']
    exact ih

/-! ## A frame that equals the background -/

theorem cvRound_natCast (v : Nat) : cvRound (v : ℚ) = (v : Int) := by
  unfold cvRound
  have h : Int.floor ((v : ℚ)) = (v : Int) := Int.floor_natCast v
  simp only [h]
  norm_num

theorem saturate_uchar_cvRound_natCast (v : Nat) (hv : v ≤ 255) :
    saturate_uchar (cvRound (v : ℚ)) = v := by
  rw [cvRound_natCast]
  unfold saturate_uchar
  have h1 : ¬ ((v : Int) < 0) := by omega
  have h2 : ¬ (255 < (v : Int)) := by omega
  simp [h1, h2]

theorem update_run_avg_size (filter : GstMotionDetector) (src : IplImage Rgb)
    (hbg : ∀ bg, filter.run_avg = some bg → bg.width = src.width ∧ bg.height = src.height) :
    (update_run_avg filter src).width = src.width ∧
    (update_run_avg filter src).height = src.height := by
  unfold update_run_avg
  cases hr : filter.run_avg with
  | none => exact ⟨rfl, rfl⟩
  | some bg => exact hbg bg hr

theorem update_run_avg_same (filter : GstMotionDetector) (src : IplImage Rgb)
    (hbg : ∀ bg, filter.run_avg = some bg → SameAsFrame bg src) :
    SameAsFrame (update_run_avg filter src) src := by
  unfold update_run_avg
  cases hr : filter.run_avg with
  | none =>
    refine ⟨rfl, rfl, ?_⟩
    intro x y hx hy
    exact cvConvertScale_8U_32F_get src x y hx hy
  | some bg =>
    obtain ⟨hw, hh, hpix⟩ := hbg bg hr
    refine ⟨hw, hh, ?_⟩
    intro x y hx hy
    rw [cvRunningAvg_get _ _ _ x y (by omega) (by omega), hpix x y hx hy]
    simp only [zip3, map3]
    refine Prod.ext ?_ (Prod.ext ?_ ?_) <;> simp only [] <;> ring

theorem difference_image_blank (filter : GstMotionDetector) (src : IplImage Rgb)
    (h8 : Is8Bit src) (hbg : ∀ bg, filter.run_avg = some bg → SameAsFrame bg src) :
    IsBlank (difference_image filter src) := by
  obtain ⟨-, -, hpix⟩ := update_run_avg_same filter src hbg
  intro x y hx hy
  have hx2 : x < src.width := hx
  have hy2 : y < src.height := hy
  obtain ⟨b1, b2, b3⟩ := h8 x y hx2 hy2
  unfold difference_image
  simp only []
  rw [cvCvtColor_RGB2GRAY_get (cvAbsDiff src _) x y hx2 hy2, cvAbsDiff_get src _ x y hx2 hy2,
    cvConvertScale_32F_8U_get (src.width, src.height) _ x y hx2 hy2, hpix x y hx2 hy2]
  simp only [zip3, map3, saturate_uchar_cvRound_natCast _ b1,
    saturate_uchar_cvRound_natCast _ b2, saturate_uchar_cvRound_natCast _ b3]
  simp

theorem cvThreshold_blank (m : IplImage Nat) (threshold max_value : Nat) (hm : IsBlank m) :
    IsBlank (cvThreshold m threshold max_value) := by
  intro x y hx hy
  rw [cvThreshold_get m _ _ x y hx hy, hm x y hx hy]
  simp

theorem dilate3x3_blank (m : IplImage Nat) (hm : IsBlank m) : IsBlank (dilate3x3 m) := by
  intro x y hx hy
  rw [dilate3x3_get m x y hx hy]
  apply Nat.le_zero.mp
  apply foldl_max_le _ _ _ (le_refl 0)
  intro v hv
  obtain ⟨p, hp, rfl⟩ := List.mem_map.mp hv
  obtain ⟨h1, h2, -⟩ := (mem_window3x3 _ _ _ _ p).mp hp
  exact le_of_eq (hm p.1 p.2 h1 h2)

theorem erode3x3_blank (m : IplImage Nat) (hm : IsBlank m) : IsBlank (erode3x3 m) := by
  intro x y hx hy
  have hx2 : x < m.width := hx
  have hy2 : y < m.height := hy
  rw [erode3x3_get m x y hx2 hy2]
  apply Nat.le_zero.mp
  apply foldl_min_le_mem
  apply List.mem_map.mpr
  refine ⟨(x, y), ?_, hm x y hx2 hy2⟩
  rw [mem_window3x3]
  simp only []
  omega

theorem cvDilate_blank (m : IplImage Nat) (n : Nat) (hm : IsBlank m) : IsBlank (cvDilate m n) := by
  unfold cvDilate
  induction n with
  | zero => simpa using hm
  | succ k ih =>
    rw [Function.iterate_succ_apply']
    exact dilate3x3_blank _ ih

theorem cvErode_blank (m : IplImage Nat) (n : Nat) (hm : IsBlank m) : IsBlank (cvErode m n) := by
  unfold cvErode
  induction n with
  | zero => simpa using hm
  | succ k ih =>
    rw [Function.iterate_succ_apply']
    exact erode3x3_blank _ ih

theorem labelStep_size (l : IplImage Nat) :
    (labelStep l).width = l.width ∧ (labelStep l).height = l.height := ⟨rfl, rfl⟩

theorem labelStep_iterate_size (l : IplImage Nat) (n : Nat) :
    (labelStep^[n] l).width = l.width ∧ (labelStep^[n] l).height = l.height := by
  induction n with
  | zero => exact ⟨rfl, rfl⟩
  | succ k ih =>
    rw [Function.iterate_succ_apply']
    exact ih

theorem labelStep_blank (l : IplImage Nat) (hl : IsBlank l) : IsBlank (labelStep l) := by
  intro x y hx hy
  have hx2 : x < l.width := hx
  have hy2 : y < l.height := hy
  rw [labelStep_get l x y hx2 hy2]
  simp [hl x y hx2 hy2]

theorem componentLabels_blank (m : IplImage Nat) (hm : IsBlank m) :
    IsBlank (componentLabels m) := by
  unfold componentLabels
  have h0 : IsBlank (labelInit m) := by
    intro x y hx hy
    have hx2 : x < m.width := hx
    have hy2 : y < m.height := hy
    rw [labelInit_get m x y hx2 hy2]
    simp [hm x y hx2 hy2]
  generalize labelInit m = l at h0
  induction (m.width * m.height) with
  | zero => simpa using h0
  | succ k ih =>
    rw [Function.iterate_succ_apply']
    exact labelStep_blank _ ih

theorem componentLabels_size (m : IplImage Nat) :
    (componentLabels m).width = m.width ∧ (componentLabels m).height = m.height := by
  unfold componentLabels
  exact labelStep_iterate_size (labelInit m) _

/-- A mask without a set pixel has no contour. -/
theorem cvFindContours_blank (m : IplImage Nat) (hm : IsBlank m) : cvFindContours m = [] := by
  unfold cvFindContours
  simp only [List.map_eq_nil_iff, List.filter_eq_nil_iff]
  intro p hp
  obtain ⟨h1, h2⟩ := (mem_pixelPositions _ _ p).mp hp
  obtain ⟨s1, s2⟩ := componentLabels_size m
  rw [componentLabels_blank m hm p.1 p.2 (by omega) (by omega)]
  simp

theorem motion_mask_blank (filter : GstMotionDetector) (src : IplImage Rgb)
    (h8 : Is8Bit src) (hbg : ∀ bg, filter.run_avg = some bg → SameAsFrame bg src) :
    IsBlank (motion_mask filter src) := by
  unfold motion_mask
  exact cvErode_blank _ _ (cvDilate_blank _ _
    (cvThreshold_blank _ _ _ (difference_image_blank filter src h8 hbg)))

/-- A frame that equals the background gives the contour loop nothing to go through. -/
theorem contour_rects_same (filter : GstMotionDetector) (src : IplImage Rgb)
    (h8 : Is8Bit src) (hbg : ∀ bg, filter.run_avg = some bg → SameAsFrame bg src) :
    contour_rects filter src = [] := by
  unfold contour_rects
  rw [cvFindContours_blank _ (motion_mask_blank filter src h8 hbg)]
  rfl

/-- C9: for every configuration, a frame of 8-bit samples that equals the
background model sample for sample, or that is the first frame of the stream
(no background model yet, which is then created from the frame), leaves
`num_blobs` at 0 and posts no blob message. -/
theorem identical_frame_no_blobs (filter : GstMotionDetector) (src : IplImage Rgb)
    (h8 : Is8Bit src) (hbg : ∀ bg, filter.run_avg = some bg → SameAsFrame bg src) :
    (gst_motion_detector_process_image filter src).1.num_blobs = 0 ∧
    (gst_motion_detector_process_image filter src).2.1 = [] ∧
    contour_rects filter src = [] := by
  have hc : contour_rects filter src = [] := contour_rects_same filter src h8 hbg
  unfold gst_motion_detector_process_image
  simp only [hc]
  exact ⟨rfl, rfl, trivial⟩

theorem identical_frame_no_blobs_witness :
    Is8Bit (currentImage small_detector frame_black) ∧
    (∀ bg, small_detector.run_avg = some bg →
      SameAsFrame bg (currentImage small_detector frame_black)) ∧
    (gst_motion_detector_process_image small_detector
      (currentImage small_detector frame_black)).1.num_blobs = 0 := by
  have h8 : Is8Bit (currentImage small_detector frame_black) := by
    intro x y hx hy
    have hx2 : x < 3 := hx
    have hy2 : y < 3 := hy
    interval_cases x <;> interval_cases y <;> decide
  have hbg : ∀ bg, small_detector.run_avg = some bg →
      SameAsFrame bg (currentImage small_detector frame_black) := by
    intro bg hsome
    have hb : mkImage 3 3 (fun _ _ => ((0, 0, 0) : RgbF)) = bg := Option.some.inj hsome
    subst hb
    refine ⟨rfl, rfl, ?_⟩
    intro x y hx hy
    have hx2 : x < 3 := hx
    have hy2 : y < 3 := hy
    interval_cases x <;> interval_cases y <;> decide!
  exact ⟨h8, hbg,
    (identical_frame_no_blobs small_detector (currentImage small_detector frame_black)
      h8 hbg).1⟩

/-! ## Raising the threshold -/

theorem foldl_max_map_mono {β : Type} (l : List β) (f g : β → Nat) (a : Nat)
    (h : ∀ p ∈ l, f p ≤ g p) : (l.map f).foldl max a ≤ (l.map g).foldl max a := by
  apply foldl_max_le
  · exact foldl_max_ge_init _ _
  · intro v hv
    obtain ⟨p, hp, rfl⟩ := List.mem_map.mp hv
    exact le_trans (h p hp) (foldl_max_ge_mem _ _ _ (List.mem_map_of_mem g hp))

theorem foldl_min_map_mono {β : Type} (l : List β) (f g : β → Nat) (a : Nat)
    (h : ∀ p ∈ l, f p ≤ g p) : (l.map f).foldl min a ≤ (l.map g).foldl min a := by
  apply le_foldl_min
  · exact foldl_min_le_init _ _
  · intro v hv
    obtain ⟨p, hp, rfl⟩ := List.mem_map.mp hv
    exact le_trans (foldl_min_le_mem _ _ _ (List.mem_map_of_mem f hp)) (h p hp)

theorem dilate3x3_mono (a b : IplImage Nat) (h : MaskLe a b) :
    MaskLe (dilate3x3 a) (dilate3x3 b) := by
  obtain ⟨hw, hh, hpix⟩ := h
  refine ⟨hw, hh, ?_⟩
  intro x y hx hy
  have hx2 : x < a.width := hx
  have hy2 : y < a.height := hy
  rw [dilate3x3_get a x y hx2 hy2, dilate3x3_get b x y (hw ▸ hx2) (hh ▸ hy2), ← hw, ← hh]
  apply foldl_max_map_mono
  intro p hp
  obtain ⟨h1, h2, -⟩ := (mem_window3x3 _ _ _ _ p).mp hp
  exact hpix p.1 p.2 h1 h2

theorem erode3x3_mono (a b : IplImage Nat) (h : MaskLe a b) :
    MaskLe (erode3x3 a) (erode3x3 b) := by
  obtain ⟨hw, hh, hpix⟩ := h
  refine ⟨hw, hh, ?_⟩
  intro x y hx hy
  have hx2 : x < a.width := hx
  have hy2 : y < a.height := hy
  rw [erode3x3_get a x y hx2 hy2, erode3x3_get b x y (hw ▸ hx2) (hh ▸ hy2), ← hw, ← hh]
  apply foldl_min_map_mono
  intro p hp
  obtain ⟨h1, h2, -⟩ := (mem_window3x3 _ _ _ _ p).mp hp
  exact hpix p.1 p.2 h1 h2

theorem cvDilate_mono (a b : IplImage Nat) (n : Nat) (h : MaskLe a b) :
    MaskLe (cvDilate a n) (cvDilate b n) := by
  unfold cvDilate
  induction n with
  | zero => simpa using h
  | succ k ih =>
    rw [Function.iterate_succ_apply', Function.iterate_succ_apply']
    exact dilate3x3_mono _ _ ih

theorem cvErode_mono (a b : IplImage Nat) (n : Nat) (h : MaskLe a b) :
    MaskLe (cvErode a n) (cvErode b n) := by
  unfold cvErode
  induction n with
  | zero => simpa using h
  | succ k ih =>
    rw [Function.iterate_succ_apply', Function.iterate_succ_apply']
    exact erode3x3_mono _ _ ih

theorem cvThreshold_antitone (m : IplImage Nat) (t1 t2 max_value : Nat) (h : t1 ≤ t2) :
    MaskLe (cvThreshold m t2 max_value) (cvThreshold m t1 max_value) := by
  refine ⟨rfl, rfl, ?_⟩
  intro x y hx hy
  rw [cvThreshold_get m _ _ x y hx hy, cvThreshold_get m _ _ x y hx hy]
  by_cases h2 : t2 < m.get x y
  · have h1 : t1 < m.get x y := lt_of_le_of_lt h h2
    simp [h1, h2]
  · simp [h2]

theorem IsBlank_of_MaskLe (a b : IplImage Nat) (h : MaskLe a b) (hb : IsBlank b) : IsBlank a := by
  obtain ⟨hw, hh, hpix⟩ := h
  intro x y hx hy
  have := hpix x y hx hy
  rw [hb x y (hw ▸ hx) (hh ▸ hy)] at this
  omega

/-- C10, as the code has it: for one frame, background model and
configuration, raising the threshold from `t1` to `t2` sets no new pixel in
the binary image handed to the contour search (after threshold, dilation and
erosion each pixel at `t2` is at most the pixel at `t1`), and when that image
has no set pixel at `t1` the blob count at `t2` is 0. -/
theorem raising_threshold_shrinks_mask (filter : GstMotionDetector) (src : IplImage Rgb)
    (t1 t2 : Nat) (h : t1 ≤ t2) :
    MaskLe (motion_mask { filter with threshold := t2 } src)
      (motion_mask { filter with threshold := t1 } src) ∧
    (IsBlank (motion_mask { filter with threshold := t1 } src) →
      (gst_motion_detector_process_image { filter with threshold := t2 } src).1.num_blobs = 0) := by
  have hle : MaskLe (motion_mask { filter with threshold := t2 } src)
      (motion_mask { filter with threshold := t1 } src) := by
    unfold motion_mask
    exact cvErode_mono _ _ _ (cvDilate_mono _ _ _
      (cvThreshold_antitone (difference_image filter src) t1 t2 255 h))
  refine ⟨hle, ?_⟩
  intro hb
  have hc : contour_rects { filter with threshold := t2 } src = [] := by
    unfold contour_rects
    rw [cvFindContours_blank _ (IsBlank_of_MaskLe _ _ hle hb)]
    rfl
  unfold gst_motion_detector_process_image
  simp only [hc]
  rfl

/-- C10, refuted as stated: on a black background, a frame with two white
pixels joined by a grey one gives one blob (3 by 1) at threshold 70 and two
blobs (1 by 1 each) at threshold 150. -/
theorem raising_threshold_splits_blob :
    frame_num_blobs (bridge_detector 70) frame_bridge = 1 ∧
    frame_num_blobs (bridge_detector 150) frame_bridge = 2 ∧
    contour_rects (bridge_detector 70) (currentImage (bridge_detector 70) frame_bridge) =
      [{ x := 1, y := 1, width := 3, height := 1 }] ∧
    (contour_rects (bridge_detector 150)
      (currentImage (bridge_detector 150) frame_bridge)).length = 2 ∧
    ({ x := 1, y := 1, width := 1, height := 1 } : CvRect) ∈
      contour_rects (bridge_detector 150) (currentImage (bridge_detector 150) frame_bridge) ∧
    ({ x := 3, y := 1, width := 1, height := 1 } : CvRect) ∈
      contour_rects (bridge_detector 150) (currentImage (bridge_detector 150) frame_bridge) := by
  decide!

theorem raising_threshold_shrinks_mask_witness :
    (70 : Nat) ≤ 150 ∧
    MaskLe
      (motion_mask { bridge_detector 70 with threshold := 150 }
        (currentImage (bridge_detector 70) frame_bridge))
      (motion_mask { bridge_detector 70 with threshold := 70 }
        (currentImage (bridge_detector 70) frame_bridge)) :=
  ⟨by decide,
    (raising_threshold_shrinks_mask (bridge_detector 70)
      (currentImage (bridge_detector 70) frame_bridge) 70 150 (by decide)).1⟩

/-! ## Morphology of a filled rectangle -/

theorem rectMask_get (w h a b c d x y : Nat) (hx : x < w) (hy : y < h) :
    (rectMask w h a b c d).get x y = if a ≤ x ∧ x ≤ b ∧ c ≤ y ∧ y ≤ d then 255 else 0 :=
  get_mkImage _ _ _ x y hx hy

theorem rectMask_get_le (w h a b c d x y : Nat) (hx : x < w) (hy : y < h) :
    (rectMask w h a b c d).get x y ≤ 255 := by
  rw [rectMask_get w h a b c d x y hx hy]
  split <;> simp

/-- One dilation grows a filled rectangle that does not touch the image
border by one pixel on each side. -/
theorem dilate3x3_rectMask (w h a b c d : Nat) (hab : a ≤ b) (hcd : c ≤ d)
    (ha : 1 ≤ a) (hb : b + 1 < w) (hc : 1 ≤ c) (hd : d + 1 < h) :
    dilate3x3 (rectMask w h a b c d) = rectMask w h (a - 1) (b + 1) (c - 1) (d + 1) := by
  apply mkImage_congr
  intro x y hx hy
  have hx2 : x < w := hx
  have hy2 : y < h := hy
  by_cases hin : a - 1 ≤ x ∧ x ≤ b + 1 ∧ c - 1 ≤ y ∧ y ≤ d + 1
  · rw [if_pos hin]
    apply le_antisymm
    · apply foldl_max_le _ _ _ (by omega)
      intro v hv
      obtain ⟨p, hp, rfl⟩ := List.mem_map.mp hv
      obtain ⟨h1, h2, -⟩ := (mem_window3x3 _ _ _ _ p).mp hp
      exact rectMask_get_le w h a b c d p.1 p.2 h1 h2
    · apply foldl_max_ge_mem
      apply List.mem_map.mpr
      refine ⟨(min (max x a) b, min (max y c) d), ?_, ?_⟩
      · rw [mem_window3x3]
        simp only []
        refine ⟨?_, ?_, ?_, ?_, ?_, ?_⟩
        · show min (max x a) b < w
          omega
        · show min (max y c) d < h
          omega
        · omega
        · omega
        · omega
        · omega
      · simp only []
        rw [rectMask_get w h a b c d _ _ (by omega) (by omega)]
        rw [if_pos (by omega)]
  · rw [if_neg hin]
    apply Nat.le_zero.mp
    apply foldl_max_le _ _ _ (le_refl 0)
    intro v hv
    obtain ⟨p, hp, rfl⟩ := List.mem_map.mp hv
    obtain ⟨h1, h2, h3, h4, h5, h6⟩ := (mem_window3x3 _ _ _ _ p).mp hp
    have h1b : p.1 < w := h1
    have h2b : p.2 < h := h2
    rw [rectMask_get w h a b c d p.1 p.2 h1b h2b]
    rw [if_neg (by omega)]

/-- One erosion shrinks a filled rectangle that does not touch the image
border by one pixel on each side. -/
theorem erode3x3_rectMask (w h a b c d : Nat)
    (ha : 1 ≤ a) (hb : b + 1 < w) (hc : 1 ≤ c) (hd : d + 1 < h) :
    erode3x3 (rectMask w h a b c d) = rectMask w h (a + 1) (b - 1) (c + 1) (d - 1) := by
  apply mkImage_congr
  intro x y hx hy
  have hx2 : x < w := hx
  have hy2 : y < h := hy
  by_cases hin : a + 1 ≤ x ∧ x ≤ b - 1 ∧ c + 1 ≤ y ∧ y ≤ d - 1
  · rw [if_pos hin]
    apply le_antisymm
    · exact foldl_min_le_init _ _
    · apply le_foldl_min _ _ _ (le_refl 255)
      intro v hv
      obtain ⟨p, hp, rfl⟩ := List.mem_map.mp hv
      obtain ⟨h1, h2, h3, h4, h5, h6⟩ := (mem_window3x3 _ _ _ _ p).mp hp
      have h1b : p.1 < w := h1
      have h2b : p.2 < h := h2
      rw [rectMask_get w h a b c d p.1 p.2 h1b h2b]
      rw [if_pos (by omega)]
  · rw [if_neg hin]
    apply Nat.le_zero.mp
    have hzero : ∃ p : Nat × Nat, p ∈ window3x3 w h x y ∧
        ¬ (a ≤ p.1 ∧ p.1 ≤ b ∧ c ≤ p.2 ∧ p.2 ≤ d) := by
      by_cases hself : a ≤ x ∧ x ≤ b ∧ c ≤ y ∧ y ≤ d
      · by_cases hxa : x = a
        · refine ⟨(x - 1, y), ?_, ?_⟩
          · rw [mem_window3x3]
            simp only []
            omega
          · simp only []
            omega
        · by_cases hxb : x = b
          · refine ⟨(x + 1, y), ?_, ?_⟩
            · rw [mem_window3x3]
              simp only []
              omega
            · simp only []
              omega
          · by_cases hyc : y = c
            · refine ⟨(x, y - 1), ?_, ?_⟩
              · rw [mem_window3x3]
                simp only []
                omega
              · simp only []
                omega
            · refine ⟨(x, y + 1), ?_, ?_⟩
              · rw [mem_window3x3]
                simp only []
                omega
              · simp only []
                omega
      · refine ⟨(x, y), ?_, hself⟩
        rw [mem_window3x3]
        simp only []
        omega
    obtain ⟨p, hp, hout⟩ := hzero
    obtain ⟨h1, h2, -⟩ := (mem_window3x3 _ _ _ _ p).mp hp
    have h1b : p.1 < w := h1
    have h2b : p.2 < h := h2
    apply foldl_min_le_mem
    apply List.mem_map.mpr
    refine ⟨p, hp, ?_⟩
    rw [rectMask_get w h a b c d p.1 p.2 h1b h2b, if_neg hout]

theorem cvDilate_rectMask (w h a b c d k : Nat) (hab : a ≤ b) (hcd : c ≤ d)
    (ha : k ≤ a) (hb : b + k < w) (hc : k ≤ c) (hd : d + k < h) :
    cvDilate (rectMask w h a b c d) k = rectMask w h (a - k) (b + k) (c - k) (d + k) := by
  unfold cvDilate
  induction k with
  | zero => rfl
  | succ j ih =>
    rw [Function.iterate_succ_apply', ih (by omega) (by omega) (by omega) (by omega)]
    rw [dilate3x3_rectMask w h _ _ _ _ (by omega) (by omega) (by omega) (by omega) (by omega)
      (by omega)]
    congr 1

theorem cvErode_rectMask (w h a b c d k : Nat)
    (ha : 1 ≤ a) (hb : b + 1 < w) (hc : 1 ≤ c) (hd : d + 1 < h) :
    cvErode (rectMask w h a b c d) k = rectMask w h (a + k) (b - k) (c + k) (d - k) := by
  unfold cvErode
  induction k with
  | zero => rfl
  | succ j ih =>
    rw [Function.iterate_succ_apply', ih]
    rw [erode3x3_rectMask w h _ _ _ _ (by omega) (by omega) (by omega) (by omega)]
    congr 1

/-! ## The contour of a filled rectangle -/

theorem scan_index_mono (w x1 x2 y1 y2 : Nat) (hx : x1 ≤ x2) (hy : y1 ≤ y2) :
    y1 * w + x1 + 1 ≤ y2 * w + x2 + 1 :=
  Nat.add_le_add_right (Nat.add_le_add (Nat.mul_le_mul_right w hy) hx) 1

theorem rectLabels_get (w h a b c d k x y : Nat) (hx : x < w) (hy : y < h) :
    (rectLabels w h a b c d k).get x y =
      if a ≤ x ∧ x ≤ b ∧ c ≤ y ∧ y ≤ d then max (y - k) c * w + max (x - k) a + 1 else 0 :=
  get_mkImage _ _ _ x y hx hy

theorem labelInit_rectMask (w h a b c d : Nat) :
    labelInit (rectMask w h a b c d) = rectLabels w h a b c d 0 := by
  apply mkImage_congr
  intro x y hx hy
  have hx2 : x < w := hx
  have hy2 : y < h := hy
  rw [rectMask_get w h a b c d x y hx2 hy2]
  by_cases hin : a ≤ x ∧ x ≤ b ∧ c ≤ y ∧ y ≤ d
  · rw [if_pos hin, if_pos hin]
    have h1 : max (y - 0) c = y := by omega
    have h2 : max (x - 0) a = x := by omega
    rw [h1, h2, if_neg (by omega)]
    rfl
  · rw [if_neg hin, if_neg hin]
    simp

theorem labelStep_rectLabels (w h a b c d k : Nat) :
    labelStep (rectLabels w h a b c d k) = rectLabels w h a b c d (k + 1) := by
  apply mkImage_congr
  intro x y hx hy
  have hx2 : x < w := hx
  have hy2 : y < h := hy
  rw [rectLabels_get w h a b c d k x y hx2 hy2]
  by_cases hin : a ≤ x ∧ x ≤ b ∧ c ≤ y ∧ y ≤ d
  · rw [if_pos hin, if_pos hin, if_neg (by omega)]
    apply le_antisymm
    · apply foldl_min_le_mem
      rw [List.mem_filter]
      refine ⟨?_, by simp⟩
      apply List.mem_map.mpr
      refine ⟨(max (x - 1) a, max (y - 1) c), ?_, ?_⟩
      · rw [mem_window3x3]
        simp only []
        refine ⟨?_, ?_, ?_, ?_, ?_, ?_⟩
        · show max (x - 1) a < w
          omega
        · show max (y - 1) c < h
          omega
        · omega
        · omega
        · omega
        · omega
      · simp only []
        rw [rectLabels_get w h a b c d k _ _ (by omega) (by omega), if_pos (by omega)]
        have e1 : max (max (y - 1) c - k) c = max (y - (k + 1)) c := by omega
        have e2 : max (max (x - 1) a - k) a = max (x - (k + 1)) a := by omega
        rw [e1, e2]
    · apply le_foldl_min
      · exact scan_index_mono w _ _ _ _ (by omega) (by omega)
      · intro v hv
        rw [List.mem_filter] at hv
        obtain ⟨hv1, hv2⟩ := hv
        obtain ⟨p, hp, rfl⟩ := List.mem_map.mp hv1
        obtain ⟨h1, h2, h3, h4, h5, h6⟩ := (mem_window3x3 _ _ _ _ p).mp hp
        have h1b : p.1 < w := h1
        have h2b : p.2 < h := h2
        rw [rectLabels_get w h a b c d k p.1 p.2 h1b h2b] at hv2 ⊢
        by_cases hpin : a ≤ p.1 ∧ p.1 ≤ b ∧ c ≤ p.2 ∧ p.2 ≤ d
        · rw [if_pos hpin]
          exact scan_index_mono w _ _ _ _ (by omega) (by omega)
        · rw [if_neg hpin] at hv2
          simp at hv2
  · rw [if_neg hin, if_neg hin]
    simp

theorem labelStep_iterate_rectLabels (w h a b c d k : Nat) :
    labelStep^[k] (rectLabels w h a b c d 0) = rectLabels w h a b c d k := by
  induction k with
  | zero => rfl
  | succ j ih => rw [Function.iterate_succ_apply', ih, labelStep_rectLabels w h a b c d j]

/-- The final labels of a filled rectangle: every pixel of the rectangle
carries the label of its top left corner. -/
theorem componentLabels_rectMask_get (w h a b c d x y : Nat) (hx : x < w) (hy : y < h) :
    (componentLabels (rectMask w h a b c d)).get x y =
      if a ≤ x ∧ x ≤ b ∧ c ≤ y ∧ y ≤ d then c * w + a + 1 else 0 := by
  unfold componentLabels
  rw [labelInit_rectMask]
  have hsz : (rectMask w h a b c d).width * (rectMask w h a b c d).height = w * h := rfl
  rw [hsz, labelStep_iterate_rectLabels w h a b c d (w * h),
    rectLabels_get w h a b c d (w * h) x y hx hy]
  by_cases hin : a ≤ x ∧ x ≤ b ∧ c ≤ y ∧ y ≤ d
  · rw [if_pos hin, if_pos hin]
    have hw1 : w ≤ w * h := Nat.le_mul_of_pos_right w (by omega)
    have hh1 : h ≤ w * h := Nat.le_mul_of_pos_left h (by omega)
    have e1 : max (y - w * h) c = c := by omega
    have e2 : max (x - w * h) a = a := by omega
    rw [e1, e2]
  · rw [if_neg hin, if_neg hin]

theorem filter_range_none (n : Nat) (q : Nat → Bool) (hq : ∀ i, i < n → q i = false) :
    (List.range n).filter q = [] := by
  rw [List.filter_eq_nil_iff]
  intro i hi
  rw [hq i (List.mem_range.mp hi)]
  simp

theorem filter_range_single (n i0 : Nat) (q : Nat → Bool) (hi0 : i0 < n)
    (hq : ∀ i, i < n → (q i = true ↔ i = i0)) : (List.range n).filter q = [i0] := by
  induction n with
  | zero => omega
  | succ m ih =>
    rw [List.range_succ, List.filter_append]
    by_cases hm : i0 = m
    · subst hm
      have h1 : (List.range i0).filter q = [] := by
        apply filter_range_none
        intro i hi
        have := hq i (by omega)
        by_cases hqi : q i = true
        · have := this.mp hqi
          omega
        · simpa using hqi
      have h2 : q i0 = true := (hq i0 (by omega)).mpr rfl
      rw [h1]
      simp [h2]
    · have h1 : (List.range m).filter q = [i0] :=
        ih (by omega) (fun i hi => hq i (by omega))
      have h2 : q m = false := by
        by_cases hqm : q m = true
        · have := (hq m (by omega)).mp hqm
          omega
        · simpa using hqm
      rw [h1]
      simp [h2]

theorem foldl_min_eq (l : List Nat) (init a : Nat) (hinit : a ≤ init) (hl : ∀ v ∈ l, a ≤ v)
    (hmem : init = a ∨ a ∈ l) : l.foldl min init = a := by
  apply le_antisymm
  · rcases hmem with h | h
    · rw [h]
      exact foldl_min_le_init l a
    · exact foldl_min_le_mem l init a h
  · exact le_foldl_min l init a hinit hl

theorem foldl_max_eq (l : List Nat) (init a : Nat) (hinit : init ≤ a) (hl : ∀ v ∈ l, v ≤ a)
    (hmem : init = a ∨ a ∈ l) : l.foldl max init = a := by
  apply le_antisymm
  · exact foldl_max_le l init a hinit hl
  · rcases hmem with h | h
    · rw [h]
      exact foldl_max_ge_init l a
    · exact foldl_max_ge_mem l init a h

/-- The bounding rectangle of a contour that stays within columns `a` to `b`
and rows `c` to `d` and reaches each of the four. -/
theorem cvBoundingRect_eq (contour : CvSeq) (a b c d : Nat)
    (hall : ∀ p ∈ contour, a ≤ p.1 ∧ p.1 ≤ b ∧ c ≤ p.2 ∧ p.2 ≤ d)
    (ha : ∃ p ∈ contour, p.1 = a) (hb : ∃ p ∈ contour, p.1 = b)
    (hc : ∃ p ∈ contour, p.2 = c) (hd : ∃ p ∈ contour, p.2 = d) :
    cvBoundingRect contour =
      { x := (a : Int), y := (c : Int), width := ((b - a + 1 : Nat) : Int),
        height := ((d - c + 1 : Nat) : Int) } := by
  cases contour with
  | nil =>
    obtain ⟨p, hp, -⟩ := ha
    simp at hp
  | cons q qs =>
    have hq := hall q (List.mem_cons_self q qs)
    have hqs : ∀ p ∈ qs, a ≤ p.1 ∧ p.1 ≤ b ∧ c ≤ p.2 ∧ p.2 ≤ d :=
      fun p hp => hall p (List.mem_cons_of_mem q hp)
    have attain : ∀ (f : Nat × Nat → Nat) (v : Nat), (∃ p ∈ q :: qs, f p = v) →
        (f q = v ∨ v ∈ qs.map f) := by
      intro f v hv
      obtain ⟨p, hp, hpv⟩ := hv
      rcases List.mem_cons.mp hp with h | h
      · left
        rw [← h, hpv]
      · right
        exact List.mem_map.mpr ⟨p, h, hpv⟩
    have e1 : (qs.map Prod.fst).foldl min q.1 = a := by
      apply foldl_min_eq _ _ _ hq.1
      · intro v hv
        obtain ⟨p, hp, rfl⟩ := List.mem_map.mp hv
        exact (hqs p hp).1
      · exact attain Prod.fst a ha
    have e2 : (qs.map Prod.fst).foldl max q.1 = b := by
      apply foldl_max_eq _ _ _ hq.2.1
      · intro v hv
        obtain ⟨p, hp, rfl⟩ := List.mem_map.mp hv
        exact (hqs p hp).2.1
      · exact attain Prod.fst b hb
    have e3 : (qs.map Prod.snd).foldl min q.2 = c := by
      apply foldl_min_eq _ _ _ hq.2.2.1
      · intro v hv
        obtain ⟨p, hp, rfl⟩ := List.mem_map.mp hv
        exact (hqs p hp).2.2.1
      · exact attain Prod.snd c hc
    have e4 : (qs.map Prod.snd).foldl max q.2 = d := by
      apply foldl_max_eq _ _ _ hq.2.2.2
      · intro v hv
        obtain ⟨p, hp, rfl⟩ := List.mem_map.mp hv
        exact (hqs p hp).2.2.2
      · exact attain Prod.snd d hd
    unfold cvBoundingRect
    simp only [e1, e2, e3, e4]

theorem rectMask_size (w h a b c d : Nat) :
    (rectMask w h a b c d).width = w ∧ (rectMask w h a b c d).height = h := ⟨rfl, rfl⟩

theorem div_mod_scan (w i : Nat) : i / w * w + i % w = i := by
  rw [Nat.mul_comm]
  exact Nat.div_add_mod i w

/-- A filled rectangle inside the image has exactly one contour, and its
bounding rectangle is the rectangle. -/
theorem contour_rects_rectMask (w h a b c d : Nat) (hab : a ≤ b) (hcd : c ≤ d)
    (hb : b < w) (hd : d < h) :
    (cvFindContours (rectMask w h a b c d)).map cvBoundingRect =
      [{ x := (a : Int), y := (c : Int), width := ((b - a + 1 : Nat) : Int),
         height := ((d - c + 1 : Nat) : Int) }] := by
  have hroots : (pixelPositions w h).filter
      (fun p => (componentLabels (rectMask w h a b c d)).get p.1 p.2 = p.2 * w + p.1 + 1) =
      [(a, c)] := by
    unfold pixelPositions
    rw [List.filter_map]
    have hi0 : c * w + a < w * h := by
      calc c * w + a < c * w + w := by omega
        _ = (c + 1) * w := by ring
        _ ≤ h * w := Nat.mul_le_mul_right w (by omega)
        _ = w * h := Nat.mul_comm h w
    have hmod : (c * w + a) % w = a := by
      rw [Nat.add_comm, Nat.add_mul_mod_self_right, Nat.mod_eq_of_lt (by omega)]
    have hdiv : (c * w + a) / w = c := by
      rw [Nat.add_comm, Nat.add_mul_div_right _ _ (by omega : 0 < w),
        Nat.div_eq_of_lt (by omega), Nat.zero_add]
    rw [filter_range_single (w * h) (c * w + a) _ hi0]
    · simp [hmod, hdiv]
    · intro i hi
      have hx : i % w < w := Nat.mod_lt _ (by omega)
      have hy : i / w < h := Nat.div_lt_of_lt_mul hi
      simp only [Function.comp, decide_eq_true_eq]
      rw [componentLabels_rectMask_get w h a b c d _ _ hx hy, div_mod_scan]
      constructor
      · intro hlab
        split at hlab
        · omega
        · omega
      · intro hi2
        rw [hi2, hmod, hdiv, if_pos (by omega)]
  unfold cvFindContours
  simp only [(rectMask_size w h a b c d).1, (rectMask_size w h a b c d).2, hroots,
    List.map_cons, List.map_nil]
  congr 1
  apply cvBoundingRect_eq
  · intro p hp
    rw [List.mem_filter] at hp
    obtain ⟨hp1, hp2⟩ := hp
    obtain ⟨h1, h2⟩ := (mem_pixelPositions w h p).mp hp1
    simp only [decide_eq_true_eq] at hp2
    rw [componentLabels_rectMask_get w h a b c d _ _ h1 h2] at hp2
    split at hp2
    · assumption
    · omega
  all_goals
    first
    | refine ⟨(a, c), ?_, rfl⟩
    | refine ⟨(b, d), ?_, rfl⟩
    rw [List.mem_filter]
    refine ⟨(mem_pixelPositions w h _).mpr ⟨by simp only []; omega, by simp only []; omega⟩, ?_⟩
    simp only [decide_eq_true_eq]
    rw [componentLabels_rectMask_get w h a b c d _ _ (by omega) (by omega), if_pos (by omega)]

/-! ## The default detector on black frames -/

theorem black_image_100_get (x y : Nat) (hx : x < 100) (hy : y < 100) :
    black_image_100.get x y = black :=
  get_mkImage _ _ _ x y hx hy

theorem square_image_100_get (x y : Nat) (hx : x < 100) (hy : y < 100) :
    square_image_100.get x y =
      if 40 ≤ x ∧ x ≤ 59 ∧ 40 ≤ y ∧ y ≤ 59 then white else black :=
  get_mkImage _ _ _ x y hx hy

theorem black_image_100_8bit : Is8Bit black_image_100 := by
  intro x y hx hy
  rw [black_image_100_get x y hx hy]
  decide

theorem currentImage_imageData (s : GstMotionDetector) (img : IplImage Rgb)
    (hw : s.width = img.width) (hh : s.height = img.height) :
    currentImage s img.imageData = img := by
  cases img
  unfold currentImage
  simp only [] at hw hh
  rw [hw, hh]

theorem currentImage_black (s : GstMotionDetector) (hw : s.width = 100) (hh : s.height = 100) :
    currentImage s black_frame_100 = black_image_100 :=
  currentImage_imageData s black_image_100 (hw.trans (mkImage_width _ _ _).symm)
    (hh.trans (mkImage_height _ _ _).symm)

theorem currentImage_square (s : GstMotionDetector) (hw : s.width = 100) (hh : s.height = 100) :
    currentImage s square_frame_100 = square_image_100 :=
  currentImage_imageData s square_image_100 (hw.trans (mkImage_width _ _ _).symm)
    (hh.trans (mkImage_height _ _ _).symm)

theorem BlackRun_default (post_messages : Bool) :
    BlackRun post_messages (default_detector_100 post_messages) where
  post_messages_eq := rfl
  draw_motion_eq := rfl
  avg_weight_eq := rfl
  threshold_eq := rfl
  dilate_eq := rfl
  erode_eq := rfl
  min_eq := rfl
  max_eq := rfl
  rate_limit_eq := rfl
  width_eq := rfl
  height_eq := rfl
  idle := rfl
  background := by
    intro bg hbg
    cases hbg

/-- The chain function on a black frame while the background is black: only
the background model, the blob count and the cooldown flag are written. -/
theorem chain_black_frame (post_messages : Bool) (s : GstMotionDetector)
    (hs : BlackRun post_messages s) :
    gst_motion_detector_chain s black_frame_100 =
      ({ s with
          run_avg := some (update_run_avg s black_image_100)
          num_blobs := 0
          rate_inhibit := true },
        if s.rate_inhibit then [] else [Emitted.timeout_add 500],
        black_image_100) := by
  have hc : contour_rects s black_image_100 = [] :=
    contour_rects_same s black_image_100 black_image_100_8bit hs.background
  have hp : gst_motion_detector_process_image s black_image_100 =
      ({ s with run_avg := some (update_run_avg s black_image_100), num_blobs := 0 },
        [], black_image_100) := by
    unfold gst_motion_detector_process_image
    rw [hc]
    rfl
  unfold gst_motion_detector_chain
  rw [currentImage_black s hs.width_eq hs.height_eq, hp]
  by_cases hinh : s.rate_inhibit = true
  · simp [hinh]
  · have hfree : s.rate_inhibit = false := by simpa using hinh
    simp [hfree, chain_transition, hs.idle, hs.rate_limit_eq]

theorem BlackRun_chain (post_messages : Bool) (s : GstMotionDetector)
    (hs : BlackRun post_messages s) :
    BlackRun post_messages (gst_motion_detector_chain s black_frame_100).1 ∧
    (gst_motion_detector_chain s black_frame_100).1.run_avg ≠ none := by
  rw [chain_black_frame post_messages s hs]
  refine ⟨?_, by simp⟩
  exact
    { post_messages_eq := hs.post_messages_eq
      draw_motion_eq := hs.draw_motion_eq
      avg_weight_eq := hs.avg_weight_eq
      threshold_eq := hs.threshold_eq
      dilate_eq := hs.dilate_eq
      erode_eq := hs.erode_eq
      min_eq := hs.min_eq
      max_eq := hs.max_eq
      rate_limit_eq := hs.rate_limit_eq
      width_eq := hs.width_eq
      height_eq := hs.height_eq
      idle := hs.idle
      background := by
        intro bg hbg
        have hb : update_run_avg s black_image_100 = bg := Option.some.inj hbg
        rw [← hb]
        exact update_run_avg_same s black_image_100 hs.background }

theorem BlackRun_rate_timeout (post_messages : Bool) (s : GstMotionDetector)
    (hs : BlackRun post_messages s) :
    BlackRun post_messages (gst_motion_detector_rate_timeout s) :=
  { post_messages_eq := hs.post_messages_eq
    draw_motion_eq := hs.draw_motion_eq
    avg_weight_eq := hs.avg_weight_eq
    threshold_eq := hs.threshold_eq
    dilate_eq := hs.dilate_eq
    erode_eq := hs.erode_eq
    min_eq := hs.min_eq
    max_eq := hs.max_eq
    rate_limit_eq := hs.rate_limit_eq
    width_eq := hs.width_eq
    height_eq := hs.height_eq
    idle := hs.idle
    background := hs.background }

/-- Black frames and timer expiries keep the default detector idle with a
black background; the background model exists as soon as one frame has
been processed. -/
theorem BlackRun_run (post_messages : Bool) (tr : List Event) (s : GstMotionDetector)
    (hs : BlackRun post_messages s)
    (htr : ∀ e ∈ tr, e = Event.frame black_frame_100 ∨ e = Event.rate_timeout) :
    BlackRun post_messages (run s tr).1 ∧
    ((s.run_avg ≠ none ∨ Event.frame black_frame_100 ∈ tr) → (run s tr).1.run_avg ≠ none) := by
  induction tr generalizing s with
  | nil =>
    refine ⟨hs, ?_⟩
    intro h
    rcases h with h | h
    · exact h
    · simp at h
  | cons e rest ih =>
    have hrest : ∀ e ∈ rest, e = Event.frame black_frame_100 ∨ e = Event.rate_timeout :=
      fun e he => htr e (List.mem_cons_of_mem _ he)
    rcases htr e (List.mem_cons_self e rest) with he | he
    · subst he
      rw [run_frame_cons]
      obtain ⟨c1, c2⟩ := BlackRun_chain post_messages s hs
      obtain ⟨r1, r2⟩ := ih (gst_motion_detector_chain s black_frame_100).1 c1 hrest
      exact ⟨r1, fun _ => r2 (Or.inl c2)⟩
    · subst he
      rw [run_rate_timeout_cons]
      obtain ⟨r1, r2⟩ := ih (gst_motion_detector_rate_timeout s)
        (BlackRun_rate_timeout post_messages s hs) hrest
      refine ⟨r1, ?_⟩
      intro h
      apply r2
      rcases h with h | h
      · exact Or.inl h
      · rcases List.mem_cons.mp h with h2 | h2
        · cases h2
        · exact Or.inr h2

/-! ## The white square on the black background -/

theorem white_sample_over_black :
    min 255 ((255 - saturate_uchar (cvRound ((1 - 2 / 100) * ((0 : Nat) : ℚ) +
        2 / 100 * ((255 : Nat) : ℚ)))) +
      (saturate_uchar (cvRound ((1 - 2 / 100) * ((0 : Nat) : ℚ) +
        2 / 100 * ((255 : Nat) : ℚ))) - 255)) = 250 := by
  decide!

theorem black_sample_over_black :
    min 255 ((0 - saturate_uchar (cvRound ((1 - 2 / 100) * ((0 : Nat) : ℚ) +
        2 / 100 * ((0 : Nat) : ℚ)))) +
      (saturate_uchar (cvRound ((1 - 2 / 100) * ((0 : Nat) : ℚ) +
        2 / 100 * ((0 : Nat) : ℚ))) - 0)) = 0 := by
  decide!

/-- The grey difference image of the square frame against a black background:
250 inside the square, 0 outside. -/
theorem difference_image_square (post_messages : Bool) (s : GstMotionDetector)
    (hs : BlackRun post_messages s) (hne : s.run_avg ≠ none) (x y : Nat)
    (hx : x < 100) (hy : y < 100) :
    (difference_image s square_image_100).get x y =
      if 40 ≤ x ∧ x ≤ 59 ∧ 40 ≤ y ∧ y ≤ 59 then 250 else 0 := by
  obtain ⟨bg, hbg⟩ := Option.ne_none_iff_exists'.mp hne
  obtain ⟨bw, bh, bpix⟩ := hs.background bg hbg
  have bw2 : bg.width = 100 := bw
  have bh2 : bg.height = 100 := bh
  have hbgpix : bg.get x y = map3 (fun v : Nat => (v : ℚ)) ((0 : Nat), (0 : Nat), (0 : Nat)) := by
    rw [bpix x y hx hy, black_image_100_get x y hx hy]
    rfl
  have hupd : (update_run_avg s square_image_100).get x y =
      zip3 (fun (a : ℚ) (v : Nat) => (1 - s.avg_weight) * a + s.avg_weight * (v : ℚ))
        (bg.get x y) (square_image_100.get x y) := by
    unfold update_run_avg
    rw [hbg]
    exact cvRunningAvg_get square_image_100 bg s.avg_weight x y (by omega) (by omega)
  unfold difference_image
  simp only []
  rw [cvCvtColor_RGB2GRAY_get (cvAbsDiff square_image_100 _) x y hx hy,
    cvAbsDiff_get square_image_100 _ x y hx hy,
    cvConvertScale_32F_8U_get (square_image_100.width, square_image_100.height) _ x y hx hy,
    hupd, hbgpix, square_image_100_get x y hx hy, hs.avg_weight_eq]
  by_cases hin : 40 ≤ x ∧ x ≤ 59 ∧ 40 ≤ y ∧ y ≤ 59
  · rw [if_pos hin, if_pos hin]
    simp only [zip3, map3, white, white_sample_over_black]
  · rw [if_neg hin, if_neg hin]
    simp only [zip3, map3, black, black_sample_over_black]

theorem threshold_square (post_messages : Bool) (s : GstMotionDetector)
    (hs : BlackRun post_messages s) (hne : s.run_avg ≠ none) :
    cvThreshold (difference_image s square_image_100) s.threshold 255 =
      rectMask 100 100 40 59 40 59 := by
  apply mkImage_congr
  intro x y hx hy
  have hx2 : x < 100 := hx
  have hy2 : y < 100 := hy
  rw [difference_image_square post_messages s hs hne x y hx2 hy2, hs.threshold_eq]
  by_cases hin : 40 ≤ x ∧ x ≤ 59 ∧ 40 ≤ y ∧ y ≤ 59
  · rw [if_pos hin, if_pos hin]
    simp
  · rw [if_neg hin, if_neg hin]
    simp

/-- With the default configuration the binary image of the square frame is
the square grown by 18 and shrunk by 10 pixels on each side. -/
theorem motion_mask_square (post_messages : Bool) (s : GstMotionDetector)
    (hs : BlackRun post_messages s) (hne : s.run_avg ≠ none) :
    motion_mask s square_image_100 = rectMask 100 100 32 67 32 67 := by
  unfold motion_mask
  simp only []
  rw [threshold_square post_messages s hs hne, hs.dilate_eq, hs.erode_eq,
    cvDilate_rectMask 100 100 40 59 40 59 18 (by omega) (by omega) (by omega) (by omega)
      (by omega) (by omega),
    cvErode_rectMask 100 100 _ _ _ _ 10 (by omega) (by omega) (by omega) (by omega)]

theorem contour_rects_square (post_messages : Bool) (s : GstMotionDetector)
    (hs : BlackRun post_messages s) (hne : s.run_avg ≠ none) :
    contour_rects s square_image_100 = [{ x := 32, y := 32, width := 36, height := 36 }] := by
  unfold contour_rects
  rw [motion_mask_square post_messages s hs hne,
    contour_rects_rectMask 100 100 32 67 32 67 (by omega) (by omega) (by omega) (by omega)]
  rfl

/-- Processing the square frame with the default configuration on a black
background: one blob, reported with the grown rectangle. -/
theorem process_image_square (post_messages : Bool) (s : GstMotionDetector)
    (hs : BlackRun post_messages s) (hne : s.run_avg ≠ none) :
    (gst_motion_detector_process_image s square_image_100).1.num_blobs = 1 ∧
    (gst_motion_detector_process_image s square_image_100).2.1 =
      (if post_messages then [Emitted.motion 32 32 36 36] else []) := by
  have hrej : blob_rejected s { x := 32, y := 32, width := 36, height := 36 } = false := by
    unfold blob_rejected
    rw [hs.min_eq, hs.max_eq]
    decide
  unfold gst_motion_detector_process_image
  simp only [contour_rects_square post_messages s hs hne, blob_loop, List.foldl_cons,
    List.foldl_nil, blob_loop_body, hrej, hs.post_messages_eq]
  refine ⟨by simp, ?_⟩
  by_cases hp : post_messages = true
  · simp only [hp, if_true, Bool.false_eq_true, if_false, List.nil_append]
    decide
  · simp [hp]

/-- The chain function on the square frame, for the default detector with a
black background: the blob is always counted and reported with the grown
rectangle; the start is reported only when the element is not
rate-inhibited. -/
theorem chain_square_frame (post_messages : Bool) (s : GstMotionDetector)
    (hs : BlackRun post_messages s) (hne : s.run_avg ≠ none) :
    contour_rects s (currentImage s square_frame_100) =
      [{ x := 32, y := 32, width := 36, height := 36 }] ∧
    frame_num_blobs s square_frame_100 = 1 ∧
    (s.rate_inhibit = false →
      (gst_motion_detector_chain s square_frame_100).1.motion_detected = true ∧
      (gst_motion_detector_chain s square_frame_100).2.1 =
        (if post_messages then [Emitted.motion 32 32 36 36] else []) ++
          Emitted.notify_motion_detected true ::
            ((if post_messages then [Emitted.motion_data true 1] else []) ++
              [Emitted.timeout_add 500])) ∧
    (s.rate_inhibit = true →
      (gst_motion_detector_chain s square_frame_100).1.motion_detected = false ∧
      (gst_motion_detector_chain s square_frame_100).2.1 =
        (if post_messages then [Emitted.motion 32 32 36 36] else [])) := by
  have himg := currentImage_square s hs.width_eq hs.height_eq
  obtain ⟨p1, p2⟩ := process_image_square post_messages s hs hne
  have hf := process_image_fields s square_image_100
  refine ⟨?_, ?_, ?_, ?_⟩
  · rw [himg]
    exact contour_rects_square post_messages s hs hne
  · unfold frame_num_blobs
    rw [himg]
    exact p1
  · intro hfree
    rw [chain_free s square_frame_100 hfree, himg]
    obtain ⟨t1, -, -, -, t5⟩ := chain_transition_start
      (gst_motion_detector_process_image s square_image_100).1 (hf.2.1.trans hs.idle)
      (by rw [p1]; decide)
    refine ⟨t1, ?_⟩
    simp only []
    rw [t5, p2, p1, hf.2.2.1, hf.2.2.2, hs.post_messages_eq, hs.rate_limit_eq]
    simp
  · intro hinh
    rw [chain_inhibited s square_frame_100 hinh, himg]
    exact ⟨hf.2.1.trans hs.idle, p2⟩

/-- C8, as the code has it: the default detector, negotiated for 100 by 100
frames, is fed black frames (any positive number, 30 included; the cooldown
timer may expire in between) and then the frame with the 20 by 20 white
square at (40, 40).  That frame has exactly one surviving blob, whose
bounding rectangle is x 32, y 32, width 36, height 36 (the square after 18
dilations and 10 erosions).  When the element is not rate-inhibited at that
moment, `motion_detected` goes from `false` to `true` with one change
notification and, with `post-messages` set, one `motion-data` message carrying
`true` and 1; when it is still rate-inhibited, only the blob message is
sent. -/
theorem default_run_square_frame (post_messages : Bool) (tr : List Event)
    (htr : ∀ e ∈ tr, e = Event.frame black_frame_100 ∨ e = Event.rate_timeout)
    (hframe : Event.frame black_frame_100 ∈ tr) :
    contour_rects (run (default_detector_100 post_messages) tr).1
      (currentImage (run (default_detector_100 post_messages) tr).1 square_frame_100) =
      [{ x := 32, y := 32, width := 36, height := 36 }] ∧
    frame_num_blobs (run (default_detector_100 post_messages) tr).1 square_frame_100 = 1 ∧
    (run (default_detector_100 post_messages) tr).1.motion_detected = false ∧
    ((run (default_detector_100 post_messages) tr).1.rate_inhibit = false →
      (gst_motion_detector_chain (run (default_detector_100 post_messages) tr).1
        square_frame_100).1.motion_detected = true ∧
      (gst_motion_detector_chain (run (default_detector_100 post_messages) tr).1
        square_frame_100).2.1 =
        (if post_messages then [Emitted.motion 32 32 36 36] else []) ++
          Emitted.notify_motion_detected true ::
            ((if post_messages then [Emitted.motion_data true 1] else []) ++
              [Emitted.timeout_add 500])) ∧
    ((run (default_detector_100 post_messages) tr).1.rate_inhibit = true →
      (gst_motion_detector_chain (run (default_detector_100 post_messages) tr).1
        square_frame_100).1.motion_detected = false ∧
      (gst_motion_detector_chain (run (default_detector_100 post_messages) tr).1
        square_frame_100).2.1 =
        (if post_messages then [Emitted.motion 32 32 36 36] else [])) := by
  obtain ⟨r1, r2⟩ := BlackRun_run post_messages tr (default_detector_100 post_messages)
    (BlackRun_default post_messages) htr
  obtain ⟨c1, c2, c3, c4⟩ := chain_square_frame post_messages _ r1 (r2 (Or.inr hframe))
  exact ⟨c1, c2, r1.idle, c3, c4⟩

theorem black_frames_30 :
    ∀ e ∈ List.replicate 30 (Event.frame black_frame_100),
      e = Event.frame black_frame_100 ∨ e = Event.rate_timeout := by
  intro e he
  exact Or.inl (List.eq_of_mem_replicate he)

theorem black_frames_30_then_expiry :
    ∀ e ∈ List.replicate 30 (Event.frame black_frame_100) ++ [Event.rate_timeout],
      e = Event.frame black_frame_100 ∨ e = Event.rate_timeout := by
  intro e he
  rcases List.mem_append.mp he with h | h
  · exact Or.inl (List.eq_of_mem_replicate h)
  · exact Or.inr (List.mem_singleton.mp h)

/-- C8, refuted as stated: after 30 black frames the square frame is reported
with the rectangle x 32, y 32, width 36, height 36, not with the square
itself; and unless the cooldown armed by the first black frame has expired
in the meantime, the frame sends nothing else and `motion_detected` stays
`false`. -/
theorem default_square_box_is_grown :
    (gst_motion_detector_chain
      (run (default_detector_100 true)
        (List.replicate 30 (Event.frame black_frame_100) ++ [Event.rate_timeout])).1
      square_frame_100).2.1 =
      [Emitted.motion 32 32 36 36, Emitted.notify_motion_detected true,
        Emitted.motion_data true 1, Emitted.timeout_add 500] ∧
    (gst_motion_detector_chain
      (run (default_detector_100 true) (List.replicate 30 (Event.frame black_frame_100))).1
      square_frame_100).2.1 = [Emitted.motion 32 32 36 36] ∧
    (gst_motion_detector_chain
      (run (default_detector_100 true) (List.replicate 30 (Event.frame black_frame_100))).1
      square_frame_100).1.motion_detected = false := by
  have hmem : Event.frame black_frame_100 ∈ List.replicate 30 (Event.frame black_frame_100) := by
    simp
  obtain ⟨a1, a2⟩ := BlackRun_run true _ (default_detector_100 true) (BlackRun_default true)
    black_frames_30_then_expiry
  obtain ⟨b1, b2⟩ := BlackRun_run true _ (default_detector_100 true) (BlackRun_default true)
    black_frames_30
  obtain ⟨-, -, c3, -⟩ := chain_square_frame true _ a1
    (a2 (Or.inr (List.mem_append_left _ hmem)))
  obtain ⟨-, -, -, d4⟩ := chain_square_frame true _ b1 (b2 (Or.inr hmem))
  have hfree : (run (default_detector_100 true)
      (List.replicate 30 (Event.frame black_frame_100) ++ [Event.rate_timeout])).1.rate_inhibit
      = false := by
    rw [run_append]
    rfl
  have hinh : (run (default_detector_100 true)
      (List.replicate 30 (Event.frame black_frame_100))).1.rate_inhibit = true := by
    have hrep : List.replicate 30 (Event.frame black_frame_100) =
        Event.frame black_frame_100 :: (List.replicate 29 black_frame_100).map Event.frame := by
      rw [List.map_replicate]
      rfl
    rw [hrep, run_frame_cons_fst]
    have hc := chain_black_frame true (default_detector_100 true) (BlackRun_default true)
    have hc1 : (gst_motion_detector_chain (default_detector_100 true)
        black_frame_100).1.rate_inhibit = true := by
      rw [hc]
    exact (run_frames_inhibited (List.replicate 29 black_frame_100)
      (gst_motion_detector_chain (default_detector_100 true) black_frame_100).1 hc1).1
  refine ⟨?_, ?_, ?_⟩
  · have h := (c3 hfree).2
    simp only [if_true] at h
    exact h
  · have h := (d4 hinh).2
    simp only [if_true] at h
    exact h
  · exact (d4 hinh).1

theorem default_run_square_frame_witness :
    (∀ e ∈ List.replicate 30 (Event.frame black_frame_100) ++ [Event.rate_timeout],
      e = Event.frame black_frame_100 ∨ e = Event.rate_timeout) ∧
    Event.frame black_frame_100 ∈
      List.replicate 30 (Event.frame black_frame_100) ++ [Event.rate_timeout] ∧
    frame_num_blobs
      (run (default_detector_100 true)
        (List.replicate 30 (Event.frame black_frame_100) ++ [Event.rate_timeout])).1
      square_frame_100 = 1 :=
  ⟨black_frames_30_then_expiry, by simp,
    (default_run_square_frame true
      (List.replicate 30 (Event.frame black_frame_100) ++ [Event.rate_timeout])
      black_frames_30_then_expiry (by simp)).2.1⟩

/-! ## The initial state -/

/-- C16: a freshly initialised detector reports no motion, is not
rate-inhibited, has no blob and no background model, posts and draws nothing,
and carries the defaults 0.02, 70, 18, 10, 10, 255 and 500. -/
theorem init_defaults :
    gst_motion_detector_init.motion_detected = false ∧
    gst_motion_detector_init.rate_inhibit = false ∧
    gst_motion_detector_init.num_blobs = 0 ∧
    gst_motion_detector_init.run_avg = none ∧
    gst_motion_detector_init.post_messages = false ∧
    gst_motion_detector_init.draw_motion = false ∧
    gst_motion_detector_init.avg_weight = 2 / 100 ∧
    gst_motion_detector_init.threshold = 70 ∧
    gst_motion_detector_init.dilate_iterations = 18 ∧
    gst_motion_detector_init.erode_iterations = 10 ∧
    gst_motion_detector_init.min_blob_size = 10 ∧
    gst_motion_detector_init.max_blob_size = 255 ∧
    gst_motion_detector_init.rate_limit = 500 :=
  ⟨rfl, rfl, rfl, rfl, rfl, rfl, rfl, rfl, rfl, rfl, rfl, rfl, rfl⟩

/-! ## The size test of both variants -/

theorem toGint_of_lt (n : Nat) (h : n < 2147483648) : toGint n = (n : Int) := by
  unfold toGint
  have h1 : n % 4294967296 = n := Nat.mod_eq_of_lt (by omega)
  rw [h1, if_pos h]

/-- C19: for a rectangle with sides in the non-negative `int` range and bounds
below 2^31, the size test of `gstmotiondetector.c` (sides converted to
`guint`) and the one of `gstmotiondetector.cpp` (bounds cast to `gint`)
reject the same rectangles, namely those with a side below `min_blob_size`
or above `max_blob_size`. -/
theorem blob_rejected_variants_agree (filter : GstMotionDetector) (r : CvRect)
    (hw0 : 0 ≤ r.width) (hw1 : r.width < 2147483648)
    (hh0 : 0 ≤ r.height) (hh1 : r.height < 2147483648)
    (hmin : filter.min_blob_size < 2147483648) (hmax : filter.max_blob_size < 2147483648) :
    blob_rejected filter r = blob_rejected_cpp filter r ∧
    (blob_rejected filter r = true ↔
      outside_blob_bounds filter.min_blob_size filter.max_blob_size r) ∧
    (blob_rejected_cpp filter r = true ↔
      outside_blob_bounds filter.min_blob_size filter.max_blob_size r) := by
  have hc : blob_rejected filter r = true ↔
      outside_blob_bounds filter.min_blob_size filter.max_blob_size r := by
    unfold blob_rejected outside_blob_bounds
    rw [toGuint_of_nonneg r.width hw0 (by omega), toGuint_of_nonneg r.height hh0 (by omega)]
    simp only [Bool.or_eq_true, decide_eq_true_eq, gt_iff_lt]
    omega
  have hcpp : blob_rejected_cpp filter r = true ↔
      outside_blob_bounds filter.min_blob_size filter.max_blob_size r := by
    unfold blob_rejected_cpp outside_blob_bounds
    rw [toGint_of_lt _ hmin, toGint_of_lt _ hmax]
    simp only [Bool.or_eq_true, decide_eq_true_eq, gt_iff_lt]
    omega
  refine ⟨?_, hc, hcpp⟩
  rw [Bool.eq_iff_iff, hc, hcpp]

theorem blob_rejected_variants_agree_witness :
    blob_rejected small_detector { x := 0, y := 0, width := 300, height := 5 } =
      blob_rejected_cpp small_detector { x := 0, y := 0, width := 300, height := 5 } ∧
    blob_rejected small_detector { x := 0, y := 0, width := 300, height := 5 } = true :=
  ⟨(blob_rejected_variants_agree small_detector { x := 0, y := 0, width := 300, height := 5 }
      (by decide) (by decide) (by decide) (by decide) (by decide) (by decide)).1,
    by decide⟩

/-! ## The cooldown switched off -/

theorem chain_transition_rate (p : GstMotionDetector) :
    (chain_transition p).1.rate_limit = p.rate_limit ∧
    ((chain_transition p).1.rate_inhibit = true ↔ (p.rate_inhibit = true ∨ 0 < p.rate_limit)) := by
  by_cases hact : p.motion_detected = true
  · obtain ⟨-, -, t3, t4, -⟩ := chain_transition_active p hact
    exact ⟨t3, t4⟩
  · have hidle : p.motion_detected = false := by simpa using hact
    by_cases hb : 0 < p.num_blobs
    · obtain ⟨-, -, t3, t4, -⟩ := chain_transition_start p hidle hb
      exact ⟨t3, t4⟩
    · obtain ⟨-, -, t3, t4, -⟩ := chain_transition_idle p hidle (by omega)
      exact ⟨t3, t4⟩

theorem chain_rate_limit_zero (filter : GstMotionDetector) (buf : List Rgb)
    (hfree : filter.rate_inhibit = false) (h0 : filter.rate_limit = 0) :
    (gst_motion_detector_chain filter buf).1.rate_inhibit = false ∧
    (gst_motion_detector_chain filter buf).1.rate_limit = 0 := by
  rw [chain_free filter buf hfree]
  have hp := process_image_fields filter (currentImage filter buf)
  generalize gst_motion_detector_process_image filter (currentImage filter buf) = p at *
  obtain ⟨h1, -, -, h4⟩ := hp
  obtain ⟨t1, t2⟩ := chain_transition_rate p.1
  refine ⟨?_, by rw [t1, h4, h0]⟩
  by_cases hr : (chain_transition p.1).1.rate_inhibit = true
  · have := t2.mp hr
    rw [h1, hfree, h4, h0] at this
    simp at this
  · simpa using hr

theorem apply_action_rate_limit_zero (filter : GstMotionDetector) (a : Action)
    (hfree : filter.rate_inhibit = false) (h0 : filter.rate_limit = 0)
    (hkeep : keeps_rate_limit_zero a) :
    (apply_action filter a).rate_inhibit = false ∧ (apply_action filter a).rate_limit = 0 := by
  cases a with
  | frame buf => exact chain_rate_limit_zero filter buf hfree h0
  | rate_timeout => exact ⟨rfl, h0⟩
  | set_property prop_id value =>
    cases prop_id <;> first
      | exact ⟨hfree, h0⟩
      | exact ⟨hfree, hkeep⟩
  | set_caps width height => exact ⟨hfree, h0⟩

theorem apply_actions_rate_limit_zero (actions : List Action) (filter : GstMotionDetector)
    (hfree : filter.rate_inhibit = false) (h0 : filter.rate_limit = 0)
    (hkeep : ∀ a ∈ actions, keeps_rate_limit_zero a) :
    (apply_actions filter actions).rate_inhibit = false ∧
    (apply_actions filter actions).rate_limit = 0 := by
  induction actions generalizing filter with
  | nil => exact ⟨hfree, h0⟩
  | cons a rest ih =>
    obtain ⟨s1, s2⟩ := apply_action_rate_limit_zero filter a hfree h0
      (hkeep a (List.mem_cons_self a rest))
    exact ih (apply_action filter a) s1 s2 (fun b hb => hkeep b (List.mem_cons_of_mem a hb))

/-- C18: with `rate_limit` 0 an instance that is not rate-inhibited stays so
after any frame, and so does every state reached from it by frames, timer
expiries, caps and property settings that leave `rate_limit` at 0; in each of
these states the chain function runs the state machine on the frame and arms
no timer. -/
theorem cooldown_disabled_never_inhibited (filter : GstMotionDetector) (actions : List Action)
    (hfree : filter.rate_inhibit = false) (h0 : filter.rate_limit = 0)
    (hkeep : ∀ a ∈ actions, keeps_rate_limit_zero a) :
    (∀ buf, (gst_motion_detector_chain filter buf).1.rate_inhibit = false) ∧
    (apply_actions filter actions).rate_inhibit = false ∧
    (apply_actions filter actions).rate_limit = 0 ∧
    (∀ buf,
      gst_motion_detector_chain (apply_actions filter actions) buf =
        ((chain_transition (gst_motion_detector_process_image (apply_actions filter actions)
            (currentImage (apply_actions filter actions) buf)).1).1,
          (gst_motion_detector_process_image (apply_actions filter actions)
            (currentImage (apply_actions filter actions) buf)).2.1 ++
          (chain_transition (gst_motion_detector_process_image (apply_actions filter actions)
            (currentImage (apply_actions filter actions) buf)).1).2,
          (gst_motion_detector_process_image (apply_actions filter actions)
            (currentImage (apply_actions filter actions) buf)).2.2) ∧
      (gst_motion_detector_chain (apply_actions filter actions) buf).2.1.filter
        Emitted.isTimeoutAdd = []) := by
  obtain ⟨s1, s2⟩ := apply_actions_rate_limit_zero actions filter hfree h0 hkeep
  refine ⟨fun buf => (chain_rate_limit_zero filter buf hfree h0).1, s1, s2, ?_⟩
  intro buf
  generalize apply_actions filter actions = s at *
  refine ⟨chain_free s buf s1, ?_⟩
  rw [chain_free s buf s1]
  have hp := process_image_fields s (currentImage s buf)
  have ht := posted_filter_isTimeoutAdd s (currentImage s buf)
  generalize gst_motion_detector_process_image s (currentImage s buf) = p at *
  obtain ⟨-, -, -, h4⟩ := hp
  have hz : p.1.rate_limit = 0 := h4.trans s2
  simp only [List.filter_append, ht, List.nil_append]
  by_cases hact : p.1.motion_detected = true
  · obtain ⟨-, -, -, -, t5⟩ := chain_transition_active p.1 hact
    rw [t5, hz]
    by_cases hpm : p.1.post_messages = true <;> simp [hpm, Emitted.isTimeoutAdd]
  · have hidle : p.1.motion_detected = false := by simpa using hact
    by_cases hb : 0 < p.1.num_blobs
    · obtain ⟨-, -, -, -, t5⟩ := chain_transition_start p.1 hidle hb
      rw [t5, hz]
      by_cases hpm : p.1.post_messages = true <;> simp [hpm, Emitted.isTimeoutAdd]
    · obtain ⟨-, -, -, -, t5⟩ := chain_transition_idle p.1 hidle (by omega)
      rw [t5, hz]
      simp

theorem cooldown_disabled_never_inhibited_witness :
    free_running_detector.rate_inhibit = false ∧ free_running_detector.rate_limit = 0 ∧
    (apply_actions free_running_detector
      [Action.frame frame_dot, Action.set_property PropId.PROP_THRESHOLD (GValue.uint 50),
        Action.frame frame_black]).rate_inhibit = false :=
  ⟨rfl, rfl,
    (cooldown_disabled_never_inhibited free_running_detector
      [Action.frame frame_dot, Action.set_property PropId.PROP_THRESHOLD (GValue.uint 50),
        Action.frame frame_black] rfl rfl
      (by
        intro a ha
        simp only [List.mem_cons, List.mem_singleton, List.not_mem_nil, or_false] at ha
        rcases ha with h | h | h <;> subst h <;> exact trivial)).2.1⟩

/-! ## The messages posted for the blobs -/

theorem cvBoundingRect_nonneg (contour : CvSeq) :
    0 ≤ (cvBoundingRect contour).x ∧ 0 ≤ (cvBoundingRect contour).y ∧
    0 ≤ (cvBoundingRect contour).width ∧ 0 ≤ (cvBoundingRect contour).height := by
  cases contour with
  | nil => exact ⟨le_refl 0, le_refl 0, le_refl 0, le_refl 0⟩
  | cons p ps =>
    unfold cvBoundingRect
    exact ⟨Int.ofNat_nonneg _, Int.ofNat_nonneg _, Int.ofNat_nonneg _, Int.ofNat_nonneg _⟩

theorem process_image_posted_eq (filter : GstMotionDetector) (src : IplImage Rgb) :
    (gst_motion_detector_process_image filter src).2.1 =
      (if filter.post_messages then
        ((contour_rects filter src).filter (fun r => !blob_rejected filter r)).map motion_record
       else []) := by
  unfold gst_motion_detector_process_image blob_loop
  simp only []
  rw [blob_loop_foldl_posted_eq]
  simp only [List.nil_append]
  rfl

/-- C15: with `post_messages` set, processing a frame posts one `motion`
message per contour that passes the size test, in the order of the contours,
with the four fields of its bounding rectangle (which are never negative),
so that `num_blobs` is the number of messages (modulo 2^32, the width of the
field); without `post_messages` nothing is posted.  The value of
`rate_inhibit` plays no part, also when the frame goes through the chain
function. -/
theorem process_image_posts_per_blob (filter : GstMotionDetector) (src : IplImage Rgb) :
    (gst_motion_detector_process_image filter src).2.1 =
      (if filter.post_messages then
        ((contour_rects filter src).filter (fun r => !blob_rejected filter r)).map motion_record
       else []) ∧
    (gst_motion_detector_process_image filter src).1.num_blobs =
      ((contour_rects filter src).filter (fun r => !blob_rejected filter r)).length
        % 4294967296 ∧
    (if filter.post_messages then
        (gst_motion_detector_process_image filter src).2.1.length % 4294967296 =
          (gst_motion_detector_process_image filter src).1.num_blobs
      else (gst_motion_detector_process_image filter src).2.1 = []) ∧
    (∀ r ∈ contour_rects filter src, 0 ≤ r.x ∧ 0 ≤ r.y ∧ 0 ≤ r.width ∧ 0 ≤ r.height) ∧
    (∀ r : CvRect, 0 ≤ r.x → r.x < 4294967296 → 0 ≤ r.y → r.y < 4294967296 →
      0 ≤ r.width → r.width < 4294967296 → 0 ≤ r.height → r.height < 4294967296 →
      motion_record r = Emitted.motion r.x.toNat r.y.toNat r.width.toNat r.height.toNat) ∧
    (∀ b : Bool,
      (gst_motion_detector_process_image { filter with rate_inhibit := b } src).2.1 =
        (gst_motion_detector_process_image filter src).2.1 ∧
      (gst_motion_detector_process_image { filter with rate_inhibit := b } src).1.num_blobs =
        (gst_motion_detector_process_image filter src).1.num_blobs) ∧
    (∀ buf : List Rgb,
      (gst_motion_detector_chain filter buf).2.1.filter Emitted.isMotion =
        (gst_motion_detector_process_image filter (currentImage filter buf)).2.1) := by
  have hposted := process_image_posted_eq filter src
  have hnum : (gst_motion_detector_process_image filter src).1.num_blobs =
      ((contour_rects filter src).filter (fun r => !blob_rejected filter r)).length
        % 4294967296 := by
    unfold gst_motion_detector_process_image
    simp only [blob_loop_num_blobs]
  refine ⟨hposted, hnum, ?_, ?_, ?_, ?_, ?_⟩
  · rw [hposted, hnum]
    by_cases hp : filter.post_messages = true
    · simp [hp]
    · simp [hp]
  · intro r hr
    unfold contour_rects at hr
    obtain ⟨c, -, rfl⟩ := List.mem_map.mp hr
    exact cvBoundingRect_nonneg c
  · intro r hx0 hx1 hy0 hy1 hw0 hw1 hh0 hh1
    unfold motion_record
    rw [toGuint_of_nonneg _ hx0 hx1, toGuint_of_nonneg _ hy0 hy1, toGuint_of_nonneg _ hw0 hw1,
      toGuint_of_nonneg _ hh0 hh1]
  · intro b
    exact ⟨rfl, rfl⟩
  · intro buf
    have hmotion : ∀ l : List Emitted, (∀ e ∈ l, ∃ x y w h, e = Emitted.motion x y w h) →
        l.filter Emitted.isMotion = l := by
      intro l hl
      rw [List.filter_eq_self]
      intro e he
      obtain ⟨x, y, w, h, rfl⟩ := hl e he
      rfl
    have hpm := posted_is_motion filter (currentImage filter buf)
    by_cases hinh : filter.rate_inhibit = true
    · rw [chain_inhibited filter buf hinh]
      exact hmotion _ hpm
    · have hfree : filter.rate_inhibit = false := by simpa using hinh
      rw [chain_free filter buf hfree]
      simp only [List.filter_append, hmotion _ hpm]
      generalize (gst_motion_detector_process_image filter (currentImage filter buf)) = p
      have htr : (chain_transition p.1).2.filter Emitted.isMotion = [] := by
        by_cases hact : p.1.motion_detected = true
        · obtain ⟨-, -, -, -, t5⟩ := chain_transition_active p.1 hact
          rw [t5]
          by_cases hpm : p.1.post_messages = true <;>
            by_cases hl : 0 < p.1.rate_limit <;> simp [hpm, hl, Emitted.isMotion]
        · have hidle : p.1.motion_detected = false := by simpa using hact
          by_cases hb : 0 < p.1.num_blobs
          · obtain ⟨-, -, -, -, t5⟩ := chain_transition_start p.1 hidle hb
            rw [t5]
            by_cases hpm : p.1.post_messages = true <;>
              by_cases hl : 0 < p.1.rate_limit <;> simp [hpm, hl, Emitted.isMotion]
          · obtain ⟨-, -, -, -, t5⟩ := chain_transition_idle p.1 hidle (by omega)
            rw [t5]
            by_cases hl : 0 < p.1.rate_limit <;> simp [hl, Emitted.isMotion]
      rw [htr, List.append_nil]

theorem process_image_posts_per_blob_witness :
    (gst_motion_detector_process_image { small_detector with post_messages := true }
      (currentImage small_detector frame_dot)).2.1 = [Emitted.motion 1 1 1 1] ∧
    (gst_motion_detector_process_image { small_detector with post_messages := true }
      (currentImage small_detector frame_dot)).1.num_blobs = 1 :=
  ⟨(process_image_posts_per_blob { small_detector with post_messages := true }
      (currentImage small_detector frame_dot)).1.trans (by decide!),
    by decide!⟩

/-! ## Setting properties -/

theorem init_config_invariant :
    config_invariant gst_motion_detector_init ∧ in_declared_ranges gst_motion_detector_init := by
  unfold config_invariant in_declared_ranges gst_motion_detector_init
  simp only [DEFAULT_AVG_WEIGHT, DEFAULT_MIN_BLOB_SIZE, DEFAULT_MAX_BLOB_SIZE, DEFAULT_THRESHOLD,
    DEFAULT_DILATE_ITERATIONS, DEFAULT_ERODE_ITERATIONS, DEFAULT_RATE_LIMIT]
  norm_num

/-- C17, refuted as stated: on the initial state, setting `maximum-blob-size`
to 5 (a value of its declared domain) leaves `min_blob_size` 10 above
`max_blob_size` 5. -/
theorem set_property_breaks_blob_size_order :
    in_declared_domain PropId.PROP_MAXIMUM_BLOB_SIZE (GValue.uint 5) ∧
    config_invariant gst_motion_detector_init ∧
    (gst_motion_detector_set_property gst_motion_detector_init
      PropId.PROP_MAXIMUM_BLOB_SIZE (GValue.uint 5)).min_blob_size = 10 ∧
    (gst_motion_detector_set_property gst_motion_detector_init
      PropId.PROP_MAXIMUM_BLOB_SIZE (GValue.uint 5)).max_blob_size = 5 ∧
    ¬ config_invariant
      (gst_motion_detector_set_property gst_motion_detector_init
        PropId.PROP_MAXIMUM_BLOB_SIZE (GValue.uint 5)) := by
  refine ⟨by simp [in_declared_domain], init_config_invariant.1, rfl, rfl, ?_⟩
  intro h
  have h3 : (gst_motion_detector_set_property gst_motion_detector_init
      PropId.PROP_MAXIMUM_BLOB_SIZE (GValue.uint 5)).min_blob_size ≤
    (gst_motion_detector_set_property gst_motion_detector_init
      PropId.PROP_MAXIMUM_BLOB_SIZE (GValue.uint 5)).max_blob_size := h.2.2
  have hmin : (gst_motion_detector_set_property gst_motion_detector_init
      PropId.PROP_MAXIMUM_BLOB_SIZE (GValue.uint 5)).min_blob_size = 10 := rfl
  have hmax : (gst_motion_detector_set_property gst_motion_detector_init
      PropId.PROP_MAXIMUM_BLOB_SIZE (GValue.uint 5)).max_blob_size = 5 := rfl
  rw [hmin, hmax] at h3
  omega

/-- C17, as the code has it: the initial state satisfies the configuration
invariant and has every option in its declared range.  A call of the property
setter with a value of the declared domain keeps `avg_weight` within [0, 1]
and every option in its declared range.  It keeps `min_blob_size` at most
`max_blob_size` when it sets another property, sets `minimum-blob-size` to at
most the current maximum, or sets `maximum-blob-size` to at least the current
minimum; the setter itself never compares the two. -/
theorem set_property_keeps_ranges (s : GstMotionDetector) (prop_id : PropId) (value : GValue)
    (hdom : in_declared_domain prop_id value) :
    config_invariant gst_motion_detector_init ∧
    in_declared_ranges gst_motion_detector_init ∧
    (0 ≤ s.avg_weight ∧ s.avg_weight ≤ 1 →
      0 ≤ (gst_motion_detector_set_property s prop_id value).avg_weight ∧
      (gst_motion_detector_set_property s prop_id value).avg_weight ≤ 1) ∧
    (in_declared_ranges s →
      in_declared_ranges (gst_motion_detector_set_property s prop_id value)) ∧
    (s.min_blob_size ≤ s.max_blob_size →
      (prop_id = PropId.PROP_MINIMUM_BLOB_SIZE → g_value_get_uint value ≤ s.max_blob_size) →
      (prop_id = PropId.PROP_MAXIMUM_BLOB_SIZE → s.min_blob_size ≤ g_value_get_uint value) →
      (gst_motion_detector_set_property s prop_id value).min_blob_size ≤
        (gst_motion_detector_set_property s prop_id value).max_blob_size) := by
  refine ⟨init_config_invariant.1, init_config_invariant.2, ?_, ?_, ?_⟩
  · intro hw
    cases prop_id <;> cases value <;>
      first
      | exact hw
      | exact hdom
      | exact False.elim hdom
  · intro hr
    obtain ⟨r1, r2, r3, r4, r5, r6, r7, r8⟩ := hr
    cases prop_id <;> cases value <;>
      first
      | exact False.elim hdom
      | exact ⟨r1, r2, r3, r4, r5, r6, r7, r8⟩
      | exact ⟨hdom.1, hdom.2, r3, r4, r5, r6, r7, r8⟩
      | exact ⟨r1, r2, hdom, r4, r5, r6, r7, r8⟩
      | exact ⟨r1, r2, r3, hdom, r5, r6, r7, r8⟩
      | exact ⟨r1, r2, r3, r4, hdom, r6, r7, r8⟩
      | exact ⟨r1, r2, r3, r4, r5, hdom, r7, r8⟩
      | exact ⟨r1, r2, r3, r4, r5, r6, hdom, r8⟩
      | exact ⟨r1, r2, r3, r4, r5, r6, r7, hdom⟩
  · intro hle hmin hmax
    cases prop_id <;>
      first
      | exact hle
      | exact hmin rfl
      | exact hmax rfl

theorem set_property_keeps_ranges_witness :
    in_declared_domain PropId.PROP_MINIMUM_BLOB_SIZE (GValue.uint 20) ∧
    (gst_motion_detector_set_property gst_motion_detector_init
      PropId.PROP_MINIMUM_BLOB_SIZE (GValue.uint 20)).min_blob_size ≤
    (gst_motion_detector_set_property gst_motion_detector_init
      PropId.PROP_MINIMUM_BLOB_SIZE (GValue.uint 20)).max_blob_size :=
  ⟨by simp [in_declared_domain],
    (set_property_keeps_ranges gst_motion_detector_init PropId.PROP_MINIMUM_BLOB_SIZE
      (GValue.uint 20) (by simp [in_declared_domain])).2.2.2.2
      (by decide) (fun _ => by decide) (fun h => by cases h)⟩

/-! ## Drawing and detection -/

theorem process_image_draw_motion (filter : GstMotionDetector) (src : IplImage Rgb) (b : Bool) :
    (gst_motion_detector_process_image { filter with draw_motion := b } src).1 =
      { (gst_motion_detector_process_image filter src).1 with draw_motion := b } ∧
    (gst_motion_detector_process_image { filter with draw_motion := b } src).2.1 =
      (gst_motion_detector_process_image filter src).2.1 := by
  have h2 : (blob_loop { filter with draw_motion := b } src
      (contour_rects { filter with draw_motion := b } src)).num_blobs =
      (blob_loop filter src (contour_rects filter src)).num_blobs := by
    rw [blob_loop_num_blobs, blob_loop_num_blobs]
    rfl
  constructor
  · unfold gst_motion_detector_process_image
    simp only [h2]
    rfl
  · rw [process_image_posted_eq, process_image_posted_eq]
    rfl

theorem chain_transition_draw_motion (p : GstMotionDetector) (b : Bool) :
    (chain_transition { p with draw_motion := b }).1 =
      { (chain_transition p).1 with draw_motion := b } ∧
    (chain_transition { p with draw_motion := b }).2 = (chain_transition p).2 := by
  unfold chain_transition
  by_cases hb : 0 < p.num_blobs <;> by_cases hm : p.motion_detected = true <;>
    by_cases hl : 0 < p.rate_limit <;> simp [hb, hm, hl]

theorem chain_draw_motion (filter : GstMotionDetector) (buf : List Rgb) (b : Bool) :
    (gst_motion_detector_chain { filter with draw_motion := b } buf).1 =
      { (gst_motion_detector_chain filter buf).1 with draw_motion := b } ∧
    (gst_motion_detector_chain { filter with draw_motion := b } buf).2.1 =
      (gst_motion_detector_chain filter buf).2.1 := by
  have himg : currentImage { filter with draw_motion := b } buf = currentImage filter buf := rfl
  obtain ⟨p1, p2⟩ := process_image_draw_motion filter (currentImage filter buf) b
  by_cases hinh : filter.rate_inhibit = true
  · rw [chain_inhibited _ buf (show ({ filter with draw_motion := b } :
      GstMotionDetector).rate_inhibit = true from hinh), chain_inhibited filter buf hinh, himg]
    exact ⟨p1, p2⟩
  · have hfree : filter.rate_inhibit = false := by simpa using hinh
    rw [chain_free _ buf (show ({ filter with draw_motion := b } :
      GstMotionDetector).rate_inhibit = false from hfree), chain_free filter buf hfree, himg]
    simp only [p1, p2]
    obtain ⟨t1, t2⟩ := chain_transition_draw_motion
      (gst_motion_detector_process_image filter (currentImage filter buf)).1 b
    exact ⟨t1, by rw [t2]⟩

theorem run_draw_motion (es : List Event) (filter : GstMotionDetector) (b : Bool) :
    (run { filter with draw_motion := b } es).1 = { (run filter es).1 with draw_motion := b } ∧
    (run { filter with draw_motion := b } es).2 = (run filter es).2 := by
  induction es generalizing filter with
  | nil => exact ⟨rfl, rfl⟩
  | cons e rest ih =>
    cases e with
    | frame buf =>
      obtain ⟨c1, c2⟩ := chain_draw_motion filter buf b
      rw [run_frame_cons, run_frame_cons, c1, c2]
      obtain ⟨r1, r2⟩ := ih (gst_motion_detector_chain filter buf).1
      exact ⟨r1, by rw [r2]⟩
    | rate_timeout =>
      rw [run_rate_timeout_cons, run_rate_timeout_cons]
      exact ih (gst_motion_detector_rate_timeout filter)

/-- C14: two runs over the same frames and timer expiries that differ only in
the value of `draw_motion` reach states that differ only in `draw_motion`
(same `num_blobs`, `motion_detected`, `rate_inhibit` and `run_avg` after every
frame) and send out the same things; the background model written while a
frame is processed is computed from the frame as it arrived, whether or not
rectangles are drawn on it afterwards. -/
theorem draw_motion_does_not_interfere (filter : GstMotionDetector) (es : List Event)
    (b1 b2 : Bool) :
    (run { filter with draw_motion := b1 } es).1 =
      { (run { filter with draw_motion := b2 } es).1 with draw_motion := b1 } ∧
    (run { filter with draw_motion := b1 } es).1.num_blobs =
      (run { filter with draw_motion := b2 } es).1.num_blobs ∧
    (run { filter with draw_motion := b1 } es).1.motion_detected =
      (run { filter with draw_motion := b2 } es).1.motion_detected ∧
    (run { filter with draw_motion := b1 } es).1.rate_inhibit =
      (run { filter with draw_motion := b2 } es).1.rate_inhibit ∧
    (run { filter with draw_motion := b1 } es).1.run_avg =
      (run { filter with draw_motion := b2 } es).1.run_avg ∧
    (run { filter with draw_motion := b1 } es).2 =
      (run { filter with draw_motion := b2 } es).2 ∧
    (∀ src : IplImage Rgb,
      (gst_motion_detector_process_image { filter with draw_motion := b1 } src).1.run_avg =
        some (update_run_avg filter src) ∧
      (gst_motion_detector_process_image { filter with draw_motion := b2 } src).1.run_avg =
        some (update_run_avg filter src)) := by
  obtain ⟨x1, x2⟩ := run_draw_motion es filter b1
  obtain ⟨y1, y2⟩ := run_draw_motion es filter b2
  have hst : (run { filter with draw_motion := b1 } es).1 =
      { (run { filter with draw_motion := b2 } es).1 with draw_motion := b1 } := by
    rw [x1, y1]
  refine ⟨hst, ?_, ?_, ?_, ?_, by rw [x2, y2], fun src => ⟨rfl, rfl⟩⟩
  · rw [hst]
  · rw [hst]
  · rw [hst]
  · rw [hst]

/-! ## The background recurrence -/

theorem process_image_run_avg (filter : GstMotionDetector) (src : IplImage Rgb) :
    (gst_motion_detector_process_image filter src).1.run_avg = some (update_run_avg filter src) ∧
    (gst_motion_detector_process_image filter src).1.avg_weight = filter.avg_weight :=
  ⟨rfl, rfl⟩

/-- One frame: the model written by the frame processing is the update of the
specification applied to the model before. -/
theorem update_agrees_with_reference (w h : Nat) (filter : GstMotionDetector)
    (reference : Option (Nat → Nat → RgbF)) (src : IplImage Rgb)
    (hw : src.width = w) (hh : src.height = h)
    (hag : agrees_with_reference w h filter.run_avg reference) :
    agrees_with_reference w h (some (update_run_avg filter src))
      (some (reference_update filter.avg_weight reference (fun x y => src.get x y))) := by
  unfold update_run_avg
  cases hr : filter.run_avg with
  | none =>
    cases reference with
    | none =>
      refine ⟨hw, hh, ?_⟩
      intro x y hx hy
      exact cvConvertScale_8U_32F_get src x y (by omega) (by omega)
    | some r =>
      rw [hr] at hag
      exact False.elim hag
  | some bg =>
    cases reference with
    | none =>
      rw [hr] at hag
      exact False.elim hag
    | some r =>
      rw [hr] at hag
      obtain ⟨bw, bh, bpix⟩ := hag
      refine ⟨bw, bh, ?_⟩
      intro x y hx hy
      rw [cvRunningAvg_get src bg filter.avg_weight x y (by omega) (by omega), bpix x y hx hy]
      simp only [reference_update, zip3]
      refine Prod.ext ?_ (Prod.ext ?_ ?_) <;> simp only [] <;> ring

theorem feed_frames_agrees (w h : Nat) (frames : List (IplImage Rgb)) (filter : GstMotionDetector)
    (reference : Option (Nat → Nat → RgbF))
    (hsize : ∀ f ∈ frames, f.width = w ∧ f.height = h)
    (hag : agrees_with_reference w h filter.run_avg reference) :
    agrees_with_reference w h (feed_frames filter frames).run_avg
      ((frames.map (fun f => fun x y => f.get x y)).foldl
        (fun bg f => some (reference_update filter.avg_weight bg f)) reference) ∧
    (feed_frames filter frames).avg_weight = filter.avg_weight := by
  induction frames generalizing filter reference with
  | nil => exact ⟨hag, rfl⟩
  | cons f rest ih =>
    obtain ⟨fw, fh⟩ := hsize f (List.mem_cons_self f rest)
    have hstep := update_agrees_with_reference w h filter reference f fw fh hag
    obtain ⟨r1, r2⟩ := ih (gst_motion_detector_process_image filter f).1
      (some (reference_update filter.avg_weight reference (fun x y => f.get x y)))
      (fun g hg => hsize g (List.mem_cons_of_mem f hg)) hstep
    exact ⟨r1, r2⟩

/-- C11: for frames of one size fed to the frame processing of an instance
without background model, the background model is the one of the
specification: after the first frame it is that frame, sample for sample, and
each later frame `f` changes it to `bg * (1 - avg_weight) + f * avg_weight` at
every pixel, where `bg` is the model before that frame (exact arithmetic). -/
theorem background_follows_reference (w h : Nat) (filter : GstMotionDetector)
    (frames : List (IplImage Rgb)) (hnone : filter.run_avg = none)
    (hsize : ∀ f ∈ frames, f.width = w ∧ f.height = h) :
    agrees_with_reference w h (feed_frames filter frames).run_avg
      (reference_background filter.avg_weight (frames.map (fun f => fun x y => f.get x y))) ∧
    (∀ f0 : IplImage Rgb, ∀ x y, x < f0.width → y < f0.height →
      ∃ bg, (gst_motion_detector_process_image filter f0).1.run_avg = some bg ∧
        bg.width = f0.width ∧ bg.height = f0.height ∧
        bg.get x y = map3 (fun v : Nat => (v : ℚ)) (f0.get x y)) ∧
    (∀ (s : GstMotionDetector) (bg : IplImage RgbF) (fk : IplImage Rgb),
      s.run_avg = some bg → bg.width = fk.width → bg.height = fk.height →
      ∀ x y, x < fk.width → y < fk.height →
        ∃ bg2, (gst_motion_detector_process_image s fk).1.run_avg = some bg2 ∧
          bg2.width = fk.width ∧ bg2.height = fk.height ∧
          bg2.get x y =
            zip3 (fun (a : ℚ) (v : Nat) => a * (1 - s.avg_weight) + (v : ℚ) * s.avg_weight)
              (bg.get x y) (fk.get x y)) := by
  refine ⟨?_, ?_, ?_⟩
  · have hag : agrees_with_reference w h filter.run_avg none := by
      rw [hnone]
      trivial
    exact (feed_frames_agrees w h frames filter none hsize hag).1
  · intro f0 x y hx hy
    refine ⟨update_run_avg filter f0, rfl, ?_, ?_, ?_⟩
    · unfold update_run_avg
      rw [hnone]
      rfl
    · unfold update_run_avg
      rw [hnone]
      rfl
    · unfold update_run_avg
      rw [hnone]
      exact cvConvertScale_8U_32F_get f0 x y hx hy
  · intro s bg fk hs bw bh x y hx hy
    refine ⟨update_run_avg s fk, rfl, ?_, ?_, ?_⟩
    · unfold update_run_avg
      rw [hs]
      exact bw
    · unfold update_run_avg
      rw [hs]
      exact bh
    · unfold update_run_avg
      rw [hs]
      simp only []
      rw [cvRunningAvg_get fk bg s.avg_weight x y (by omega) (by omega)]
      simp only [zip3]
      refine Prod.ext ?_ (Prod.ext ?_ ?_) <;> simp only [] <;> ring

theorem background_follows_reference_witness :
    configured_detector.run_avg = none ∧
    (∀ f ∈ [image3 frame_black, image3 frame_dot], f.width = 3 ∧ f.height = 3) ∧
    agrees_with_reference 3 3
      (feed_frames configured_detector [image3 frame_black, image3 frame_dot]).run_avg
      (reference_background configured_detector.avg_weight
        ([image3 frame_black, image3 frame_dot].map (fun f => fun x y => f.get x y))) :=
  ⟨rfl, by decide,
    (background_follows_reference 3 3 configured_detector [image3 frame_black, image3 frame_dot]
      rfl (by decide)).1⟩

/-! ## Caps changes and the background model -/

theorem chain_transition_keeps_model (p : GstMotionDetector) :
    (chain_transition p).1.run_avg = p.run_avg ∧
    (chain_transition p).1.width = p.width ∧
    (chain_transition p).1.height = p.height := by
  unfold chain_transition
  by_cases hb : 0 < p.num_blobs <;> by_cases hm : p.motion_detected = true <;>
    by_cases hl : 0 < p.rate_limit <;> simp [hb, hm, hl]

theorem chain_keeps_model (filter : GstMotionDetector) (buf : List Rgb) :
    (gst_motion_detector_chain filter buf).1.run_avg =
      some (update_run_avg filter (currentImage filter buf)) ∧
    (gst_motion_detector_chain filter buf).1.width = filter.width ∧
    (gst_motion_detector_chain filter buf).1.height = filter.height := by
  by_cases hinh : filter.rate_inhibit = true
  · rw [chain_inhibited filter buf hinh]
    exact ⟨rfl, rfl, rfl⟩
  · have hfree : filter.rate_inhibit = false := by simpa using hinh
    rw [chain_free filter buf hfree]
    obtain ⟨t1, t2, t3⟩ := chain_transition_keeps_model
      (gst_motion_detector_process_image filter (currentImage filter buf)).1
    exact ⟨t1, t2, t3⟩

theorem update_run_avg_fits (filter : GstMotionDetector) (buf : List Rgb)
    (hfit : model_fits_caps filter) :
    (update_run_avg filter (currentImage filter buf)).width = filter.width ∧
    (update_run_avg filter (currentImage filter buf)).height = filter.height := by
  unfold update_run_avg
  cases hr : filter.run_avg with
  | none => exact ⟨rfl, rfl⟩
  | some bg => exact hfit bg hr

theorem apply_action_fits (s : GstMotionDetector) (a : Action) (hfit : model_fits_caps s)
    (hkeep : keeps_model_size s a) : model_fits_caps (apply_action s a) := by
  cases a with
  | frame buf =>
    obtain ⟨c1, c2, c3⟩ := chain_keeps_model s buf
    intro bg hbg
    have hbg2 : (gst_motion_detector_chain s buf).1.run_avg = some bg := hbg
    rw [c1] at hbg2
    have hb : update_run_avg s (currentImage s buf) = bg := Option.some.inj hbg2
    obtain ⟨u1, u2⟩ := update_run_avg_fits s buf hfit
    rw [← hb]
    exact ⟨u1.trans c2.symm, u2.trans c3.symm⟩
  | rate_timeout => exact hfit
  | set_property prop_id value => cases prop_id <;> exact hfit
  | set_caps width height =>
    intro bg hbg
    have hbg2 : s.run_avg = some bg := hbg
    rcases hkeep with h | h
    · rw [h] at hbg2
      cases hbg2
    · obtain ⟨f1, f2⟩ := hfit bg hbg2
      exact ⟨f1.trans h.1.symm, f2.trans h.2.symm⟩

theorem apply_actions_fits (actions : List Action) (s : GstMotionDetector)
    (hfit : model_fits_caps s) (hsteady : steady_caps s actions) :
    model_fits_caps (apply_actions s actions) := by
  induction actions generalizing s with
  | nil => exact hfit
  | cons a rest ih =>
    exact ih (apply_action s a) (apply_action_fits s a hfit hsteady.1) hsteady.2

/-- C13, as the code has it: the caps setter stores the new width and height
and leaves the background model as it is, and a frame processed while a model
exists is averaged into that model, which keeps its size.  So the model has
the negotiated size in the initial state and in every state reached by
frames, timer expiries, property settings and caps settings that come before
the first frame or repeat the current size; a caps change to another size is
not followed by a new model. -/
theorem model_size_follows_first_frame (s : GstMotionDetector) (actions : List Action)
    (hfit : model_fits_caps s) (hsteady : steady_caps s actions) :
    model_fits_caps gst_motion_detector_init ∧
    model_fits_caps (apply_actions s actions) ∧
    (∀ width height, (gst_motion_detector_set_caps s width height).run_avg = s.run_avg) ∧
    (∀ (bg : IplImage RgbF) (src : IplImage Rgb), s.run_avg = some bg →
      (gst_motion_detector_process_image s src).1.run_avg =
        some (cvRunningAvg src bg s.avg_weight) ∧
      (cvRunningAvg src bg s.avg_weight).width = bg.width ∧
      (cvRunningAvg src bg s.avg_weight).height = bg.height) := by
  refine ⟨?_, apply_actions_fits actions s hfit hsteady, fun _ _ => rfl, ?_⟩
  · intro bg hbg
    cases hbg
  · intro bg src hs
    refine ⟨?_, rfl, rfl⟩
    rw [(process_image_run_avg s src).1]
    unfold update_run_avg
    rw [hs]

/-- C13, refuted as stated: after caps for 3 by 3 frames, one black frame and
new caps for 5 by 3 frames, the background model still is the 3 by 3 one
while the negotiated size is 5 by 3, and the next frame is averaged into it
instead of replacing it. -/
theorem caps_change_keeps_old_model :
    resized_detector.run_avg = some (cvConvertScale_8U_32F (image3 frame_black)) ∧
    (cvConvertScale_8U_32F (image3 frame_black)).width = 3 ∧
    (cvConvertScale_8U_32F (image3 frame_black)).height = 3 ∧
    resized_detector.width = 5 ∧ resized_detector.height = 3 ∧
    ¬ model_fits_caps resized_detector ∧
    update_run_avg resized_detector (currentImage resized_detector frame_bridge) =
      cvRunningAvg (currentImage resized_detector frame_bridge)
        (cvConvertScale_8U_32F (image3 frame_black)) resized_detector.avg_weight ∧
    update_run_avg resized_detector (currentImage resized_detector frame_bridge) ≠
      cvConvertScale_8U_32F (currentImage resized_detector frame_bridge) := by
  have hrun : resized_detector.run_avg = some (cvConvertScale_8U_32F (image3 frame_black)) := by
    decide!
  have hupd : update_run_avg resized_detector (currentImage resized_detector frame_bridge) =
      cvRunningAvg (currentImage resized_detector frame_bridge)
        (cvConvertScale_8U_32F (image3 frame_black)) resized_detector.avg_weight := by
    unfold update_run_avg
    rw [hrun]
  refine ⟨hrun, rfl, rfl, rfl, rfl, ?_, hupd, ?_⟩
  · intro hfit
    have h := (hfit _ hrun).1
    have h3 : (cvConvertScale_8U_32F (image3 frame_black)).width = 3 := rfl
    have h5 : resized_detector.width = 5 := rfl
    rw [h3, h5] at h
    omega
  · intro heq
    have hw := congrArg IplImage.width heq
    rw [hupd] at hw
    have h3 : (cvRunningAvg (currentImage resized_detector frame_bridge)
        (cvConvertScale_8U_32F (image3 frame_black)) resized_detector.avg_weight).width = 3 :=
      rfl
    have h5 : (cvConvertScale_8U_32F (currentImage resized_detector frame_bridge)).width = 5 :=
      rfl
    rw [h3, h5] at hw
    omega

theorem model_size_follows_first_frame_witness :
    model_fits_caps gst_motion_detector_init ∧
    steady_caps gst_motion_detector_init
      [Action.set_caps 3 3, Action.frame frame_black, Action.set_caps 3 3,
        Action.frame frame_dot] ∧
    model_fits_caps
      (apply_actions gst_motion_detector_init
        [Action.set_caps 3 3, Action.frame frame_black, Action.set_caps 3 3,
          Action.frame frame_dot]) := by
  have hinit : model_fits_caps gst_motion_detector_init := by
    intro bg hbg
    cases hbg
  have hsteady : steady_caps gst_motion_detector_init
      [Action.set_caps 3 3, Action.frame frame_black, Action.set_caps 3 3,
        Action.frame frame_dot] := by
    simp only [steady_caps, keeps_model_size, apply_action, and_true]
    obtain ⟨-, c2, c3⟩ := chain_keeps_model
      (gst_motion_detector_set_caps gst_motion_detector_init 3 3) frame_black
    refine ⟨Or.inl rfl, trivial, Or.inr ⟨?_, ?_⟩⟩
    · rw [c2]
      rfl
    · rw [c3]
      rfl
  exact ⟨hinit, hsteady,
    (model_size_follows_first_frame gst_motion_detector_init
      [Action.set_caps 3 3, Action.frame frame_black, Action.set_caps 3 3,
        Action.frame frame_dot] hinit hsteady).2.1⟩

/-! ## Rounding to single precision -/

theorem cvRound_error (q : ℚ) : |((cvRound q : Int) : ℚ) - q| ≤ 1 / 2 := by
  unfold cvRound
  have h1 := Int.floor_le q
  have h2 := Int.lt_floor_add_one q
  simp only []
  split_ifs with ha hb hc
  · rw [abs_le]; constructor <;> linarith
  · rw [abs_le]; push_cast; constructor <;> linarith
  · rw [abs_le]; constructor <;> linarith
  · rw [abs_le]; push_cast; constructor <;> linarith

theorem float_exponent_aux_of_one_le (fuel : Nat) (x : ℚ) (hx : 1 ≤ x) :
    (2 : ℚ) ^ float_exponent_aux fuel x ≤ x := by
  induction fuel generalizing x with
  | zero => simpa [float_exponent_aux] using hx
  | succ k ih =>
    unfold float_exponent_aux
    split_ifs with h2 h1
    · have := ih (x / 2) (by linarith)
      rw [zpow_add_one₀ (by norm_num)]
      linarith
    · exact absurd hx (not_le.mpr h1)
    · simpa using hx

theorem float_exponent_aux_of_lt_one (fuel : Nat) (x : ℚ) (h1 : x < 1) :
    (2 : ℚ) ^ float_exponent_aux fuel x ≤ x ∨ float_exponent_aux fuel x = -(fuel : Int) := by
  induction fuel generalizing x with
  | zero => right; simp [float_exponent_aux]
  | succ k ih =>
    unfold float_exponent_aux
    rw [if_neg (by linarith), if_pos h1]
    by_cases h : 2 * x < 1
    · rcases ih (2 * x) h with hl | hr
      · left
        rw [zpow_sub_one₀ (by norm_num)]
        linarith
      · right
        rw [hr]
        push_cast
        ring
    · left
      have := float_exponent_aux_of_one_le k (2 * x) (not_lt.mp h)
      rw [zpow_sub_one₀ (by norm_num)]
      linarith

theorem float_exponent_aux_upper_of_one_le (fuel : Nat) (x : ℚ) (hx : 1 ≤ x)
    (hf : x < 2 ^ fuel) : x < (2 : ℚ) ^ (float_exponent_aux fuel x + 1) := by
  induction fuel generalizing x with
  | zero =>
    simp only [pow_zero] at hf
    linarith
  | succ k ih =>
    unfold float_exponent_aux
    split_ifs with h2 h1
    · have := ih (x / 2) (by linarith) (by rw [pow_succ] at hf; linarith)
      rw [zpow_add_one₀ (by norm_num)]
      linarith
    · norm_num
      linarith
    · norm_num
      linarith

theorem float_exponent_aux_upper_of_lt_one (fuel : Nat) (x : ℚ) (h1 : x < 1)
    (hf : (2 : ℚ) ^ (-(fuel : Int)) ≤ x) :
    x < (2 : ℚ) ^ (float_exponent_aux fuel x + 1) ∧
      -(fuel : Int) ≤ float_exponent_aux fuel x := by
  induction fuel generalizing x with
  | zero =>
    simp at hf
    linarith
  | succ k ih =>
    unfold float_exponent_aux
    rw [if_neg (by linarith), if_pos h1]
    have hf2 : (2 : ℚ) ^ (-(k : Int)) ≤ 2 * x := by
      have e : (-(k : Int)) = (-((k + 1 : Nat) : Int)) + 1 := by push_cast; ring
      rw [e, zpow_add_one₀ (by norm_num)]
      linarith
    by_cases h : 2 * x < 1
    · obtain ⟨a, b⟩ := ih (2 * x) h hf2
      constructor
      · rw [sub_add_cancel]
        rw [zpow_add_one₀ (by norm_num)] at a
        linarith
      · push_cast
        omega
    · have hz : float_exponent_aux k (2 * x) = 0 := by
        cases k with
        | zero => rfl
        | succ j =>
          unfold float_exponent_aux
          rw [if_neg (by linarith), if_neg h]
      rw [hz]
      constructor
      · norm_num
        exact h1
      · push_cast
        omega

/-- The exponent chosen for a value in the range of the normal floats is its
binary exponent. -/
theorem float_exponent_spec (x : ℚ) (hlo : (2 : ℚ) ^ (-126 : Int) ≤ |x|)
    (hhi : |x| < 2 ^ 128) :
    (2 : ℚ) ^ float_exponent x ≤ |x| ∧ |x| < 2 ^ (float_exponent x + 1) ∧
      -126 ≤ float_exponent x ∧ float_exponent x ≤ 127 := by
  unfold float_exponent
  by_cases h1 : |x| < 1
  · have hf : (2 : ℚ) ^ (-((300 : Nat) : Int)) ≤ |x| :=
      le_trans (zpow_le_zpow_right₀ (by norm_num) (by norm_num)) hlo
    obtain ⟨up, -⟩ := float_exponent_aux_upper_of_lt_one 300 |x| h1 hf
    have hge : -126 ≤ float_exponent_aux 300 |x| := by
      by_contra hc
      have h' : float_exponent_aux 300 |x| + 1 ≤ -126 := by omega
      have := zpow_le_zpow_right₀ (by norm_num : (1 : ℚ) ≤ 2) h'
      linarith
    have hlow : (2 : ℚ) ^ float_exponent_aux 300 |x| ≤ |x| := by
      rcases float_exponent_aux_of_lt_one 300 |x| h1 with hl | hr
      · exact hl
      · rw [hr] at hge
        norm_num at hge
    rw [max_eq_right hge]
    refine ⟨hlow, up, hge, ?_⟩
    have hlt : (2 : ℚ) ^ float_exponent_aux 300 |x| < 2 ^ (0 : Int) := by
      rw [zpow_zero]
      exact lt_of_le_of_lt hlow h1
    have := (zpow_lt_zpow_iff_right₀ (by norm_num : (1 : ℚ) < 2)).mp hlt
    omega
  · have h1' : 1 ≤ |x| := not_lt.mp h1
    have hlow := float_exponent_aux_of_one_le 300 |x| h1'
    have up := float_exponent_aux_upper_of_one_le 300 |x| h1'
      (lt_of_lt_of_le hhi (by norm_num))
    have hge0 : 0 ≤ float_exponent_aux 300 |x| := by
      by_contra hc
      have h' : float_exponent_aux 300 |x| + 1 ≤ 0 := by omega
      have := zpow_le_zpow_right₀ (by norm_num : (1 : ℚ) ≤ 2) h'
      rw [zpow_zero] at this
      linarith
    rw [max_eq_right (by omega)]
    refine ⟨hlow, up, by omega, ?_⟩
    have hlt : (2 : ℚ) ^ float_exponent_aux 300 |x| < 2 ^ (128 : Int) := by
      refine lt_of_le_of_lt hlow (lt_of_lt_of_le hhi ?_)
      norm_num
    have := (zpow_lt_zpow_iff_right₀ (by norm_num : (1 : ℚ) < 2)).mp hlt
    omega

theorem float_exponent_le (x : ℚ) (k : Int) (hk : -125 ≤ k) (hx : |x| < 2 ^ k) :
    float_exponent x ≤ k - 1 := by
  unfold float_exponent
  apply max_le (by omega)
  have key : (2 : ℚ) ^ float_exponent_aux 300 |x| ≤ |x| →
      float_exponent_aux 300 |x| ≤ k - 1 := by
    intro h
    have hlt : (2 : ℚ) ^ float_exponent_aux 300 |x| < 2 ^ k := lt_of_le_of_lt h hx
    have := (zpow_lt_zpow_iff_right₀ (by norm_num : (1 : ℚ) < 2)).mp hlt
    omega
  by_cases h1 : |x| < 1
  · rcases float_exponent_aux_of_lt_one 300 |x| h1 with hl | hr
    · exact key hl
    · rw [hr]
      push_cast
      omega
  · exact key (float_exponent_aux_of_one_le 300 |x| (not_lt.mp h1))

theorem round_float32_error (x : ℚ) (k : Int) (hk : -125 ≤ k) (hx : |x| < 2 ^ k) :
    |round_float32 x - x| ≤ 2 ^ (k - 25) := by
  have he := float_exponent_le x k hk hx
  unfold round_float32
  generalize float_exponent x = e at he
  have hu : (0 : ℚ) < 2 ^ (e - 23) := zpow_pos (by norm_num) _
  have hr := cvRound_error (x / 2 ^ (e - 23))
  have heq : ((cvRound (x / 2 ^ (e - 23)) : Int) : ℚ) * 2 ^ (e - 23) - x =
      (((cvRound (x / 2 ^ (e - 23)) : Int) : ℚ) - x / 2 ^ (e - 23)) * 2 ^ (e - 23) := by
    field_simp
  rw [heq, abs_mul, abs_of_pos hu]
  have hle : (2 : ℚ) ^ (e - 23) ≤ 2 ^ (k - 24) :=
    zpow_le_zpow_right₀ (by norm_num) (by omega)
  have h24 : (2 : ℚ) ^ (k - 24) = 2 * 2 ^ (k - 25) := by
    rw [show k - 24 = (k - 25) + 1 by ring, zpow_add_one₀ (by norm_num)]
    ring
  calc |((cvRound (x / 2 ^ (e - 23)) : Int) : ℚ) - x / 2 ^ (e - 23)| * 2 ^ (e - 23)
      ≤ 1 / 2 * 2 ^ (e - 23) := mul_le_mul_of_nonneg_right hr hu.le
    _ ≤ 1 / 2 * 2 ^ (k - 24) := by linarith
    _ = 2 ^ (k - 25) := by rw [h24]; ring

theorem round_float32_error_small (x : ℚ) (hx : |x| < 2) :
    |round_float32 x - x| ≤ 1 / 2 ^ 24 := by
  have h := round_float32_error x 1 (by norm_num) (by simpa using hx)
  norm_num at h ⊢
  exact h

theorem round_float32_error_sample (x : ℚ) (hx : |x| < 512) :
    |round_float32 x - x| ≤ 1 / 2 ^ 16 := by
  have h := round_float32_error x 9 (by norm_num) (by norm_num; exact hx)
  norm_num at h ⊢
  exact h


/-- Three values of the rounding: the floats written `0.1f` and `0.02f`, and a
sample, which is a float already. -/
theorem round_float32_examples :
    round_float32 (1 / 10) = 13421773 / 2 ^ 27 ∧
    round_float32 DEFAULT_AVG_WEIGHT = 5368709 / 2 ^ 28 ∧
    round_float32 255 = 255 := by
  decide!

/-- One update in single precision differs from the exact one by the rounding
of the weights and of the three operations. -/
theorem accumulate_32F_error (alpha d : ℚ) (v : Nat) (h0 : 1 / 2 ^ 20 ≤ alpha)
    (h1 : alpha ≤ 1) (hv : v ≤ 255) (hd : |d - (v : ℚ)| ≤ 255) :
    |accumulate_32F alpha d v - (v : ℚ)| ≤
      (1 - alpha + 1 / 2 ^ 23) * |d - (v : ℚ)| + 1 / 2 ^ 14 := by
  unfold accumulate_32F
  have hv0 : (0 : ℚ) ≤ (v : ℚ) := Nat.cast_nonneg v
  have hv1 : (v : ℚ) ≤ 255 := by exact_mod_cast hv
  -- the weight as a float
  have ha := round_float32_error_small alpha (by rw [abs_lt]; constructor <;> linarith)
  generalize round_float32 alpha = a at ha
  rw [abs_le] at ha
  -- its complement as a float
  have hb := round_float32_error_small (1 - a)
    (by rw [abs_lt]; constructor <;> norm_num at ha h0 ⊢ <;> linarith)
  generalize round_float32 (1 - a) = b at hb
  rw [abs_le] at hb
  have hb1 : |b| ≤ 1 - alpha + 1 / 2 ^ 23 := by
    rw [abs_le]; constructor <;> norm_num at ha hb h0 ⊢ <;> linarith
  have hab : |a + b - 1| ≤ 1 / 2 ^ 24 := by
    rw [abs_le]; constructor <;> linarith
  have hdabs := abs_nonneg (d - (v : ℚ))
  have hd510 : |d| ≤ 510 := by
    rw [abs_le] at hd ⊢; constructor <;> linarith
  have hr1 : 1 - alpha + 1 / 2 ^ 23 ≤ 1 := by norm_num at h0 ⊢; linarith
  have hr0 : 0 ≤ 1 - alpha + 1 / 2 ^ 23 := by norm_num; linarith
  -- the two products
  have hdb : |d * b| ≤ 510 := by
    rw [abs_mul]
    calc |d| * |b| ≤ 510 * 1 := mul_le_mul hd510 (hb1.trans hr1) (abs_nonneg _) (by norm_num)
      _ = 510 := by norm_num
  have hva : |(v : ℚ) * a| ≤ 256 := by
    rw [abs_mul, abs_of_nonneg hv0]
    have : |a| ≤ 1 + 1 / 2 ^ 24 := by
      rw [abs_le]; constructor <;> norm_num at ha h0 ⊢ <;> linarith
    calc (v : ℚ) * |a| ≤ 255 * (1 + 1 / 2 ^ 24) := mul_le_mul hv1 this (abs_nonneg _) (by norm_num)
      _ ≤ 256 := by norm_num
  have hp2 := round_float32_error_sample (d * b) (by linarith)
  have hp1 := round_float32_error_sample ((v : ℚ) * a) (by linarith)
  generalize round_float32 (d * b) = p2 at hp2
  generalize round_float32 ((v : ℚ) * a) = p1 at hp1
  -- the exact value of the update
  have hexact : (v : ℚ) * a + d * b - (v : ℚ) = (v : ℚ) * (a + b - 1) + (d - (v : ℚ)) * b := by
    ring
  have h3 : |(v : ℚ) * (a + b - 1)| ≤ 255 / 2 ^ 24 := by
    rw [abs_mul, abs_of_nonneg hv0]
    calc (v : ℚ) * |a + b - 1| ≤ 255 * (1 / 2 ^ 24) :=
          mul_le_mul hv1 hab (abs_nonneg _) (by norm_num)
      _ = 255 / 2 ^ 24 := by ring
  have h4 : |(d - (v : ℚ)) * b| ≤ (1 - alpha + 1 / 2 ^ 23) * |d - (v : ℚ)| := by
    rw [abs_mul, mul_comm]
    exact mul_le_mul_of_nonneg_right hb1 hdabs
  have h5 : |(v : ℚ) * a + d * b - (v : ℚ)| ≤
      255 / 2 ^ 24 + (1 - alpha + 1 / 2 ^ 23) * |d - (v : ℚ)| := by
    rw [hexact]
    exact (abs_add _ _).trans (add_le_add h3 h4)
  have h6 : (1 - alpha + 1 / 2 ^ 23) * |d - (v : ℚ)| ≤ 255 :=
    (mul_le_of_le_one_left hdabs hr1).trans hd
  have hs : |p2 + p1 - (v : ℚ)| ≤
      2 / 2 ^ 16 + 255 / 2 ^ 24 + (1 - alpha + 1 / 2 ^ 23) * |d - (v : ℚ)| := by
    have e : p2 + p1 - (v : ℚ) =
        (p2 - d * b) + (p1 - (v : ℚ) * a) + ((v : ℚ) * a + d * b - (v : ℚ)) := by ring
    rw [e]
    refine (abs_add _ _).trans ?_
    refine (add_le_add ((abs_add _ _).trans (add_le_add hp2 hp1)) h5).trans ?_
    norm_num
    linarith
  have hs512 : |p2 + p1| < 512 := by
    have e : p2 + p1 = (p2 + p1 - (v : ℚ)) + (v : ℚ) := by ring
    rw [e]
    refine lt_of_le_of_lt (abs_add _ _) ?_
    rw [abs_of_nonneg hv0]
    norm_num at hs ⊢
    linarith
  have hfin := round_float32_error_sample (p2 + p1) hs512
  generalize round_float32 (p2 + p1) = s at hfin
  have e : s - (v : ℚ) = (s - (p2 + p1)) + (p2 + p1 - (v : ℚ)) := by ring
  rw [e]
  refine (abs_add _ _).trans ?_
  norm_num at hfin hs ⊢
  linarith


/-! ## The background model facing a static frame -/

theorem cvRunningAvg_32F_get (src : IplImage Rgb) (acc : IplImage RgbF) (alpha : ℚ) (x y : Nat)
    (hx : x < acc.width) (hy : y < acc.height) :
    (cvRunningAvg_32F src acc alpha).get x y =
      zip3 (accumulate_32F alpha) (acc.get x y) (src.get x y) :=
  get_mkImage _ _ _ x y hx hy

theorem feed_static_32F_succ (filter : GstMotionDetector) (f : IplImage Rgb) (n : Nat) :
    feed_static_32F filter f (n + 1) =
      { feed_static_32F filter f n with
        run_avg := some (update_run_avg_32F (feed_static_32F filter f n) f) } := by
  unfold feed_static_32F
  rw [Function.iterate_succ_apply']

/-- One update in single precision brings a pixel of the model towards the
pixel of the frame, up to the rounding of the float operations. -/
theorem pixel_distance_step_32F (alpha : ℚ) (p : RgbF) (v : Rgb) (h0 : 1 / 2 ^ 20 ≤ alpha)
    (h1 : alpha ≤ 1) (hv : v.1 ≤ 255 ∧ v.2.1 ≤ 255 ∧ v.2.2 ≤ 255)
    (hd : pixel_distance p v ≤ 255) :
    pixel_distance (zip3 (accumulate_32F alpha) p v) v ≤
      (1 - alpha + 1 / 2 ^ 23) * pixel_distance p v + 1 / 2 ^ 14 := by
  have hr0 : 0 ≤ 1 - alpha + 1 / 2 ^ 23 := by norm_num; linarith
  unfold pixel_distance at hd ⊢
  unfold zip3
  simp only []
  rw [max_le_iff, max_le_iff] at hd
  obtain ⟨d1, d2, d3⟩ := hd
  have e1 := accumulate_32F_error alpha p.1 v.1 h0 h1 hv.1 d1
  have e2 := accumulate_32F_error alpha p.2.1 v.2.1 h0 h1 hv.2.1 d2
  have e3 := accumulate_32F_error alpha p.2.2 v.2.2 h0 h1 hv.2.2 d3
  have m1 : |p.1 - (v.1 : ℚ)| ≤
      max |p.1 - (v.1 : ℚ)| (max |p.2.1 - (v.2.1 : ℚ)| |p.2.2 - (v.2.2 : ℚ)|) :=
    le_max_left _ _
  have m2 : |p.2.1 - (v.2.1 : ℚ)| ≤
      max |p.1 - (v.1 : ℚ)| (max |p.2.1 - (v.2.1 : ℚ)| |p.2.2 - (v.2.2 : ℚ)|) :=
    le_max_of_le_right (le_max_left _ _)
  have m3 : |p.2.2 - (v.2.2 : ℚ)| ≤
      max |p.1 - (v.1 : ℚ)| (max |p.2.1 - (v.2.1 : ℚ)| |p.2.2 - (v.2.2 : ℚ)|) :=
    le_max_of_le_right (le_max_right _ _)
  refine max_le ?_ (max_le ?_ ?_)
  · exact e1.trans (by linarith [mul_le_mul_of_nonneg_left m1 hr0])
  · exact e2.trans (by linarith [mul_le_mul_of_nonneg_left m2 hr0])
  · exact e3.trans (by linarith [mul_le_mul_of_nonneg_left m3 hr0])

/-- The distance to a static frame after `n` updates in single precision. -/
theorem feed_static_32F_distance (filter : GstMotionDetector) (f : IplImage Rgb)
    (bg0 : IplImage RgbF) (h0 : 1 / 2 ^ 20 ≤ filter.avg_weight) (h1 : filter.avg_weight ≤ 1)
    (hf : Is8Bit f) (hbg : filter.run_avg = some bg0)
    (hw : bg0.width = f.width) (hh : bg0.height = f.height)
    (hnear : ∀ x y, x < f.width → y < f.height →
      pixel_distance (bg0.get x y) (f.get x y) ≤ 255) (n : Nat) :
    (feed_static_32F filter f n).avg_weight = filter.avg_weight ∧
    ∃ bg, (feed_static_32F filter f n).run_avg = some bg ∧ bg.width = f.width ∧
      bg.height = f.height ∧
      ∀ x y, x < f.width → y < f.height →
        pixel_distance (bg.get x y) (f.get x y) ≤ 255 ∧
        pixel_distance (bg.get x y) (f.get x y) ≤
          (1 - filter.avg_weight + 1 / 2 ^ 23) ^ n * 255 +
            1 / 2 ^ 14 / (filter.avg_weight - 1 / 2 ^ 23) := by
  have hpos : 0 < filter.avg_weight - 1 / 2 ^ 23 := by norm_num at h0 ⊢; linarith
  have hr0 : 0 ≤ 1 - filter.avg_weight + 1 / 2 ^ 23 := by norm_num; linarith
  have hL : 0 ≤ 1 / 2 ^ 14 / (filter.avg_weight - 1 / 2 ^ 23) := by positivity
  induction n with
  | zero =>
    refine ⟨rfl, bg0, hbg, hw, hh, ?_⟩
    intro x y hx hy
    refine ⟨hnear x y hx hy, ?_⟩
    have := hnear x y hx hy
    simp only [pow_zero, one_mul]
    linarith
  | succ k ih =>
    obtain ⟨ha, bg, hrun, bw, bh, hdist⟩ := ih
    rw [feed_static_32F_succ]
    refine ⟨ha, cvRunningAvg_32F f bg filter.avg_weight, ?_, bw, bh, ?_⟩
    · show some (update_run_avg_32F (feed_static_32F filter f k) f) = _
      unfold update_run_avg_32F
      rw [hrun, ha]
    · intro x y hx hy
      obtain ⟨i1, i2⟩ := hdist x y hx hy
      rw [cvRunningAvg_32F_get f bg filter.avg_weight x y (by omega) (by omega)]
      have step := pixel_distance_step_32F filter.avg_weight (bg.get x y) (f.get x y) h0 h1
        (hf x y hx hy) i1
      generalize pixel_distance (bg.get x y) (f.get x y) = D at i1 i2 step
      generalize pixel_distance (zip3 (accumulate_32F filter.avg_weight) (bg.get x y)
        (f.get x y)) (f.get x y) = D2 at step
      have hfix : (1 - filter.avg_weight + 1 / 2 ^ 23) *
          (1 / 2 ^ 14 / (filter.avg_weight - 1 / 2 ^ 23)) + 1 / 2 ^ 14 =
            1 / 2 ^ 14 / (filter.avg_weight - 1 / 2 ^ 23) := by
        have e : 1 - filter.avg_weight + 1 / 2 ^ 23 =
            1 - (filter.avg_weight - 1 / 2 ^ 23) := by ring
        rw [e]
        generalize filter.avg_weight - 1 / 2 ^ 23 = q at hpos
        have hq : q ≠ 0 := hpos.ne'
        field_simp
        ring
      constructor
      · have : (1 - filter.avg_weight + 1 / 2 ^ 23) * D ≤
            (1 - filter.avg_weight + 1 / 2 ^ 23) * 255 :=
          mul_le_mul_of_nonneg_left i1 hr0
        norm_num at h0 this step ⊢
        linarith
      · have : (1 - filter.avg_weight + 1 / 2 ^ 23) * D ≤
            (1 - filter.avg_weight + 1 / 2 ^ 23) *
              ((1 - filter.avg_weight + 1 / 2 ^ 23) ^ k * 255 +
                1 / 2 ^ 14 / (filter.avg_weight - 1 / 2 ^ 23)) :=
          mul_le_mul_of_nonneg_left i2 hr0
        rw [pow_succ]
        linarith

/-- C12: with `avg_weight` between 2^-20 and 1, an 8-bit frame and a
background model of the size of the frame whose samples are within 255 of
those of the frame, processing one and the same frame again and again brings
the model, kept in single precision as `IPL_DEPTH_32F` has it, within every
bound above `1 / (8192 * avg_weight)` of the frame and keeps it there: there
is a number of updates from which on every channel of every pixel of the
model is closer to the frame than the bound. -/
theorem background_settles_32F (filter : GstMotionDetector) (f : IplImage Rgb)
    (bg0 : IplImage RgbF) (h0 : 1 / 2 ^ 20 ≤ filter.avg_weight) (h1 : filter.avg_weight ≤ 1)
    (hf : Is8Bit f) (hbg : filter.run_avg = some bg0)
    (hw : bg0.width = f.width) (hh : bg0.height = f.height)
    (hnear : ∀ x y, x < f.width → y < f.height →
      pixel_distance (bg0.get x y) (f.get x y) ≤ 255)
    (ε : ℚ) (hε : 1 / (8192 * filter.avg_weight) < ε) :
    ∃ N0 : Nat, ∀ N : Nat, N0 ≤ N →
      ∃ bg, (feed_static_32F filter f N).run_avg = some bg ∧
        ∀ x y, x < f.width → y < f.height → pixel_distance (bg.get x y) (f.get x y) < ε := by
  have hpos : 0 < filter.avg_weight - 1 / 2 ^ 23 := by norm_num at h0 ⊢; linarith
  have ha : 0 < filter.avg_weight := by norm_num at h0; linarith
  have hr0 : 0 ≤ 1 - filter.avg_weight + 1 / 2 ^ 23 := by norm_num; linarith
  have hr1 : 1 - filter.avg_weight + 1 / 2 ^ 23 < 1 := by linarith
  have hL : 1 / 2 ^ 14 / (filter.avg_weight - 1 / 2 ^ 23) ≤
      1 / (8192 * filter.avg_weight) := by
    rw [div_le_div_iff₀ hpos (by positivity)]
    norm_num at h0 ⊢
    linarith
  have hgap : 0 < (ε - 1 / 2 ^ 14 / (filter.avg_weight - 1 / 2 ^ 23)) / 255 := by
    apply div_pos _ (by norm_num)
    linarith
  obtain ⟨N0, hN0⟩ := exists_pow_lt_of_lt_one hgap hr1
  refine ⟨N0, ?_⟩
  intro N hN
  obtain ⟨-, bg, hrun, -, -, hdist⟩ :=
    feed_static_32F_distance filter f bg0 h0 h1 hf hbg hw hh hnear N
  refine ⟨bg, hrun, ?_⟩
  intro x y hx hy
  obtain ⟨-, hd⟩ := hdist x y hx hy
  have hpow : (1 - filter.avg_weight + 1 / 2 ^ 23) ^ N ≤
      (1 - filter.avg_weight + 1 / 2 ^ 23) ^ N0 :=
    pow_le_pow_of_le_one hr0 hr1.le hN
  rw [lt_div_iff₀ (by norm_num : (0 : ℚ) < 255)] at hN0
  linarith

theorem white_frame_1_8bit : Is8Bit white_frame_1 := by
  intro x y hx hy
  have hx0 : x = 0 := by simpa [white_frame_1] using hx
  have hy0 : y = 0 := by simpa [white_frame_1] using hy
  subst hx0 hy0
  decide

theorem grey_model_1_get (v : ℚ) : (grey_model_1 v).get 0 0 = (v, v, v) :=
  get_mkImage 1 1 _ 0 0 (by decide) (by decide)

theorem background_settles_32F_witness :
    1 / 2 ^ 20 ≤ pixel_detector.avg_weight ∧ pixel_detector.avg_weight ≤ 1 ∧
    Is8Bit white_frame_1 ∧ 1 / (8192 * pixel_detector.avg_weight) < 1 / 100 ∧
    ∃ N0 : Nat, ∀ N : Nat, N0 ≤ N →
      ∃ bg, (feed_static_32F pixel_detector white_frame_1 N).run_avg = some bg ∧
        ∀ x y, x < white_frame_1.width → y < white_frame_1.height →
          pixel_distance (bg.get x y) (white_frame_1.get x y) < 1 / 100 :=
  ⟨by decide!, by decide!, white_frame_1_8bit, by decide!,
    background_settles_32F pixel_detector white_frame_1 (grey_model_1 0)
      (by decide!) (by decide!) white_frame_1_8bit rfl rfl rfl
      (by
        intro x y hx hy
        have hx0 : x = 0 := by simpa [white_frame_1] using hx
        have hy0 : y = 0 := by simpa [white_frame_1] using hy
        subst hx0 hy0
        rw [grey_model_1_get]
        decide!)
      (1 / 100) (by decide!)⟩

/-! ## The default weight: a black model facing a white frame -/

theorem cvRunningAvg_32F_grey (alpha v : ℚ) :
    cvRunningAvg_32F white_frame_1 (grey_model_1 v) alpha =
      grey_model_1 (accumulate_32F alpha v 255) := by
  unfold cvRunningAvg_32F grey_model_1
  apply mkImage_congr
  intro x y hx hy
  have hx0 : x = 0 := by simpa [mkImage_width] using hx
  have hy0 : y = 0 := by simpa [mkImage_height] using hy
  subst hx0 hy0
  rw [get_mkImage 1 1 _ 0 0 (by decide) (by decide)]
  rfl

theorem feed_static_32F_pixel (n : Nat) :
    (feed_static_32F pixel_detector white_frame_1 n).avg_weight = DEFAULT_AVG_WEIGHT ∧
    (feed_static_32F pixel_detector white_frame_1 n).run_avg =
      some (grey_model_1 ((fun d => accumulate_32F DEFAULT_AVG_WEIGHT d 255)^[n] 0)) := by
  induction n with
  | zero => exact ⟨rfl, rfl⟩
  | succ k ih =>
    obtain ⟨ha, hrun⟩ := ih
    rw [feed_static_32F_succ]
    refine ⟨ha, ?_⟩
    show some (update_run_avg_32F (feed_static_32F pixel_detector white_frame_1 k)
      white_frame_1) = _
    unfold update_run_avg_32F
    rw [hrun, ha]
    dsimp only
    rw [cvRunningAvg_32F_grey, Function.iterate_succ_apply']

/-- The value 255 - 11/65536 is left as it is by an update with the sample 255
under the default weight. -/
theorem accumulate_32F_fixed :
    accumulate_32F DEFAULT_AVG_WEIGHT (16711691 / 65536) 255 = 16711691 / 65536 := by
  decide!

set_option maxRecDepth 100000 in
theorem accumulate_32F_run_100 :
    (fun d => accumulate_32F DEFAULT_AVG_WEIGHT d 255)^[100] 0 =
      7247705 / 32768 := by
  decide!

set_option maxRecDepth 100000 in
theorem accumulate_32F_run_200 :
    (fun d => accumulate_32F DEFAULT_AVG_WEIGHT d 255)^[100] (7247705 / 32768) =
      16417789 / 65536 := by
  decide!

set_option maxRecDepth 100000 in
theorem accumulate_32F_run_300 :
    (fun d => accumulate_32F DEFAULT_AVG_WEIGHT d 255)^[100] (16417789 / 65536) =
      16672735 / 65536 := by
  decide!

set_option maxRecDepth 100000 in
theorem accumulate_32F_run_400 :
    (fun d => accumulate_32F DEFAULT_AVG_WEIGHT d 255)^[100] (16672735 / 65536) =
      16706547 / 65536 := by
  decide!

set_option maxRecDepth 100000 in
theorem accumulate_32F_run_500 :
    (fun d => accumulate_32F DEFAULT_AVG_WEIGHT d 255)^[100] (16706547 / 65536) =
      16711029 / 65536 := by
  decide!

set_option maxRecDepth 100000 in
theorem accumulate_32F_run_600 :
    (fun d => accumulate_32F DEFAULT_AVG_WEIGHT d 255)^[100] (16711029 / 65536) =
      16711623 / 65536 := by
  decide!

set_option maxRecDepth 100000 in
theorem accumulate_32F_run_659 :
    (fun d => accumulate_32F DEFAULT_AVG_WEIGHT d 255)^[59] (16711623 / 65536) =
      16711691 / 65536 := by
  decide!

/-- Under the default weight a black sample facing a white frame sample no
longer changes after 659 updates. -/
theorem accumulate_32F_stalls (N : Nat) (hN : 659 ≤ N) :
    (fun d => accumulate_32F DEFAULT_AVG_WEIGHT d 255)^[N] 0 = 16711691 / 65536 := by
  obtain ⟨m, rfl⟩ : ∃ m, N = m + (59 + (100 + (100 + (100 + (100 + (100 + 100)))))) :=
    ⟨N - 659, by omega⟩
  rw [Function.iterate_add_apply, Function.iterate_add_apply, Function.iterate_add_apply,
    Function.iterate_add_apply, Function.iterate_add_apply, Function.iterate_add_apply,
    Function.iterate_add_apply, accumulate_32F_run_100, accumulate_32F_run_200,
    accumulate_32F_run_300, accumulate_32F_run_400, accumulate_32F_run_500,
    accumulate_32F_run_600, accumulate_32F_run_659]
  exact @Function.iterate_fixed ℚ (fun d => accumulate_32F DEFAULT_AVG_WEIGHT d 255)
    (16711691 / 65536) accumulate_32F_fixed m

/-- C12, counterexample: with the default `avg_weight` 0.02 in (0, 1], a
black background model and a white frame, the model in single precision is
the same after every number of updates from 659 on, each channel at
255 - 11/65536; its distance to the frame, 11/65536, never falls below
1/10000. -/
theorem background_stalls_32F :
    0 < pixel_detector.avg_weight ∧ pixel_detector.avg_weight ≤ 1 ∧
    (∀ N : Nat, 659 ≤ N →
      (feed_static_32F pixel_detector white_frame_1 N).run_avg =
        some (grey_model_1 (16711691 / 65536))) ∧
    pixel_distance ((grey_model_1 (16711691 / 65536)).get 0 0) (white_frame_1.get 0 0) =
      11 / 65536 ∧
    ¬ ∃ N0 : Nat, ∀ N : Nat, N0 ≤ N →
      ∃ bg, (feed_static_32F pixel_detector white_frame_1 N).run_avg = some bg ∧
        ∀ x y, x < white_frame_1.width → y < white_frame_1.height →
          pixel_distance (bg.get x y) (white_frame_1.get x y) < 1 / 10000 := by
  have hstall : ∀ N : Nat, 659 ≤ N →
      (feed_static_32F pixel_detector white_frame_1 N).run_avg =
        some (grey_model_1 (16711691 / 65536)) := by
    intro N hN
    rw [(feed_static_32F_pixel N).2, accumulate_32F_stalls N hN]
  have hdist : pixel_distance ((grey_model_1 (16711691 / 65536)).get 0 0)
      (white_frame_1.get 0 0) = 11 / 65536 := by
    rw [grey_model_1_get]
    decide!
  refine ⟨by decide!, by decide!, hstall, hdist, ?_⟩
  rintro ⟨N0, h⟩
  obtain ⟨bg, hrun, hlt⟩ := h (max N0 659) (le_max_left _ _)
  rw [hstall _ (le_max_right _ _)] at hrun
  have hbg : grey_model_1 (16711691 / 65536) = bg := Option.some.inj hrun
  have h1 := hlt 0 0 (by decide) (by decide)
  rw [← hbg, hdist] at h1
  revert h1
  decide!


end MotionDetector
